import Mathlib

/-!
# Borealis Hub: the request handlers of `src/server/index.js`

A shallow embedding of the handlers of `/api/aurora` and `/api/spaceweather`
and of the part of the JavaScript semantics they rely on.

Modelling conventions

* A JavaScript Number is a `JSNum`: a rational, `+∞`, `-∞` or `NaN`. A finite
  `JSNum` stands for the binary64 number nearest to it (`roundToBinary64`),
  and `-0` is identified with `0`. A number read from a literal keeps the
  value of the literal, unless binary64 reads it as an infinity or as zero
  (`JSNum.ofLiteral`).
* The grid search (lines 40 to 43) and the Kp rounding (line 125) compute in
  binary64: the operands are rounded where they are read and every operation
  rounds its result (`JSNum.sub64`, `JSNum.mul64`, `JSNum.add64`). The
  arithmetic of the enrichment block (lines 78, 81, 103 and 104) is exact: on
  the integers from 0 to 100 that reach lines 103 and 104 it differs from
  binary64 only where the exact product of line 104 is a half-integer, which
  binary64 may round to the integer below.
* A value obtained from `JSON.parse` is a `Json`; a number carries the value
  of its literal. `undefined` is `none` in `Option Json`.
* An exception is the text `String(err)` of the thrown value, carried by
  `Except String`.
* The upstream answers and the clock readings are inputs of the handler.
  `Number.prototype.toString` and `Date.parse` are parameters (`Host`).
* The response is the status, the JSON value that `res.json` serialises (a
  Number that is not finite is written as null; a number passed through from
  an upstream body keeps the value of its literal) and the list of the
  upstream calls made.
-/

namespace Borealis

/-! ## Numbers -/

/-- A JavaScript Number: a finite value, an infinity, or NaN. -/
inductive JSNum where
  | fin (q : ℚ)
  | pinf
  | ninf
  | nan
  deriving DecidableEq

namespace JSNum

/-- The test `Number.isFinite(x)` for a Number `x`. -/
def isFinite : JSNum → Bool
  | fin _ => true
  | _ => false

/-- Unary minus. -/
def neg : JSNum → JSNum
  | fin q => fin (-q)
  | pinf => ninf
  | ninf => pinf
  | nan => nan

/-- The operator `a + b` on Numbers. -/
def add : JSNum → JSNum → JSNum
  | nan, _ => nan
  | _, nan => nan
  | fin a, fin b => fin (a + b)
  | fin _, pinf => pinf
  | fin _, ninf => ninf
  | pinf, ninf => nan
  | pinf, _ => pinf
  | ninf, pinf => nan
  | ninf, _ => ninf

/-- The operator `a - b` on Numbers. -/
def sub (a b : JSNum) : JSNum := add a (neg b)

/-- The sign of a product with an infinite factor: `s` is the other factor. -/
def infTimes (positive : Bool) (s : ℚ) : JSNum :=
  if s = 0 then nan else if (0 < s) = positive then pinf else ninf

/-- The operator `a * b` on Numbers. -/
def mul : JSNum → JSNum → JSNum
  | nan, _ => nan
  | _, nan => nan
  | fin a, fin b => fin (a * b)
  | fin a, pinf => infTimes true a
  | fin a, ninf => infTimes false a
  | pinf, fin b => infTimes true b
  | ninf, fin b => infTimes false b
  | pinf, pinf => pinf
  | pinf, ninf => ninf
  | ninf, pinf => ninf
  | ninf, ninf => pinf

/-- The operator `a / c` for a positive finite constant `c` (the handler
divides by the literals 100 and 10 only). -/
def divPos (a : JSNum) (c : ℚ) : JSNum :=
  match a with
  | fin q => fin (q / c)
  | x => x

/-- The operator `a < b`: false as soon as an operand is NaN. -/
def lt : JSNum → JSNum → Bool
  | nan, _ => false
  | _, nan => false
  | fin a, fin b => decide (a < b)
  | fin _, pinf => true
  | fin _, ninf => false
  | pinf, _ => false
  | ninf, ninf => false
  | ninf, _ => true

/-- The operator `a > b`. -/
def gt (a b : JSNum) : Bool := lt b a

/-- The operator `a <= b`: false as soon as an operand is NaN. -/
def le : JSNum → JSNum → Bool
  | nan, _ => false
  | _, nan => false
  | a, b => !(lt b a)

/-- The function `Math.round`: the nearest integer, halves going up. -/
def round : JSNum → JSNum
  | fin q => fin (⌊q + 1 / 2⌋ : ℤ)
  | x => x

/-- The function `Math.min(a, b)`. -/
def min (a b : JSNum) : JSNum :=
  match a, b with
  | nan, _ => nan
  | _, nan => nan
  | a, b => if lt b a then b else a

/-- The function `Math.max(a, b)`. -/
def max (a b : JSNum) : JSNum :=
  match a, b with
  | nan, _ => nan
  | _, nan => nan
  | a, b => if lt a b then b else a

/-- The function `Math.abs`. -/
def abs : JSNum → JSNum
  | fin q => fin |q|
  | pinf => pinf
  | ninf => pinf
  | nan => nan

end JSNum

/-! ## Binary64 -/

/-- The power `2^e` for an integer exponent. -/
def pow2 (e : ℤ) : ℚ := if 0 ≤ e then (2 : ℚ) ^ e.toNat else 1 / (2 : ℚ) ^ (-e).toNat

/-- The test `2^e ≤ q` for a rational `q ≥ 0`, on its numerator and its
denominator. -/
def reachesPow2 (q : ℚ) (e : ℤ) : Bool :=
  if 0 ≤ e then decide (q.den * 2 ^ e.toNat ≤ q.num.toNat)
  else decide (q.den ≤ q.num.toNat * 2 ^ (-e).toNat)

/-- The exponent of the binade of a rational `q ≥ 0`: the largest `e` from
-1022 on with `2^e ≤ q`, found by bisection, and -1022 for a `q` in the
subnormal range. -/
def binaryExponent (q : ℚ) : ℤ :=
  [1024, 512, 256, 128, 64, 32, 16, 8, 4, 2, 1].foldl
    (fun e s => if reachesPow2 q (e + s) then e + s else e) (-1022)

/-- The integer nearest to `x`, a half going to the even neighbour. -/
def roundHalfEven (x : ℚ) : ℤ :=
  if x - ⌊x⌋ < 1 / 2 then ⌊x⌋
  else if 1 / 2 < x - ⌊x⌋ then ⌊x⌋ + 1
  else if ⌊x⌋ % 2 = 0 then ⌊x⌋ else ⌊x⌋ + 1

/-- The binary64 number nearest to a rational `q ≥ 0`: a multiple of the unit
in the last place `2^(e-52)` of the binade of `q`, and `+∞` when that multiple
reaches `2^1024`. -/
def roundPositive (q : ℚ) : JSNum :=
  let ulp := pow2 (binaryExponent q - 52)
  let r : ℚ := (roundHalfEven (q / ulp) : ℚ) * ulp
  if pow2 1024 ≤ r then JSNum.pinf else JSNum.fin r

/-- The binary64 number nearest to a rational, ties to even. -/
def roundToBinary64 (q : ℚ) : JSNum :=
  if 0 ≤ q then roundPositive q else (roundPositive (-q)).neg

/-- From this magnitude on, binary64 rounds to an infinity. -/
def overflowThreshold : ℚ := 2 ^ 1024 - 2 ^ 970

/-- Up to this magnitude, binary64 rounds to zero. -/
def underflowThreshold : ℚ := 1 / 2 ^ 1075

namespace JSNum

/-- The binary64 number a Number stands for. -/
def toBinary64 : JSNum → JSNum
  | fin q => roundToBinary64 q
  | x => x

/-- The Number read from a numeric literal of value `q`: an infinity or zero
when binary64 reads it so, else `q` itself, which stands for the nearest
binary64 number. -/
def ofLiteral (q : ℚ) : JSNum :=
  if overflowThreshold ≤ q then pinf
  else if q ≤ -overflowThreshold then ninf
  else if |q| ≤ underflowThreshold then fin 0
  else fin q

/-- The operator `a - b` on binary64 operands: the binary64 number nearest
to the exact difference. -/
def sub64 (a b : JSNum) : JSNum := (a.sub b).toBinary64

/-- The operator `a * b` on binary64 operands. -/
def mul64 (a b : JSNum) : JSNum := (a.mul b).toBinary64

/-- The operator `a + b` on binary64 operands. -/
def add64 (a b : JSNum) : JSNum := (a.add b).toBinary64

end JSNum

/-! ## Values parsed from JSON -/

/-- A value produced by `JSON.parse`. A number carries the value of its
literal: it is read as the binary64 number nearest to it, and as an infinity
or as zero beyond the range. An object is the list of its own properties; a
key is looked up from the front of the list. -/
inductive Json where
  | null
  | bool (b : Bool)
  | num (q : ℚ)
  | str (s : String)
  | arr (xs : List Json)
  | obj (kvs : List (String × Json))

mutual
/-- Decidable equality of JSON values. -/
def Json.decEq (a b : Json) : Decidable (a = b) :=
  match a, b with
  | .null, .null => isTrue rfl
  | .bool x, .bool y =>
    if h : x = y then isTrue (by rw [h]) else isFalse (by intro e; cases e; exact h rfl)
  | .num x, .num y =>
    if h : x = y then isTrue (by rw [h]) else isFalse (by intro e; cases e; exact h rfl)
  | .str x, .str y =>
    if h : x = y then isTrue (by rw [h]) else isFalse (by intro e; cases e; exact h rfl)
  | .arr xs, .arr ys =>
    match Json.decEqList xs ys with
    | isTrue h => isTrue (by rw [h])
    | isFalse h => isFalse (by intro e; cases e; exact h rfl)
  | .obj xs, .obj ys =>
    match Json.decEqFields xs ys with
    | isTrue h => isTrue (by rw [h])
    | isFalse h => isFalse (by intro e; cases e; exact h rfl)
  | .null, .bool _ => isFalse (by intro e; cases e)
  | .null, .num _ => isFalse (by intro e; cases e)
  | .null, .str _ => isFalse (by intro e; cases e)
  | .null, .arr _ => isFalse (by intro e; cases e)
  | .null, .obj _ => isFalse (by intro e; cases e)
  | .bool _, .null => isFalse (by intro e; cases e)
  | .bool _, .num _ => isFalse (by intro e; cases e)
  | .bool _, .str _ => isFalse (by intro e; cases e)
  | .bool _, .arr _ => isFalse (by intro e; cases e)
  | .bool _, .obj _ => isFalse (by intro e; cases e)
  | .num _, .null => isFalse (by intro e; cases e)
  | .num _, .bool _ => isFalse (by intro e; cases e)
  | .num _, .str _ => isFalse (by intro e; cases e)
  | .num _, .arr _ => isFalse (by intro e; cases e)
  | .num _, .obj _ => isFalse (by intro e; cases e)
  | .str _, .null => isFalse (by intro e; cases e)
  | .str _, .bool _ => isFalse (by intro e; cases e)
  | .str _, .num _ => isFalse (by intro e; cases e)
  | .str _, .arr _ => isFalse (by intro e; cases e)
  | .str _, .obj _ => isFalse (by intro e; cases e)
  | .arr _, .null => isFalse (by intro e; cases e)
  | .arr _, .bool _ => isFalse (by intro e; cases e)
  | .arr _, .num _ => isFalse (by intro e; cases e)
  | .arr _, .str _ => isFalse (by intro e; cases e)
  | .arr _, .obj _ => isFalse (by intro e; cases e)
  | .obj _, .null => isFalse (by intro e; cases e)
  | .obj _, .bool _ => isFalse (by intro e; cases e)
  | .obj _, .num _ => isFalse (by intro e; cases e)
  | .obj _, .str _ => isFalse (by intro e; cases e)
  | .obj _, .arr _ => isFalse (by intro e; cases e)
/-- Decidable equality of lists of JSON values. -/
def Json.decEqList (as bs : List Json) : Decidable (as = bs) :=
  match as, bs with
  | [], [] => isTrue rfl
  | [], _ :: _ => isFalse (by intro e; cases e)
  | _ :: _, [] => isFalse (by intro e; cases e)
  | x :: xs, y :: ys =>
    match Json.decEq x y, Json.decEqList xs ys with
    | isTrue h, isTrue t => isTrue (by rw [h, t])
    | isFalse h, _ => isFalse (by intro e; cases e; exact h rfl)
    | _, isFalse t => isFalse (by intro e; cases e; exact t rfl)
/-- Decidable equality of property lists. -/
def Json.decEqFields (as bs : List (String × Json)) : Decidable (as = bs) :=
  match as, bs with
  | [], [] => isTrue rfl
  | [], _ :: _ => isFalse (by intro e; cases e)
  | _ :: _, [] => isFalse (by intro e; cases e)
  | (k, x) :: xs, (l, y) :: ys =>
    if hk : k = l then
      match Json.decEq x y, Json.decEqFields xs ys with
      | isTrue h, isTrue t => isTrue (by rw [hk, h, t])
      | isFalse h, _ => isFalse (by intro e; cases e; exact h rfl)
      | _, isFalse t => isFalse (by intro e; cases e; exact t rfl)
    else isFalse (by intro e; cases e; exact hk rfl)
end

instance : DecidableEq Json := Json.decEq

/-! ## Conversions -/

/-- The host functions the handler calls and the program does not define:
`Number.prototype.toString` on a finite Number, and `Date.parse` (`none` is
the time value NaN of an invalid date). -/
structure Host where
  numToString : ℚ → String
  dateParse : String → Option ℤ

/-- The text of the TypeError raised when an object has no callable
conversion method (the wording is the engine's; this one is V8's). -/
def typeErrorText : String := "TypeError: Cannot convert object to primitive value"

/-- The text of the TypeError raised when a non-iterable is destructured. -/
def notIterableText : String := "TypeError: triple is not iterable"

/-- The text of the TypeError raised when `noaa.coordinates` is read on null
(the wording is V8's). -/
def nullReadText : String :=
  "TypeError: Cannot read properties of null (reading 'coordinates')"

mutual
/-- The conversion ToString of a JSON value, which is also what its method
`toString()` returns. An array joins its elements with commas; a plain object
gives "[object Object]", unless an own property named toString shadows the
inherited method: that property is not callable and a TypeError is thrown. -/
def Json.toStr (H : Host) : Json → Except String String
  | .null => .ok "null"
  | .bool b => .ok (if b then "true" else "false")
  | .num q => .ok (H.numToString q)
  | .str s => .ok s
  | .arr xs => (Json.toStrs H xs).map (String.intercalate ",")
  | .obj kvs => if (kvs.lookup "toString").isSome then .error typeErrorText
      else .ok "[object Object]"
/-- The strings `Array.prototype.join` joins: null gives the empty string. -/
def Json.toStrs (H : Host) : List Json → Except String (List String)
  | [] => .ok []
  | x :: xs =>
    match (match x with
      | .null => Except.ok ""
      | y => Json.toStr H y : Except String String) with
    | .error e => .error e
    | .ok a =>
      match Json.toStrs H xs with
      | .error e => .error e
      | .ok rest => .ok (a :: rest)
end

/-- The characters StringToNumber and parseFloat skip: WhiteSpace and
LineTerminator of the language grammar. -/
def isStrWhiteSpace (c : Char) : Bool :=
  let n := c.toNat
  n == 9 || n == 10 || n == 11 || n == 12 || n == 13 || n == 32 || n == 160 ||
  n == 5760 || (8192 ≤ n && n ≤ 8202) || n == 8232 || n == 8233 || n == 8239 ||
  n == 8287 || n == 12288 || n == 65279

/-- The value of a decimal digit. -/
def digitValue (c : Char) : ℕ := c.toNat - 48

/-- The value of a sequence of decimal digits. -/
def digitsValue (ds : List Char) : ℕ := ds.foldl (fun acc c => 10 * acc + digitValue c) 0

/-- The number `m × 10^e`. -/
def scaleByPow10 (m : ℚ) (e : ℤ) : ℚ :=
  if 0 ≤ e then m * (10 : ℚ) ^ e.toNat else m / (10 : ℚ) ^ (-e).toNat

/-- One or more decimal digits at the head of the input. -/
def scanDigits (cs : List Char) : Option (ℕ × List Char) :=
  let ds := cs.takeWhile Char.isDigit
  if ds = [] then none else some (digitsValue ds, cs.dropWhile Char.isDigit)

/-- An optional ExponentPart at the head of the input: when none is well
formed the exponent is 0 and nothing is consumed. -/
def scanExponent (cs : List Char) : ℤ × List Char :=
  match cs with
  | [] => (0, cs)
  | c :: rest =>
    if c = 'e' ∨ c = 'E' then
      match rest with
      | [] => (0, cs)
      | s :: rest2 =>
        if s = '+' then
          match scanDigits rest2 with
          | some (n, r) => ((n : ℤ), r)
          | none => (0, cs)
        else if s = '-' then
          match scanDigits rest2 with
          | some (n, r) => (-(n : ℤ), r)
          | none => (0, cs)
        else
          match scanDigits rest with
          | some (n, r) => ((n : ℤ), r)
          | none => (0, cs)
    else (0, cs)

/-- The longest StrUnsignedDecimalLiteral at the head of the input, with its
value and the rest of the input. -/
def scanUnsignedDecimal (cs : List Char) : Option (JSNum × List Char) :=
  if cs.take 8 = "Infinity".toList then some (JSNum.pinf, cs.drop 8)
  else
    let ip := cs.takeWhile Char.isDigit
    let r1 := cs.dropWhile Char.isDigit
    match r1 with
    | c :: r2 =>
      if c = '.' then
        let fp := r2.takeWhile Char.isDigit
        let r3 := r2.dropWhile Char.isDigit
        if ip = [] ∧ fp = [] then none
        else
          let m : ℚ := (digitsValue ip : ℚ) + (digitsValue fp : ℚ) / (10 : ℚ) ^ fp.length
          let er := scanExponent r3
          some (JSNum.ofLiteral (scaleByPow10 m er.1), er.2)
      else if ip = [] then none
      else
        let er := scanExponent r1
        some (JSNum.ofLiteral (scaleByPow10 (digitsValue ip : ℚ) er.1), er.2)
    | [] => if ip = [] then none else some (JSNum.ofLiteral (digitsValue ip : ℚ), [])

/-- The longest StrDecimalLiteral (an optional sign, then an unsigned
literal) at the head of the input. -/
def scanDecimal (cs : List Char) : Option (JSNum × List Char) :=
  match cs with
  | [] => none
  | c :: rest =>
    if c = '+' then scanUnsignedDecimal rest
    else if c = '-' then (scanUnsignedDecimal rest).map (fun vr => (JSNum.neg vr.1, vr.2))
    else scanUnsignedDecimal cs

/-- The value of a digit in a radix up to 16, when it is one. -/
def radixDigit (radix : ℕ) (c : Char) : Option ℕ :=
  let n := c.toNat
  let v := if 48 ≤ n ∧ n ≤ 57 then n - 48
    else if 97 ≤ n ∧ n ≤ 102 then n - 87
    else if 65 ≤ n ∧ n ≤ 70 then n - 55
    else 16
  if v < radix then some v else none

/-- The digits of a NonDecimalIntegerLiteral, folded from the left. -/
def scanRadixDigits (radix : ℕ) : List Char → ℕ → Option ℕ
  | [], acc => some acc
  | c :: cs, acc =>
    match radixDigit radix c with
    | some v => scanRadixDigits radix cs (radix * acc + v)
    | none => none

/-- A whole NonDecimalIntegerLiteral: 0x, 0o or 0b and at least one digit. -/
def radixLiteral (cs : List Char) : Option ℕ :=
  match cs with
  | z :: p :: d :: ds =>
    if z = '0' then
      if p = 'x' ∨ p = 'X' then scanRadixDigits 16 (d :: ds) 0
      else if p = 'o' ∨ p = 'O' then scanRadixDigits 8 (d :: ds) 0
      else if p = 'b' ∨ p = 'B' then scanRadixDigits 2 (d :: ds) 0
      else none
    else none
  | _ => none

/-- White space removed at both ends. -/
def trimWhiteSpace (cs : List Char) : List Char :=
  ((cs.dropWhile isStrWhiteSpace).reverse.dropWhile isStrWhiteSpace).reverse

/-- The conversion StringToNumber, which `Number(s)` applies to a string:
the empty or blank string is 0, a string that is not a whole numeric literal
is NaN. -/
def stringToNumber (s : String) : JSNum :=
  let cs := trimWhiteSpace s.toList
  if cs = [] then JSNum.fin 0
  else
    match radixLiteral cs with
    | some n => JSNum.ofLiteral (n : ℚ)
    | none =>
      match scanDecimal cs with
      | some (v, []) => v
      | _ => JSNum.nan

/-- The function `parseFloat` on a string: leading white space is skipped and
the longest prefix that is a decimal literal is read; NaN when there is none. -/
def parseFloat (s : String) : JSNum :=
  match scanDecimal (s.toList.dropWhile isStrWhiteSpace) with
  | some (v, _) => v
  | none => JSNum.nan

/-- The conversion ToNumber of a value (`none` is undefined): the operand
conversion of `-` and of `Math.round`, and the function `Number(v)`. An array
or an object is first converted to a string. -/
def toNumber (H : Host) : Option Json → Except String JSNum
  | none => .ok JSNum.nan
  | some .null => .ok (JSNum.fin 0)
  | some (.bool b) => .ok (JSNum.fin (if b then 1 else 0))
  | some (.num q) => .ok (JSNum.ofLiteral q)
  | some (.str s) => .ok (stringToNumber s)
  | some v => (Json.toStr H v).map stringToNumber

/-- The truthiness of a JSON value: a number is falsy when it is read as
zero. -/
def Json.truthy : Json → Bool
  | .null => false
  | .bool b => b
  | .num q => decide (underflowThreshold < |q|)
  | .str s => decide (s ≠ "")
  | .arr _ => true
  | .obj _ => true

/-- The expression `v || null`. -/
def orNull : Option Json → Json
  | some j => if j.truthy then j else .null
  | none => .null

/-- The expression `v || []`. -/
def orEmptyArray : Option Json → Json
  | some j => if j.truthy then j else .arr []
  | none => .arr []

/-- The own property `k` of a value, for the keys the handler reads (none of
them is inherited by an array, a string or a primitive). -/
def Json.getOwn (k : String) : Json → Option Json
  | .obj kvs => kvs.lookup k
  | _ => none

/-- The optional access `v?.k`. -/
def getProp (v : Option Json) (k : String) : Option Json := v.bind (Json.getOwn k)

/-- The optional access `v?.[0]`: the first element of an array, the first
character of a string (strings are sequences of code points here, of UTF-16
code units in the engine), the own property "0" of an object. -/
def index0 : Option Json → Option Json
  | some (.arr xs) => xs.head?
  | some (.str s) =>
    match s.toList with
    | [] => none
    | c :: _ => some (.str (String.singleton c))
  | some (.obj kvs) => kvs.lookup "0"
  | _ => none

/-- The serialisation of a Number by `JSON.stringify`: a non-finite Number
is written as null. -/
def JSNum.toJson : JSNum → Json
  | .fin q => .num q
  | _ => .null

/-! ## Upstream answers and the clock -/

/-- The outcome of `await fetch(url)` and of `await resp.json()` on the
response: the fetch rejects (with the text of its reason), or it resolves to
a response with a status, whose body parses to a value or fails to (with the
text of the error). -/
inductive FetchResult where
  | rejected (reason : String)
  | response (status : ℕ) (body : Except String Json)

/-- The property `resp.ok`: the status is in the range 200 to 299. -/
def statusOk (status : ℕ) : Bool := 200 ≤ status && status ≤ 299

/-- The three readings of the clock, in milliseconds since the epoch: `now`
of the nearest-hour search, and the two `new Date()` of the day/night test. -/
structure Clock where
  atHourSearch : ℤ
  atSunriseTest : ℤ
  atSunsetTest : ℤ

/-- Everything a request reads from outside the process. -/
structure World where
  noaa : FetchResult
  openMeteo : FetchResult
  kp : FetchResult
  clock : Clock

/-- A call to an upstream service. -/
inductive Call where
  | noaaGrid
  | openMeteo (lat lon : ℚ)
  | kpIndex
  deriving DecidableEq

/-- What the handler has done when it returns: the response it sent and the
upstream calls it made, in order. -/
structure Outcome where
  status : ℕ
  body : Json
  calls : List Call

/-! ## Grid resolver (lines 26 to 54) -/

/-- The object `{ lat: gLat, lon: gLon, value }`. -/
structure Nearest where
  lat : Option Json
  lon : Option Json
  value : Option Json
  deriving DecidableEq

/-- The destructuring `const [gLon, gLat, value] = triple`: the first three
elements of an array or of a string, a TypeError on anything else. -/
def destructureTriple : Json → Except String (Option Json × Option Json × Option Json)
  | .arr xs => .ok (xs[0]?, xs[1]?, xs[2]?)
  | .str s =>
    let cs := s.toList.map (fun c => Json.str (String.singleton c))
    .ok (cs[0]?, cs[1]?, cs[2]?)
  | _ => .error notIterableText

/-- One turn of the loop over `coords`: the state is `(nearest, bestDist)`.
The operands of lines 40 and 41 are binary64 numbers and the operations of
lines 40 to 42 are those of binary64. -/
def nearestStep (H : Host) (lat lon : ℚ) (st : Option Nearest × JSNum) (triple : Json) :
    Except String (Option Nearest × JSNum) :=
  match destructureTriple triple with
  | .error e => .error e
  | .ok (gLon, gLat, value) =>
    match toNumber H gLat with
    | .error e => .error e
    | .ok a =>
      match toNumber H gLon with
      | .error e => .error e
      | .ok b =>
        let dLat := a.toBinary64.sub64 (JSNum.fin lat).toBinary64
        let dLon := b.toBinary64.sub64 (JSNum.fin lon).toBinary64
        let dist2 := (dLat.mul64 dLat).add64 (dLon.mul64 dLon)
        if dist2.lt st.2 then .ok (some ⟨gLat, gLon, value⟩, dist2) else .ok st

/-- The loop `for (const triple of coords)`. -/
def nearestLoop (H : Host) (lat lon : ℚ) :
    List Json → Option Nearest × JSNum → Except String (Option Nearest × JSNum)
  | [], st => .ok st
  | t :: ts, st =>
    match nearestStep H lat lon st t with
    | .error e => .error e
    | .ok st2 => nearestLoop H lat lon ts st2

/-- The search for the nearest grid point, from `nearest = null` and
`bestDist = Infinity`. -/
def findNearest (H : Host) (lat lon : ℚ) (coords : List Json) : Except String (Option Nearest) :=
  (nearestLoop H lat lon coords (none, JSNum.pinf)).map (fun st => st.1)

/-- The array `coords`: `noaa.coordinates` when it is an array, else `[]`. -/
def coordsOf (noaa : Json) : List Json :=
  match noaa.getOwn "coordinates" with
  | some (.arr xs) => xs
  | _ => []

/-- What the grid feed contributes to the response. -/
structure GridData where
  probability : JSNum
  observation : Json
  forecast : Json

/-- The clamp `Math.max(0, Math.min(100, Math.round(x)))`. -/
def clampPercent (x : JSNum) : JSNum :=
  JSNum.max (JSNum.fin 0) (JSNum.min (JSNum.fin 100) (JSNum.round x))

/-- Lines 49 to 51: the probability from the resolved sample, or an error. -/
def probabilityOf (H : Host) (nearest : Option Nearest) : Except String JSNum :=
  match (match nearest with
    | some n => toNumber H n.value
    | none => Except.ok JSNum.nan : Except String JSNum) with
  | .error e => .error e
  | .ok p =>
    if !p.isFinite then .error "Error: NOAA value not numeric"
    else .ok (clampPercent p)

/-- Lines 26 to 54: the mandatory part of the request. An error is what the
outer `catch` receives. -/
def gridPhase (H : Host) (lat lon : ℚ) (r : FetchResult) : Except String GridData :=
  match r with
  | .rejected reason => .error reason
  | .response status body =>
    if !statusOk status then .error ("Error: NOAA fetch failed: " ++ toString status)
    else
      match body with
      | .error e => .error e
      | .ok noaa =>
        if noaa = Json.null then .error nullReadText
        else if coordsOf noaa = [] then .error "Error: NOAA data missing coordinates"
        else
          match findNearest H lat lon (coordsOf noaa) with
          | .error e => .error e
          | .ok nearest =>
            match probabilityOf H nearest with
            | .error e => .error e
            | .ok p =>
              .ok ⟨p, orNull (noaa.getOwn "Observation Time"), orNull (noaa.getOwn "Forecast Time")⟩

/-! ## Environmental enrichment (lines 56 to 109) -/

/-- The clipping of a Number to a time value: NaN beyond 8.64e15 ms, else the
integer part. -/
def timeClip (q : ℚ) : JSNum :=
  if |q| ≤ 8640000000000000 then JSNum.fin ((if 0 ≤ q then ⌊q⌋ else ⌈q⌉ : ℤ) : ℚ) else JSNum.nan

/-- The time value of a parsed date string. -/
def parsedTime (H : Host) (s : String) : JSNum :=
  match H.dateParse s with
  | some t => JSNum.fin (t : ℚ)
  | none => JSNum.nan

/-- The time value of `new Date(v)`: a string is parsed, an array or an object
is converted to a string and parsed, anything else is converted to a Number. -/
def newDate (H : Host) : Json → Except String JSNum
  | .str s => .ok (parsedTime H s)
  | .null => .ok (JSNum.fin 0)
  | .bool b => .ok (JSNum.fin (if b then 1 else 0))
  | .num q => .ok (timeClip q)
  | v => (Json.toStr H v).map (parsedTime H)

/-- One turn of the nearest-hour loop: the state is `(idx, bestDiff)`. -/
def hourStep (H : Host) (now : ℤ) (st : ℕ × JSNum) (i : ℕ) (t : Json) :
    Except String (ℕ × JSNum) :=
  match newDate H t with
  | .error e => .error e
  | .ok tv =>
    let diff := JSNum.abs (tv.sub (JSNum.fin (now : ℚ)))
    if diff.lt st.2 then .ok (i, diff) else .ok st

/-- The loop `for (let i = 0; i < times.length; i++)`, from index `i`. -/
def hourLoop (H : Host) (now : ℤ) : List Json → ℕ → ℕ × JSNum → Except String (ℕ × JSNum)
  | [], _, st => .ok st
  | t :: ts, i, st =>
    match hourStep H now st i t with
    | .error e => .error e
    | .ok st2 => hourLoop H now ts (i + 1) st2

/-- Lines 71 to 83: the cloud cover of the nearest hour and its label, `none`
when the guard on the two arrays fails. -/
def cloudPhase (H : Host) (om : Json) (now : ℤ) : Except String (Option (JSNum × String)) :=
  match orEmptyArray (getProp (getProp (some om) "hourly") "time"),
      orEmptyArray (getProp (getProp (some om) "hourly") "cloudcover") with
  | .arr times, .arr values =>
    if times.length = values.length ∧ times.length ≠ 0 then
      match hourLoop H now times 0 (0, JSNum.pinf) with
      | .error e => .error e
      | .ok (idx, _) =>
        match toNumber H values[idx]? with
        | .error e => .error e
        | .ok v =>
          let cloudCover := clampPercent v
          .ok (some (cloudCover, if cloudCover.le (JSNum.fin 40) then "Visibile" else "Coperto"))
    else .ok none
  | _, _ => .ok none

/-- The object `{ isNight, sunrise: sunriseStr, sunset: sunsetStr }`. -/
structure Dark where
  isNight : Option Bool
  sunrise : Json
  sunset : Json

/-- Lines 90 to 99: `sr` and `ss` are the time values of the two dates, `none`
when the date is null. -/
def isNightOf (atSunriseTest atSunsetTest : ℤ) : Option JSNum → Option JSNum → Option Bool
  | some sr, some ss =>
    some ((JSNum.fin (atSunriseTest : ℚ)).lt sr || (JSNum.fin (atSunsetTest : ℚ)).gt ss)
  | none, some _ => some true
  | some _, none => some false
  | none, none => none

/-- The expression `str ? new Date(str) : null`. -/
def dateOrNull (H : Host) (str : Json) : Except String (Option JSNum) :=
  if str.truthy then (newDate H str).map some else .ok none

/-- Lines 86 to 100: the object assigned to `dark`. -/
def darkPhase (H : Host) (om : Json) (atSunriseTest atSunsetTest : ℤ) : Except String Dark :=
  let sunriseStr := orNull (index0 (getProp (getProp (some om) "daily") "sunrise"))
  let sunsetStr := orNull (index0 (getProp (getProp (some om) "daily") "sunset"))
  match dateOrNull H sunriseStr with
  | .error e => .error e
  | .ok sr =>
    match dateOrNull H sunsetStr with
    | .error e => .error e
    | .ok ss => .ok ⟨isNightOf atSunriseTest atSunsetTest sr ss, sunriseStr, sunsetStr⟩

/-- Lines 101 to 105: the value assigned to `visibility`, `none` when the guard
`Number.isFinite(probability)` fails. -/
def visibilityOf (probability : JSNum) (isNight : Option Bool) (cloudCover : Option JSNum) :
    Option JSNum :=
  if probability.isFinite then
    let nightFactor : JSNum := if isNight = some false then JSNum.fin 0 else JSNum.fin 1
    let cloudFactor : JSNum :=
      match cloudCover with
      | none => JSNum.fin 1
      | some c => (JSNum.fin 1).sub (c.divPos 100)
    some (JSNum.round ((JSNum.max (JSNum.fin 0)
      (JSNum.min (JSNum.fin 1) (nightFactor.mul cloudFactor))).mul probability))
  else none

/-- The variables the enrichment block assigns: `cloud` is `cloudCover` with
`cloudStatus` (`none` while `cloudCover` is null). -/
structure Enriched where
  cloud : Option (JSNum × String)
  dark : Option Dark
  visibility : Option JSNum

/-- Lines 56 to 109. An exception stops the block and is swallowed; the
assignments made before it are kept. -/
def enrichPhase (H : Host) (probability : JSNum) (r : FetchResult) (clock : Clock) : Enriched :=
  match r with
  | .rejected _ => ⟨none, none, none⟩
  | .response status body =>
    if statusOk status then
      match body with
      | .error _ => ⟨none, none, none⟩
      | .ok om =>
        match cloudPhase H om clock.atHourSearch with
        | .error _ => ⟨none, none, none⟩
        | .ok cloud =>
          match darkPhase H om clock.atSunriseTest clock.atSunsetTest with
          | .error _ => ⟨cloud, none, none⟩
          | .ok dark =>
            ⟨cloud, some dark, visibilityOf probability dark.isNight (cloud.map (fun c => c.1))⟩
    else ⟨none, none, none⟩

/-! ## Geomagnetic index (lines 111 to 130) -/

/-- The call `s.replace(',', '.')`: the first comma becomes a dot. -/
def replaceFirstComma : List Char → List Char
  | [] => []
  | c :: cs => if c = ',' then '.' :: cs else c :: replaceFirstComma cs

/-- The expression `(latest?.estimated_kp ?? '')`. -/
def estimatedOrEmpty (latest : Json) : Json :=
  match latest.getOwn "estimated_kp" with
  | none => .str ""
  | some .null => .str ""
  | some v => v

/-- The fixed label of the Kp source. -/
def kpSourceLabel : String := "NOAA Planetary Kp (1m, estimated)"

/-- Lines 122 to 125 on the latest entry: the pair `(kp, kpSource)`, `none`
while `kp` is null. The product `v * 10` is that of binary64; the quotient of
the rounded product by 10 stands for the binary64 number nearest to it. -/
def kpOfLatest (H : Host) (latest : Json) : Except String (Option (JSNum × String)) :=
  match (estimatedOrEmpty latest).toStr H with
  | .error e => .error e
  | .ok s =>
    let v := stringToNumber (String.mk (replaceFirstComma s.toList))
    match (if v.isFinite then Except.ok v
      else toNumber H (latest.getOwn "kp_index") : Except String JSNum) with
    | .error e => .error e
    | .ok v2 =>
      if v2.isFinite then
        .ok (some (((v2.toBinary64.mul64 (JSNum.fin 10)).round).divPos 10, kpSourceLabel))
      else .ok none

/-- Lines 111 to 130. An exception is swallowed and leaves `kp` null. -/
def kpPhase (H : Host) (r : FetchResult) : Option (JSNum × String) :=
  match r with
  | .rejected _ => none
  | .response status body =>
    if statusOk status then
      match body with
      | .ok (.arr kpData) =>
        match kpData.getLast? with
        | none => none
        | some latest =>
          match kpOfLatest H latest with
          | .error _ => none
          | .ok kp => kp
      | _ => none
    else none

/-! ## The handler of `GET /api/aurora` (lines 18 to 146) -/

/-- The value `parseFloat(req.query.x)` for a query parameter that is absent
or a string: an absent parameter is undefined, which reads as "undefined". -/
def queryNumber (q : Option String) : JSNum :=
  match q with
  | some s => parseFloat s
  | none => parseFloat "undefined"

/-- The body `{ ok: false, error: 'Invalid lat/lon' }` sent with status 400. -/
def invalidBody : Json := .obj [("ok", .bool false), ("error", .str "Invalid lat/lon")]

/-- The body sent with status 502 by the outer `catch`. -/
def upstreamErrorBody (e : String) : Json :=
  .obj [("ok", .bool false), ("error", .str e), ("message", .str "Dati non disponibili, riprova")]

/-- The field `cloud` of the response. -/
def cloudJson : Option (JSNum × String) → Json
  | none => .null
  | some (cover, status) => .obj [("cover", cover.toJson), ("status", .str status)]

/-- The field `dark` of the response. -/
def darkJson : Option Dark → Json
  | none => .null
  | some d =>
    .obj [("isNight", match d.isNight with
        | none => Json.null
        | some b => Json.bool b),
      ("sunrise", d.sunrise), ("sunset", d.sunset)]

/-- The field `visibility` of the response. -/
def visibilityJson : Option JSNum → Json
  | none => .null
  | some v => v.toJson

/-- The field `kp` of the response. -/
def kpJson : Option (JSNum × String) → Json
  | none => .null
  | some (value, source) => .obj [("value", value.toJson), ("source", .str source)]

/-- The body of a successful response, as `JSON.stringify` writes it. -/
def successBody (lat lon : ℚ) (g : GridData) (e : Enriched) (kp : Option (JSNum × String)) : Json :=
  .obj [("ok", .bool true), ("lat", .num lat), ("lon", .num lon),
    ("probability", g.probability.toJson),
    ("timestamps", .obj [("observation", g.observation), ("forecast", g.forecast)]),
    ("source", .str "NOAA OVATION (SWPC)"),
    ("cloud", cloudJson e.cloud), ("dark", darkJson e.dark),
    ("visibility", visibilityJson e.visibility), ("kp", kpJson kp)]

/-- The handler of `GET /api/aurora`. -/
def auroraHandler (H : Host) (latQ lonQ : Option String) (w : World) : Outcome :=
  match queryNumber latQ, queryNumber lonQ with
  | .fin lat, .fin lon =>
    match gridPhase H lat lon w.noaa with
    | .error e => ⟨502, upstreamErrorBody e, [Call.noaaGrid]⟩
    | .ok g =>
      ⟨200, successBody lat lon g (enrichPhase H g.probability w.openMeteo w.clock)
        (kpPhase H w.kp), [Call.noaaGrid, Call.openMeteo lat lon, Call.kpIndex]⟩
  | _, _ => ⟨400, invalidBody, []⟩

/-- A field of the response body. -/
def Outcome.field (o : Outcome) (k : String) : Option Json := o.body.getOwn k

/-! ## Sample host and sample upstream answers -/

/-- The decimal digits of the fraction `r / d` with `r < d`, at most `fuel`. -/
def fractionDigits (d : ℕ) : ℕ → ℕ → List Char
  | 0, _ => []
  | fuel + 1, r =>
    if r = 0 then [] else Char.ofNat (48 + 10 * r / d) :: fractionDigits d fuel (10 * r % d)

/-- A number printer for the sample host: sign, integer part, and the
decimal expansion of the fraction when there is one. -/
def sampleNumToString (q : ℚ) : String :=
  let n := q.num.natAbs
  (if q < 0 then "-" else "") ++ toString (n / q.den) ++
    (if n % q.den = 0 then "" else "." ++ String.mk (fractionDigits q.den 17 (n % q.den)))

/-- The days from 1970-01-01 to a date of the proleptic Gregorian calendar. -/
def daysFromCivil (y m d : ℤ) : ℤ :=
  let y2 := if m ≤ 2 then y - 1 else y
  let era := y2 / 400
  let yoe := y2 - era * 400
  let doy := (153 * (if 2 < m then m - 3 else m + 9) + 2) / 5 + d - 1
  era * 146097 + (yoe * 365 + yoe / 4 - yoe / 100 + doy) - 719468

/-- The number of days of a month of the proleptic Gregorian calendar. -/
def daysInMonth (y m : ℕ) : ℕ :=
  if m = 2 then (if y % 4 = 0 ∧ (y % 100 ≠ 0 ∨ y % 400 = 0) then 29 else 28)
  else if m = 4 ∨ m = 6 ∨ m = 9 ∨ m = 11 then 30 else 31

/-- A date parser for the sample host: the format "YYYY-MM-DDTHH:MM" of the
weather feed, read as UTC; a field out of its range gives an invalid date. -/
def sampleDateParse (s : String) : Option ℤ :=
  match s.toList with
  | [y1, y2, y3, y4, s1, m1, m2, s2, d1, d2, t, h1, h2, c, n1, n2] =>
    if s1 = '-' ∧ s2 = '-' ∧ t = 'T' ∧ c = ':' ∧
        [y1, y2, y3, y4, m1, m2, d1, d2, h1, h2, n1, n2].all Char.isDigit ∧
        1 ≤ digitsValue [m1, m2] ∧ digitsValue [m1, m2] ≤ 12 ∧ 1 ≤ digitsValue [d1, d2] ∧
        digitsValue [d1, d2] ≤ daysInMonth (digitsValue [y1, y2, y3, y4]) (digitsValue [m1, m2]) ∧
        digitsValue [n1, n2] ≤ 59 ∧
        (digitsValue [h1, h2] ≤ 23 ∨ (digitsValue [h1, h2] = 24 ∧ digitsValue [n1, n2] = 0)) then
      some ((daysFromCivil (digitsValue [y1, y2, y3, y4]) (digitsValue [m1, m2])
          (digitsValue [d1, d2]) * 1440 + (digitsValue [h1, h2] : ℤ) * 60 +
          (digitsValue [n1, n2] : ℤ)) * 60000)
    else none
  | _ => none

/-- A host for the concrete evaluations. -/
def sampleHost : Host := ⟨sampleNumToString, sampleDateParse⟩

/-- A grid feed with three samples `[lon, lat, value]`. -/
def sampleGrid : Json :=
  .obj [("Observation Time", .str "2024-01-15T11:00:00Z"),
    ("Forecast Time", .str "2024-01-15T11:40:00Z"),
    ("coordinates", .arr [.arr [.num 18, .num 69, .num 40], .arr [.num 19, .num 70, .num 80],
      .arr [.num 19, .num 69, .num 12]])]

/-- A weather feed: the cloud cover `c` at 11:00, 12:00 and 13:00, sunrise at
08:00 and sunset at 16:00 (either may be absent). -/
def meteoFeed (c : Json) (sunrise sunset : List Json) : Json :=
  .obj [("hourly", .obj [("time", .arr [.str "2024-01-15T11:00", .str "2024-01-15T12:00",
        .str "2024-01-15T13:00"]),
      ("cloudcover", .arr [c, c, c])]),
    ("daily", .obj [("sunrise", .arr sunrise), ("sunset", .arr sunset)])]

/-- The weather feed with cloud cover 35, sunrise 08:00 and sunset 16:00. -/
def sampleMeteo : Json :=
  meteoFeed (.num 35) [.str "2024-01-15T08:00"] [.str "2024-01-15T16:00"]

/-- A weather feed without the hourly series. -/
def dailyOnlyFeed (sunrise sunset : List Json) : Json :=
  .obj [("daily", .obj [("sunrise", .arr sunrise), ("sunset", .arr sunset)])]

/-- A weather feed whose sunrise is an object with an own property named
toString, as `JSON.parse` builds it from the text
`{"daily":{"sunrise":[{"toString":1}]}}`. -/
def shadowedMeteo : Json :=
  .obj [("daily", .obj [("sunrise", .arr [.obj [("toString", .num 1)]])])]

/-- A Kp feed whose latest entry has the estimate "1,67". -/
def sampleKp : Json :=
  .arr [.obj [("time_tag", .str "2024-01-15T11:58:00"), ("kp_index", .num 1),
      ("estimated_kp", .str "1,33")],
    .obj [("time_tag", .str "2024-01-15T11:59:00"), ("kp_index", .num 2),
      ("estimated_kp", .str "1,67")]]

/-- The instant 2024-01-15T12:00 UTC in milliseconds. -/
def sampleNoon : ℤ := 1705320000000

/-- The instant 2024-01-15T20:00 UTC in milliseconds. -/
def sampleEvening : ℤ := 1705348800000

/-- A clock that reads the same instant three times. -/
def clockAt (now : ℤ) : Clock := ⟨now, now, now⟩

/-- A world in which the three feeds answer with status 200: the grid feed
and the Kp feed are the samples, the weather feed is `meteo`. -/
def worldWith (meteo : Json) (now : ℤ) : World :=
  ⟨.response 200 (.ok sampleGrid), .response 200 (.ok meteo), .response 200 (.ok sampleKp),
    clockAt now⟩

/-- The world of the three sample feeds. -/
def sampleWorld (now : ℤ) : World := worldWith sampleMeteo now

/-- A Kp feed whose latest entry has no `estimated_kp` and the `kp_index` "2". -/
def fallbackKp : Json :=
  .arr [.obj [("time_tag", .str "2024-01-15T11:59:00"), ("kp_index", .str "2")]]

/-- A Kp feed whose latest entry has a non-numeric `estimated_kp` and the
`kp_index` "2". -/
def unreadableEstimateKp : Json :=
  .arr [.obj [("time_tag", .str "2024-01-15T11:59:00"), ("kp_index", .str "2"),
    ("estimated_kp", .str "n/a")]]

/-- A Kp feed whose latest entry has the estimate "1,4499999999999999". -/
def longEstimateKp : Json :=
  .arr [.obj [("time_tag", .str "2024-01-15T11:59:00"), ("kp_index", .num 1),
    ("estimated_kp", .str "1,4499999999999999")]]

/-- A Kp feed whose latest entry has neither `estimated_kp` nor `kp_index`. -/
def emptyEntryKp : Json := .arr [.obj [("time_tag", .str "2024-01-15T11:59:00")]]

/-- The sample world with another answer of the Kp feed. -/
def worldWithKp (kp : Json) (now : ℤ) : World :=
  ⟨.response 200 (.ok sampleGrid), .response 200 (.ok sampleMeteo), .response 200 (.ok kp),
    clockAt now⟩

/-! ## The handler of `GET /api/spaceweather` (lines 149 to 177) -/

/-- The element access `v[i]` on a value that is not null: the element of an
array, the character of a string (code points here, UTF-16 code units in the
engine), the own property of an object, undefined on a number or a boolean. -/
def indexAt (v : Json) (i : ℕ) : Option Json :=
  match v with
  | .arr xs => xs[i]?
  | .str s => (s.toList[i]?).map (fun c => Json.str (String.singleton c))
  | .obj kvs => kvs.lookup (toString i)
  | _ => none

/-- The expression `Array.isArray(x) && x.length > 1 ? x[x.length - 1] : null`. -/
def lastRow : Json → Json
  | .arr xs =>
    if 1 < xs.length then
      match xs.getLast? with
      | some row => row
      | none => .null
    else .null
  | _ => .null

/-- The expression `a || b`. -/
def orElse (a b : Option Json) : Option Json :=
  match a with
  | some j => if j.truthy then some j else b
  | none => b

/-- The answers of the two solar wind feeds. -/
structure SpaceWorld where
  plasma : FetchResult
  mag : FetchResult

/-- A response: its status and its body. -/
structure Reply where
  status : ℕ
  body : Json

/-- Lines 164 to 172: the object `out`, as `JSON.stringify` writes it. The five
conversions `Number(...)` run in the order of the source. -/
def spaceBody (H : Host) (pLast mLast : Json) : Except String Json :=
  match toNumber H (indexAt pLast 2) with
  | .error e => .error e
  | .ok speed =>
    match toNumber H (indexAt pLast 1) with
    | .error e => .error e
    | .ok density =>
      match toNumber H (indexAt pLast 3) with
      | .error e => .error e
      | .ok temperature =>
        match toNumber H (indexAt mLast 3) with
        | .error e => .error e
        | .ok bz =>
          match toNumber H (indexAt mLast 6) with
          | .error e => .error e
          | .ok bt =>
            .ok (.obj [("ok", .bool true),
              ("time", orNull (orElse (indexAt pLast 0) (indexAt mLast 0))),
              ("speed_km_s", speed.toJson), ("density_p_cm3", density.toJson),
              ("temperature_K", temperature.toJson), ("bz_nT", bz.toJson),
              ("bt_nT", bt.toJson)])

/-- Lines 150 to 173: the body of the `try`. An error is what the `catch`
receives. When both fetches reject, `Promise.all` rejects with the reason of
the one that rejects first in time; the reason of the plasma fetch stands for
it here. -/
def spacePhase (H : Host) (w : SpaceWorld) : Except String Json :=
  match w.plasma, w.mag with
  | .rejected reason, _ => .error reason
  | .response _ _, .rejected reason => .error reason
  | .response pStatus pBody, .response mStatus mBody =>
    if !statusOk pStatus || !statusOk mStatus then .error "Error: Space weather fetch failed"
    else
      match pBody with
      | .error e => .error e
      | .ok plasma =>
        match mBody with
        | .error e => .error e
        | .ok mag =>
          if !(lastRow plasma).truthy || !(lastRow mag).truthy then
            .error "Error: Space weather data unavailable"
          else spaceBody H (lastRow plasma) (lastRow mag)

/-- The handler of `GET /api/spaceweather`. -/
def spaceweatherHandler (H : Host) (w : SpaceWorld) : Reply :=
  match spacePhase H w with
  | .error e => ⟨502, .obj [("ok", .bool false), ("error", .str e)]⟩
  | .ok body => ⟨200, body⟩

/-- A field of the body of a reply. -/
def Reply.field (r : Reply) (k : String) : Option Json := r.body.getOwn k

/-! ## More sample upstream answers -/

/-- A plasma feed: the header row and two samples. -/
def samplePlasma : Json :=
  .arr [.arr [.str "time_tag", .str "density", .str "speed", .str "temperature"],
    .arr [.str "2024-01-15 11:50:00.000", .str "4.80", .str "405.1", .str "91000"],
    .arr [.str "2024-01-15 11:55:00.000", .str "5.12", .str "412.3", .str "98234"]]

/-- A magnetic-field feed: the header row and two samples. -/
def sampleMag : Json :=
  .arr [.arr [.str "time_tag", .str "bx_gsm", .str "by_gsm", .str "bz_gsm", .str "lon_gsm",
      .str "lat_gsm", .str "bt"],
    .arr [.str "2024-01-15 11:50:00.000", .str "1.10", .str "-2.00", .str "-3.10",
      .str "290.00", .str "-40.00", .str "4.10"],
    .arr [.str "2024-01-15 11:55:00.000", .str "1.25", .str "-2.50", .str "-3.75",
      .str "296.57", .str "-53.30", .str "4.68"]]

/-- A plasma feed with a single row. -/
def oneRowPlasma : Json :=
  .arr [.arr [.str "2024-01-15 11:55:00.000", .str "5.12", .str "412.3", .str "98234"]]

/-- A weather feed whose hourly series has one timestamp that is an object
with an own property named toString, as `JSON.parse` builds it from the text
`{"hourly":{"time":[{"toString":1}],"cloudcover":[0]}}`. -/
def shadowedHourlyMeteo : Json :=
  .obj [("hourly", .obj [("time", .arr [.obj [("toString", .num 1)]]),
    ("cloudcover", .arr [.num 0])])]

/-- A weather feed with sunrise at 08:00 and sunset at 16:00 whose hourly
series has one timestamp that is an object with an own property named
toString. -/
def shadowedHourlyDayMeteo : Json :=
  .obj [("hourly", .obj [("time", .arr [.obj [("toString", .num 1)]]),
      ("cloudcover", .arr [.num 0])]),
    ("daily", .obj [("sunrise", .arr [.str "2024-01-15T08:00"]),
      ("sunset", .arr [.str "2024-01-15T16:00"])])]

/-- A world in which the grid feed and the weather feed answer with status
200 and the Kp feed is unreachable. -/
def worldWithoutKp (meteo : Json) (now : ℤ) : World :=
  ⟨.response 200 (.ok sampleGrid), .response 200 (.ok meteo),
    .rejected "TypeError: fetch failed", clockAt now⟩

/-- A world in which the grid feed and the Kp feed answer with status 200 and
the weather feed is unreachable. -/
def worldWithoutMeteo (now : ℤ) : World :=
  ⟨.response 200 (.ok sampleGrid), .rejected "TypeError: fetch failed",
    .response 200 (.ok sampleKp), clockAt now⟩

/-! ## The variables of the cloud part and the field `cloud` -/

/-- The variable `cloudCover` after the enrichment block. -/
def Enriched.cloudCover (e : Enriched) : Option JSNum := e.cloud.map (fun c => c.1)

/-- The variable `cloudStatus` after the enrichment block: the placeholder of
line 58 until line 82 assigns a label. -/
def Enriched.cloudStatus (e : Enriched) : String :=
  match e.cloud with
  | none => "N/D"
  | some c => c.2

/-- Line 138: `cloudCover == null ? null : { cover: cloudCover, status: cloudStatus }`. -/
def cloudField (cloudCover : Option JSNum) (cloudStatus : String) : Json :=
  match cloudCover with
  | none => .null
  | some c => .obj [("cover", c.toJson), ("status", .str cloudStatus)]

/-! ## Notions of the specification -/

/-- The squared distance of the specification between the query point and a
sample `(lon, lat, value)`. -/
def squaredDistance (lat lon : ℚ) (s : ℚ × ℚ × Json) : ℚ :=
  (s.2.1 - lat) ^ 2 + (s.1 - lon) ^ 2

/-- The squared distance between the query point and a sample as binary64
computes `(gLat - lat)^2 + (gLon - lon)^2`: each of the five operations gives
the binary64 number nearest to its exact result, an infinity on overflow. -/
def computedDistance (lat lon : ℚ) (s : ℚ × ℚ × Json) : JSNum :=
  JSNum.add64
    (JSNum.mul64 ((JSNum.ofLiteral s.2.1).toBinary64.sub64 (JSNum.fin lat).toBinary64)
      ((JSNum.ofLiteral s.2.1).toBinary64.sub64 (JSNum.fin lat).toBinary64))
    (JSNum.mul64 ((JSNum.ofLiteral s.1).toBinary64.sub64 (JSNum.fin lon).toBinary64)
      ((JSNum.ofLiteral s.1).toBinary64.sub64 (JSNum.fin lon).toBinary64))

/-- A Number that is not below zero: a rational from 0 on, `+∞`, or NaN. -/
def JSNum.notBelowZero : JSNum → Prop
  | .fin q => 0 ≤ q
  | .pinf => True
  | .ninf => False
  | .nan => True

/-- The array `[lon, lat, value]` of a sample with numeric coordinates. -/
def sampleTriple (s : ℚ × ℚ × Json) : Json := .arr [.num s.1, .num s.2.1, s.2.2]

/-- The object `nearest` the loop builds from a sample. -/
def nearestOfSample (s : ℚ × ℚ × Json) : Nearest :=
  ⟨some (.num s.2.1), some (.num s.1), some s.2.2⟩

/-- A JSON value that is null or an integer from 0 to 100. -/
def isNullOrPercent (j : Json) : Prop := j = .null ∨ ∃ n : ℕ, n ≤ 100 ∧ j = .num (n : ℚ)

/-- The composite visibility of the specification,
`round(clamp(nightFactor * cloudFactor, 0, 1) * probability)`, over the
rationals: `nightFactor` is 0 by day and 1 at night or when unknown,
`cloudFactor` is 1 when the cloud cover is unknown and `1 - cloudCover/100`
otherwise. -/
def visibilitySpec (probability : ℚ) (isNight : Option Bool) (cloudCover : Option ℚ) : ℤ :=
  let nightFactor : ℚ := if isNight = some false then 0 else 1
  let cloudFactor : ℚ :=
    match cloudCover with
    | none => 1
    | some c => 1 - c / 100
  ⌊max 0 (min 1 (nightFactor * cloudFactor)) * probability + 1 / 2⌋

/-- The product `clamp(nightFactor * cloudFactor, 0, 1) * probability` of the
specification, before it is rounded. -/
def visibilityProduct (probability : ℚ) (isNight : Option Bool) (cloudCover : Option ℚ) : ℚ :=
  let nightFactor : ℚ := if isNight = some false then 0 else 1
  let cloudFactor : ℚ :=
    match cloudCover with
    | none => 1
    | some c => 1 - c / 100
  max 0 (min 1 (nightFactor * cloudFactor)) * probability

/-- The value of `isNight` read back from the response. -/
def isNightOfJson : Json → Option Bool
  | .bool b => some b
  | _ => none

/-- The search over `coords` ends on a sample whose value converts to a
finite Number. -/
def resolvesFinite (H : Host) (lat lon : ℚ) (coords : List Json) : Prop :=
  ∃ n q, findNearest H lat lon coords = .ok (some n) ∧ toNumber H n.value = .ok (JSNum.fin q)

/-- The grid feed is fetched with an OK status, its body parses, its
collection of coordinates is a non-empty array and the resolved value is a
finite Number. -/
def gridFeedUsable (H : Host) (lat lon : ℚ) (r : FetchResult) : Prop :=
  ∃ status noaa, r = .response status (.ok noaa) ∧ statusOk status = true ∧
    coordsOf noaa ≠ [] ∧ resolvesFinite H lat lon (coordsOf noaa)

/-- The enrichment call fails: the fetch throws, or the status is not OK, or
the body does not parse. -/
def enrichmentFails (r : FetchResult) : Prop :=
  (∃ reason, r = .rejected reason) ∨
    (∃ status body, r = .response status body ∧ statusOk status = false) ∨
    (∃ status e, r = .response status (.error e))

/-- The number a decimal string denotes: `ip` are the digits before the
separator and `fp` the digits after it. -/
def decimalValue (ip fp : List Char) : ℚ :=
  (digitsValue ip : ℚ) + (digitsValue fp : ℚ) / (10 : ℚ) ^ fp.length

/-- A decimal literal: an optional minus sign, the digits `ip` and, when `fp`
is given, a dot and the digits `fp`. -/
def decimalLiteral (negative : Bool) (ip : List Char) (fp : Option (List Char)) : String :=
  String.mk ((if negative then ['-'] else []) ++
    match fp with
    | none => ip
    | some ds => ip ++ '.' :: ds)

/-- The number a decimal literal denotes. -/
def literalValue (negative : Bool) (ip : List Char) (fp : Option (List Char)) : ℚ :=
  if negative then -decimalValue ip (fp.getD []) else decimalValue ip (fp.getD [])

/-- A number that binary64 reads as a finite Number. -/
def readsFinite (q : ℚ) : Prop := |q| < overflowThreshold

/-- A string with no numeric prefix: it is empty, or its first character is
not white space, a digit, a sign, a dot or the letter I. -/
def startsNonNumeric (s : String) : Prop :=
  match s.toList with
  | [] => True
  | c :: _ => isStrWhiteSpace c = false ∧ c.isDigit = false ∧ c ≠ '+' ∧ c ≠ '-' ∧ c ≠ '.' ∧
      c ≠ 'I'

/-- A number rounded to one decimal place, a half going up. -/
def roundedToTenth (d : ℚ) : ℚ := (⌊d * 10 + 1 / 2⌋ : ℤ) / 10

/-- The distance in time between a timestamp `t` and the instant `now`. -/
def timeDistance (now t : ℤ) : ℤ := |t - now|

/-- The array of the timestamp strings of a list of timestamps, each given
with its time value. -/
def timestampArray (ts : List (String × ℤ)) : Json := .arr (ts.map (fun p => Json.str p.1))

/-- A cloud-cover value rounded to the nearest integer and clamped to the
range from 0 to 100. -/
def clampedRounded (c : ℚ) : ℤ := max 0 (min 100 ⌊c + 1 / 2⌋)

/-- The hourly timestamps and cloud-cover values of a weather body are both
arrays, of equal non-zero length. -/
def hourlyArraysMatch (om : Json) : Prop :=
  ∃ times values, getProp (getProp (some om) "hourly") "time" = some (.arr times) ∧
    getProp (getProp (some om) "hourly") "cloudcover" = some (.arr values) ∧
    times.length = values.length ∧ times.length ≠ 0

/-- The processing of a weather body raises no exception: the cloud part
(lines 71 to 83) and the day/night part (lines 86 to 100) both complete. -/
def processingCompletes (H : Host) (om : Json) (clock : Clock) : Prop :=
  (∃ c, cloudPhase H om clock.atHourSearch = .ok c) ∧
    ∃ d, darkPhase H om clock.atSunriseTest clock.atSunsetTest = .ok d

/-- There are upstream inputs for which the request succeeds with the field
`a` null and the field `b` present and non-null. -/
def nullWithout (a b : String) : Prop :=
  ∃ (H : Host) (latQ lonQ : Option String) (w : World),
    (auroraHandler H latQ lonQ w).status = 200 ∧
    (auroraHandler H latQ lonQ w).field a = some .null ∧
    ((auroraHandler H latQ lonQ w).field b).isSome = true ∧
    (auroraHandler H latQ lonQ w).field b ≠ some .null

/-- A feed fails: the fetch throws, or the status is not OK, or the body does
not parse. -/
def feedFails (r : FetchResult) : Prop :=
  (∃ reason, r = .rejected reason) ∨
    (∃ status body, r = .response status body ∧ statusOk status = false) ∨
    (∃ status e, r = .response status (.error e))

/-- A feed answers with a body that has no latest row to read: the body is not
an array of at least two rows, or its last row is a falsy value. -/
def lacksLatestRow (r : FetchResult) : Prop :=
  ∃ status body, r = .response status (.ok body) ∧ (lastRow body).truthy = false

/-- Today's sunrise of a weather body: the first element of `daily.sunrise`,
null when it is absent or falsy. -/
def todaysSunrise (om : Json) : Json :=
  orNull (index0 (getProp (getProp (some om) "daily") "sunrise"))

/-- Today's sunset of a weather body: the first element of `daily.sunset`,
null when it is absent or falsy. -/
def todaysSunset (om : Json) : Json :=
  orNull (index0 (getProp (getProp (some om) "daily") "sunset"))

/-! ## Lemmas on binary64 -/

theorem pow2_pos (e : ℤ) : 0 < pow2 e := by
  unfold pow2
  split <;> positivity

theorem roundHalfEven_nonneg (x : ℚ) (h : 0 ≤ x) : 0 ≤ roundHalfEven x := by
  have hf : 0 ≤ ⌊x⌋ := Int.floor_nonneg.2 h
  unfold roundHalfEven
  split
  · exact hf
  · split
    · omega
    · split <;> omega

theorem roundPositive_notBelowZero (q : ℚ) (h : 0 ≤ q) : (roundPositive q).notBelowZero := by
  unfold roundPositive
  simp only
  split
  · trivial
  · have hu := pow2_pos (binaryExponent q - 52)
    have hr : (0 : ℚ) ≤ (roundHalfEven (q / pow2 (binaryExponent q - 52)) : ℚ) := by
      exact_mod_cast roundHalfEven_nonneg _ (div_nonneg h hu.le)
    exact mul_nonneg hr hu.le

theorem roundToBinary64_notBelowZero (q : ℚ) (h : 0 ≤ q) : (roundToBinary64 q).notBelowZero := by
  simp only [roundToBinary64, h, if_true]
  exact roundPositive_notBelowZero q h

theorem toBinary64_notBelowZero (x : JSNum) (h : x.notBelowZero) : x.toBinary64.notBelowZero := by
  cases x with
  | fin q => exact roundToBinary64_notBelowZero q h
  | pinf => trivial
  | ninf => exact h
  | nan => trivial

theorem mul_self_notBelowZero (x : JSNum) : (x.mul x).notBelowZero := by
  cases x with
  | fin q => exact mul_self_nonneg q
  | pinf => trivial
  | ninf => trivial
  | nan => trivial

theorem add_notBelowZero (x y : JSNum) (hx : x.notBelowZero) (hy : y.notBelowZero) :
    (x.add y).notBelowZero := by
  cases x <;> cases y <;> simp_all [JSNum.add, JSNum.notBelowZero]
  exact add_nonneg hx hy

theorem mul64_self_notBelowZero (x : JSNum) : (x.mul64 x).notBelowZero :=
  toBinary64_notBelowZero _ (mul_self_notBelowZero _)

theorem computedDistance_notBelowZero (lat lon : ℚ) (s : ℚ × ℚ × Json) :
    (computedDistance lat lon s).notBelowZero := by
  unfold computedDistance JSNum.add64
  exact toBinary64_notBelowZero _ (add_notBelowZero _ _ (mul64_self_notBelowZero _)
    (mul64_self_notBelowZero _))

theorem pow2_eq_zpow (e : ℤ) : pow2 e = (2 : ℚ) ^ e := by
  unfold pow2
  split
  · next h =>
    conv_rhs => rw [← Int.toNat_of_nonneg h]
    rw [zpow_natCast]
  · next h =>
    have h2 : 0 ≤ -e := by omega
    have h3 : e = -((-e).toNat : ℤ) := by rw [Int.toNat_of_nonneg h2]; ring
    conv_rhs => rw [h3]
    rw [zpow_neg, zpow_natCast, one_div]

theorem pow2_sub (e : ℤ) (n : ℕ) : pow2 (e - n) = pow2 e / 2 ^ n := by
  rw [pow2_eq_zpow, pow2_eq_zpow, zpow_sub₀ (by norm_num), zpow_natCast]

theorem pow2_natCast (n : ℕ) : pow2 (n : ℤ) = 2 ^ n := by
  rw [pow2_eq_zpow, zpow_natCast]

theorem pow2_neg_natCast (n : ℕ) : pow2 (-(n : ℤ)) = 1 / 2 ^ n := by
  rw [pow2_eq_zpow, zpow_neg, zpow_natCast, one_div]

theorem reachesPow2_le (q : ℚ) (h0 : 0 ≤ q) (e : ℤ) (h : reachesPow2 q e = true) :
    pow2 e ≤ q := by
  have hnum : ((q.num.toNat : ℕ) : ℚ) = (q.num : ℚ) := by
    have : ((q.num.toNat : ℕ) : ℤ) = q.num := Int.toNat_of_nonneg (Rat.num_nonneg.2 h0)
    exact_mod_cast this
  have hden : (0 : ℚ) < (q.den : ℚ) := by exact_mod_cast q.den_pos
  have hq : q = (q.num : ℚ) / (q.den : ℚ) := (Rat.num_div_den q).symm
  unfold reachesPow2 at h
  unfold pow2
  split
  · next he =>
    simp only [he, if_true, decide_eq_true_eq] at h
    have h2 : ((q.den * 2 ^ e.toNat : ℕ) : ℚ) ≤ ((q.num.toNat : ℕ) : ℚ) := by exact_mod_cast h
    rw [hnum] at h2
    push_cast at h2
    rw [hq, le_div_iff₀ hden]
    linarith
  · next he =>
    simp only [he, if_false, decide_eq_true_eq] at h
    have h2 : ((q.den : ℕ) : ℚ) ≤ ((q.num.toNat * 2 ^ (-e).toNat : ℕ) : ℚ) := by exact_mod_cast h
    push_cast at h2
    rw [hnum] at h2
    have hp : (0 : ℚ) < 2 ^ (-e).toNat := by positivity
    rw [div_le_iff₀ hp]
    conv_rhs => rw [hq]
    rw [div_mul_eq_mul_div, le_div_iff₀ hden]
    linarith

theorem binaryExponent_le (q : ℚ) (h0 : 0 ≤ q) :
    binaryExponent q = -1022 ∨ pow2 (binaryExponent q) ≤ q := by
  unfold binaryExponent
  have key : ∀ (l : List ℤ) (e : ℤ), (e = -1022 ∨ pow2 e ≤ q) →
      (l.foldl (fun e s => if reachesPow2 q (e + s) then e + s else e) e = -1022 ∨
        pow2 (l.foldl (fun e s => if reachesPow2 q (e + s) then e + s else e) e) ≤ q) := by
    intro l
    induction l with
    | nil => intro e h; exact h
    | cons s l ih =>
      intro e h
      simp only [List.foldl]
      apply ih
      split
      · next hs => exact Or.inr (reachesPow2_le q h0 _ hs)
      · exact h
  exact key _ _ (Or.inl rfl)

theorem roundHalfEven_close (x : ℚ) : |(roundHalfEven x : ℚ) - x| ≤ 1 / 2 := by
  have h1 := Int.floor_le x
  have h2 := Int.lt_floor_add_one x
  unfold roundHalfEven
  rw [abs_le]
  split
  · constructor <;> linarith
  · next h3 =>
    split
    · push_cast
      constructor <;> linarith
    · next h4 =>
      split
      · constructor <;> linarith
      · push_cast
        constructor <;> linarith

/-- The rounding error of `roundPositive`, and a bound that keeps it finite. -/
theorem roundPositive_close (q : ℚ) (h0 : 0 ≤ q) (hb : q ≤ 2 ^ 1022) :
    ∃ r : ℚ, roundPositive q = JSNum.fin r ∧ 0 ≤ r ∧
      |r - q| ≤ max q (1 / 2 ^ 1022) / 2 ^ 53 := by
  have hulp : pow2 (binaryExponent q - 52) = pow2 (binaryExponent q) / 2 ^ 52 := by
    have := pow2_sub (binaryExponent q) 52
    simpa using this
  have hpos := pow2_pos (binaryExponent q - 52)
  have hle : pow2 (binaryExponent q) ≤ max q (1 / 2 ^ 1022) := by
    rcases binaryExponent_le q h0 with h | h
    · rw [h]
      apply le_max_of_le_right
      exact le_of_eq (pow2_neg_natCast 1022)
    · exact le_max_of_le_left h
  have hclose := roundHalfEven_close (q / pow2 (binaryExponent q - 52))
  have herr : |(roundHalfEven (q / pow2 (binaryExponent q - 52)) : ℚ) *
      pow2 (binaryExponent q - 52) - q| ≤ max q (1 / 2 ^ 1022) / 2 ^ 53 := by
    have e1 : (roundHalfEven (q / pow2 (binaryExponent q - 52)) : ℚ) *
        pow2 (binaryExponent q - 52) - q =
        ((roundHalfEven (q / pow2 (binaryExponent q - 52)) : ℚ) -
          q / pow2 (binaryExponent q - 52)) * pow2 (binaryExponent q - 52) := by
      field_simp
    rw [e1, abs_mul, abs_of_pos hpos]
    calc |(roundHalfEven (q / pow2 (binaryExponent q - 52)) : ℚ) -
          q / pow2 (binaryExponent q - 52)| * pow2 (binaryExponent q - 52)
        ≤ 1 / 2 * pow2 (binaryExponent q - 52) := mul_le_mul_of_nonneg_right hclose hpos.le
      _ = pow2 (binaryExponent q) / 2 ^ 53 := by rw [hulp]; ring
      _ ≤ max q (1 / 2 ^ 1022) / 2 ^ 53 := by
        apply div_le_div_of_nonneg_right hle
        positivity
  have hmax : max q (1 / 2 ^ 1022) ≤ 2 ^ 1022 := by
    apply max_le hb
    norm_num
  have hr0 : (0 : ℚ) ≤ (roundHalfEven (q / pow2 (binaryExponent q - 52)) : ℚ) *
      pow2 (binaryExponent q - 52) := by
    have : (0 : ℚ) ≤ (roundHalfEven (q / pow2 (binaryExponent q - 52)) : ℚ) := by
      exact_mod_cast roundHalfEven_nonneg _ (div_nonneg h0 hpos.le)
    exact mul_nonneg this hpos.le
  refine ⟨_, ?_, hr0, herr⟩
  unfold roundPositive
  simp only
  rw [if_neg]
  rw [not_le]
  have h1 := (abs_le.1 herr).2
  have h2 : max q (1 / 2 ^ 1022) / 2 ^ 53 ≤ (2 : ℚ) ^ 1022 :=
    le_trans (div_le_self (le_trans h0 (le_max_left _ _)) (by norm_num)) hmax
  have h3 : pow2 1024 = (2 : ℚ) ^ 1024 := pow2_natCast 1024
  rw [h3]
  have h4 : (2 : ℚ) ^ 1022 + 2 ^ 1022 < 2 ^ 1024 := by norm_num
  linarith

theorem roundToBinary64_close (q : ℚ) (h0 : 0 ≤ q) (hb : q ≤ 2 ^ 1022) :
    ∃ r : ℚ, roundToBinary64 q = JSNum.fin r ∧ 0 ≤ r ∧
      |r - q| ≤ max q (1 / 2 ^ 1022) / 2 ^ 53 := by
  simp only [roundToBinary64, h0, if_true]
  exact roundPositive_close q h0 hb

theorem roundToBinary64_zero : roundToBinary64 0 = JSNum.fin 0 := by decide!

theorem overflowThreshold_gt : (2 : ℚ) ^ 1023 < overflowThreshold := by
  unfold overflowThreshold
  norm_num

theorem ofLiteral_nonneg (d : ℚ) (h0 : 0 ≤ d) (hb : d < overflowThreshold) :
    (JSNum.ofLiteral d = JSNum.fin 0 ∧ d ≤ underflowThreshold) ∨
      (JSNum.ofLiteral d = JSNum.fin d ∧ underflowThreshold < d) := by
  have hT : (0 : ℚ) < overflowThreshold := lt_trans (by positivity) overflowThreshold_gt
  unfold JSNum.ofLiteral
  rw [if_neg (not_le.2 hb), if_neg (by linarith), abs_of_nonneg h0]
  by_cases hu : d ≤ underflowThreshold
  · exact Or.inl ⟨by rw [if_pos hu], hu⟩
  · exact Or.inr ⟨by rw [if_neg hu], not_le.1 hu⟩

/-- The binary64 number a literal of value `d` is read as, with the error of
the reading. -/
theorem ofLiteral_toBinary64_close (d : ℚ) (h0 : 0 ≤ d) (hb : d ≤ 2 ^ 1022) :
    ∃ d2 r : ℚ, JSNum.ofLiteral d = JSNum.fin d2 ∧ roundToBinary64 d2 = JSNum.fin r ∧ 0 ≤ r ∧
      |r - d| ≤ max d (1 / 2 ^ 1022) / 2 ^ 53 := by
  have hlt : d < overflowThreshold :=
    lt_of_le_of_lt hb (lt_trans (by norm_num) overflowThreshold_gt)
  rcases ofLiteral_nonneg d h0 hlt with ⟨h, hu⟩ | ⟨h, _⟩
  · refine ⟨0, 0, h, roundToBinary64_zero, le_refl _, ?_⟩
    rw [zero_sub, abs_neg, abs_of_nonneg h0]
    have h1 : underflowThreshold = 1 / 2 ^ 1022 / 2 ^ 53 := by
      unfold underflowThreshold
      norm_num
    rw [h1] at hu
    exact le_trans hu (div_le_div_of_nonneg_right (le_max_right _ _) (by positivity))
  · obtain ⟨r, hr, hr0, herr⟩ := roundToBinary64_close d h0 hb
    exact ⟨d, r, h, hr, hr0, herr⟩

/-- Line 125 on a Number read from a literal of value `d`: the result is a
tenth `k / 10`, within `1/20 + (d + 1) / 2^51` of `d`. -/
theorem kpRound_close (d : ℚ) (h0 : 0 ≤ d) (hb : d ≤ 2 ^ 1000) :
    ∃ (d2 : ℚ) (k : ℤ), JSNum.ofLiteral d = JSNum.fin d2 ∧
      (((JSNum.fin d2).toBinary64.mul64 (JSNum.fin 10)).round).divPos 10 =
        JSNum.fin ((k : ℚ) / 10) ∧
      |(k : ℚ) / 10 - d| ≤ 1 / 20 + (d + 1) / 2 ^ 51 := by
  have hb2 : d ≤ 2 ^ 1022 := le_trans hb (by norm_num)
  obtain ⟨d2, r, hd2, hr, hr0, herr⟩ := ofLiteral_toBinary64_close d h0 hb2
  have hmax : max d (1 / 2 ^ 1022) ≤ d + 1 := by
    apply max_le (by linarith)
    have : (1 : ℚ) / 2 ^ 1022 ≤ 1 := by norm_num
    linarith
  have herr2 : |r - d| ≤ (d + 1) / 2 ^ 53 :=
    le_trans herr (div_le_div_of_nonneg_right hmax (by positivity))
  have hrle : r ≤ d + (d + 1) / 2 ^ 53 := by
    have := (abs_le.1 herr2).2
    linarith
  have hsmall : (d + 1) / 2 ^ 53 ≤ d + 1 := div_le_self (by linarith) (by norm_num)
  have hr10 : r * 10 ≤ 2 ^ 1022 := by
    have : (2 : ℚ) ^ 1000 * 20 + 20 ≤ 2 ^ 1022 := by norm_num
    linarith
  obtain ⟨y, hy, hy0, hyerr⟩ := roundToBinary64_close (r * 10) (by linarith) hr10
  have hmax2 : max (r * 10) (1 / 2 ^ 1022) ≤ 10 * (d + 1) + 10 * ((d + 1) / 2 ^ 53) := by
    apply max_le (by linarith)
    have : (1 : ℚ) / 2 ^ 1022 ≤ 1 := by norm_num
    have : 0 ≤ (d + 1) / 2 ^ 53 := div_nonneg (by linarith) (by norm_num)
    linarith
  have hyerr2 : |y - r * 10| ≤ (10 * (d + 1) + 10 * ((d + 1) / 2 ^ 53)) / 2 ^ 53 :=
    le_trans hyerr (div_le_div_of_nonneg_right hmax2 (by positivity))
  refine ⟨d2, ⌊y + 1 / 2⌋, hd2, ?_, ?_⟩
  · simp only [JSNum.mul64, JSNum.toBinary64, hr, JSNum.mul, hy, JSNum.round, JSNum.divPos]
  · have hk1 := Int.floor_le (y + 1 / 2)
    have hk2 := Int.lt_floor_add_one (y + 1 / 2)
    have ha := abs_le.1 herr2
    have hb3 := abs_le.1 hyerr2
    have hD : (0 : ℚ) ≤ d + 1 := by linarith
    have e1 : (10 * (d + 1) + 10 * ((d + 1) / 2 ^ 53)) / 2 ^ 53 + 10 * ((d + 1) / 2 ^ 53) ≤
        10 * ((d + 1) / 2 ^ 51) := by
      have : (10 * (d + 1) + 10 * ((d + 1) / 2 ^ 53)) / 2 ^ 53 + 10 * ((d + 1) / 2 ^ 53) =
          (d + 1) * ((10 + 10 / 2 ^ 53) / 2 ^ 53 + 10 / 2 ^ 53) := by ring
      rw [this]
      have h2 : 10 * ((d + 1) / 2 ^ 51) = (d + 1) * (10 / 2 ^ 51) := by ring
      rw [h2]
      apply mul_le_mul_of_nonneg_left _ hD
      norm_num
    rw [abs_le]
    constructor <;> linarith

/-! ## Lemmas on the grid resolver -/

theorem nearestLoop_append (H : Host) (lat lon : ℚ) (xs ys : List Json)
    (st : Option Nearest × JSNum) :
    nearestLoop H lat lon (xs ++ ys) st =
      match nearestLoop H lat lon xs st with
      | .error e => .error e
      | .ok st2 => nearestLoop H lat lon ys st2 := by
  induction xs generalizing st with
  | nil => simp [nearestLoop]
  | cons x xs ih =>
    simp only [List.cons_append, nearestLoop]
    cases nearestStep H lat lon st x with
    | error e => rfl
    | ok st2 => exact ih st2

theorem nearestStep_sample (H : Host) (lat lon : ℚ) (st : Option Nearest × JSNum)
    (s : ℚ × ℚ × Json) :
    nearestStep H lat lon st (sampleTriple s) =
      .ok (if (computedDistance lat lon s).lt st.2
        then (some (nearestOfSample s), computedDistance lat lon s) else st) := by
  simp only [nearestStep, sampleTriple, destructureTriple, toNumber, computedDistance,
    nearestOfSample, List.getElem?_cons_zero, List.getElem?_cons_succ]
  split <;> rfl

theorem nearestLoop_samples (H : Host) (lat lon : ℚ) (samples : List (ℚ × ℚ × Json)) :
    ∃ st, nearestLoop H lat lon (samples.map sampleTriple) (none, JSNum.pinf) = .ok st ∧
      ((st = (none, JSNum.pinf) ∧
          ∀ t ∈ samples, (computedDistance lat lon t).isFinite = false) ∨
        ∃ pre s post, samples = pre ++ s :: post ∧
          st = (some (nearestOfSample s), computedDistance lat lon s) ∧
          (computedDistance lat lon s).isFinite = true ∧
          (∀ t ∈ samples, (computedDistance lat lon t).lt (computedDistance lat lon s) = false) ∧
          (∀ t ∈ pre, (computedDistance lat lon t).le (computedDistance lat lon s) = false)) := by
  induction samples using List.reverseRecOn with
  | nil => exact ⟨_, rfl, Or.inl ⟨rfl, by simp⟩⟩
  | append_singleton xs x ih =>
    obtain ⟨st, hrun, hinv⟩ := ih
    rw [List.map_append, nearestLoop_append, hrun]
    simp only [List.map_cons, List.map_nil, nearestLoop, nearestStep_sample]
    have hx := computedDistance_notBelowZero lat lon x
    rcases hinv with ⟨rfl, hall⟩ | ⟨pre, s, post, hsplit, rfl, hfin, hmin, hfirst⟩
    · cases hd : computedDistance lat lon x with
      | fin a =>
        refine ⟨_, rfl, Or.inr ⟨xs, x, [], rfl, by simp [JSNum.lt, hd], by simp [hd, JSNum.isFinite],
          ?_, ?_⟩⟩
        · intro t ht
          rcases List.mem_append.1 ht with h | h
          · have h1 := hall t h
            have h2 := computedDistance_notBelowZero lat lon t
            rw [hd]
            cases ht2 : computedDistance lat lon t <;>
              simp_all [JSNum.lt, JSNum.isFinite, JSNum.notBelowZero]
          · simp at h; subst h; simp [hd, JSNum.lt]
        · intro t h
          have h1 := hall t h
          have h2 := computedDistance_notBelowZero lat lon t
          rw [hd]
          cases ht2 : computedDistance lat lon t <;>
            simp_all [JSNum.lt, JSNum.le, JSNum.isFinite, JSNum.notBelowZero]
      | pinf =>
        refine ⟨_, rfl, Or.inl ⟨by simp [JSNum.lt], ?_⟩⟩
        intro t ht
        rcases List.mem_append.1 ht with h | h
        · exact hall t h
        · simp at h; subst h; simp [hd, JSNum.isFinite]
      | ninf => rw [hd] at hx; exact absurd hx (by simp [JSNum.notBelowZero])
      | nan =>
        refine ⟨_, rfl, Or.inl ⟨by simp [JSNum.lt], ?_⟩⟩
        intro t ht
        rcases List.mem_append.1 ht with h | h
        · exact hall t h
        · simp at h; subst h; simp [hd, JSNum.isFinite]
    · cases hs : computedDistance lat lon s with
      | fin r =>
        rw [hs] at hmin hfirst
        by_cases hlt : (computedDistance lat lon x).lt (JSNum.fin r) = true
        · cases hd : computedDistance lat lon x with
          | fin a =>
            rw [hd] at hlt
            have har : a < r := by simpa [JSNum.lt] using hlt
            refine ⟨_, rfl, Or.inr ⟨xs, x, [], rfl, by simp [hd, hs, JSNum.lt, har],
              by simp [hd, JSNum.isFinite], ?_, ?_⟩⟩
            · intro t ht
              rcases List.mem_append.1 ht with h | h
              · have h1 := hmin t h
                rw [hd]
                cases ht2 : computedDistance lat lon t with
                | fin b =>
                  rw [ht2] at h1
                  have : ¬ b < r := by simpa [JSNum.lt] using h1
                  simp [JSNum.lt]
                  linarith
                | pinf => simp [JSNum.lt]
                | ninf => rw [ht2] at h1; simp [JSNum.lt] at h1
                | nan => simp [JSNum.lt]
              · simp at h; subst h; simp [hd, JSNum.lt]
            · intro t h
              have h1 := hmin t h
              rw [hd]
              cases ht2 : computedDistance lat lon t with
              | fin b =>
                rw [ht2] at h1
                have : ¬ b < r := by simpa [JSNum.lt] using h1
                simp [JSNum.lt, JSNum.le]
                linarith
              | pinf => simp [JSNum.lt, JSNum.le]
              | ninf => rw [ht2] at h1; simp [JSNum.lt] at h1
              | nan => simp [JSNum.le]
          | pinf => rw [hd] at hlt; simp [JSNum.lt] at hlt
          | ninf => rw [hd] at hx; exact absurd hx (by simp [JSNum.notBelowZero])
          | nan => rw [hd] at hlt; simp [JSNum.lt] at hlt
        · refine ⟨_, rfl, Or.inr ⟨pre, s, post ++ [x], by simp [hsplit], by simp [hs, hlt],
            by simp [hs, JSNum.isFinite], ?_, ?_⟩⟩
          · intro t ht
            rw [hs]
            rcases List.mem_append.1 ht with h | h
            · exact hmin t h
            · simp at h; subst h; simpa using hlt
          · intro t h
            rw [hs]
            exact hfirst t h
      | pinf => rw [hs] at hfin; simp [JSNum.isFinite] at hfin
      | ninf => rw [hs] at hfin; simp [JSNum.isFinite] at hfin
      | nan => rw [hs] at hfin; simp [JSNum.isFinite] at hfin

theorem findNearest_first_minimum (H : Host) (lat lon : ℚ) (samples : List (ℚ × ℚ × Json)) :
    ((∃ t ∈ samples, (computedDistance lat lon t).isFinite = true) →
      ∃ pre s post, samples = pre ++ s :: post ∧
        findNearest H lat lon (samples.map sampleTriple) = .ok (some (nearestOfSample s)) ∧
        (computedDistance lat lon s).isFinite = true ∧
        (∀ t ∈ samples,
          (computedDistance lat lon t).lt (computedDistance lat lon s) = false) ∧
        (∀ t ∈ pre, (computedDistance lat lon t).le (computedDistance lat lon s) = false)) ∧
    ((∀ t ∈ samples, (computedDistance lat lon t).isFinite = false) →
      findNearest H lat lon (samples.map sampleTriple) = .ok none) := by
  obtain ⟨st, hrun, hinv⟩ := nearestLoop_samples H lat lon samples
  constructor
  · rintro ⟨t, ht, hfin⟩
    rcases hinv with ⟨_, hall⟩ | ⟨pre, s, post, hsplit, rfl, hs, hmin, hfirst⟩
    · rw [hall t ht] at hfin
      exact absurd hfin (by decide)
    · exact ⟨pre, s, post, hsplit, by simp [findNearest, hrun, Except.map], hs, hmin, hfirst⟩
  · intro hall
    rcases hinv with ⟨rfl, _⟩ | ⟨pre, s, post, hsplit, _, hs, _, _⟩
    · simp [findNearest, hrun, Except.map]
    · rw [hall s (by rw [hsplit]; simp)] at hs
      exact absurd hs (by decide)

/-! ## Lemmas on numbers -/

theorem clampPercent_fin (q : ℚ) :
    ∃ n : ℕ, n ≤ 100 ∧ clampPercent (JSNum.fin q) = JSNum.fin (n : ℚ) := by
  simp only [clampPercent, JSNum.round]
  generalize ⌊q + 1 / 2⌋ = z
  by_cases h1 : z < 100
  · have h1q : (z : ℚ) < 100 := by exact_mod_cast h1
    by_cases h0 : 0 < z
    · refine ⟨z.toNat, by omega, ?_⟩
      have hc : ((z.toNat : ℕ) : ℚ) = (z : ℚ) := by
        have : ((z.toNat : ℕ) : ℤ) = z := Int.toNat_of_nonneg h0.le
        exact_mod_cast this
      have h0q : (0 : ℚ) < z := by exact_mod_cast h0
      simp [JSNum.min, JSNum.max, JSNum.lt, h1q, h0q, hc]
    · refine ⟨0, by omega, ?_⟩
      have h0q : ¬ (0 : ℚ) < z := by
        have : (z : ℚ) ≤ 0 := by exact_mod_cast (not_lt.1 h0)
        linarith
      simp [JSNum.min, JSNum.max, JSNum.lt, h1q, h0q]
  · refine ⟨100, le_refl _, ?_⟩
    have h1q : ¬ (z : ℚ) < 100 := by
      have : (100 : ℚ) ≤ z := by exact_mod_cast (not_lt.1 h1)
      linarith
    simp [JSNum.min, JSNum.max, JSNum.lt, h1q]

theorem clampPercent_cases (x : JSNum) :
    clampPercent x = JSNum.nan ∨ ∃ n : ℕ, n ≤ 100 ∧ clampPercent x = JSNum.fin (n : ℚ) := by
  cases x with
  | fin q => exact Or.inr (clampPercent_fin q)
  | pinf => exact Or.inr ⟨100, le_refl _, by simp [clampPercent, JSNum.round, JSNum.min, JSNum.max, JSNum.lt]⟩
  | ninf => exact Or.inr ⟨0, by omega, by simp [clampPercent, JSNum.round, JSNum.min, JSNum.max, JSNum.lt]⟩
  | nan => exact Or.inl (by simp [clampPercent, JSNum.round, JSNum.min, JSNum.max])

theorem clampUnit_cases (x : JSNum) :
    JSNum.max (JSNum.fin 0) (JSNum.min (JSNum.fin 1) x) = JSNum.nan ∨
      ∃ f : ℚ, 0 ≤ f ∧ f ≤ 1 ∧
        JSNum.max (JSNum.fin 0) (JSNum.min (JSNum.fin 1) x) = JSNum.fin f := by
  cases x with
  | fin q =>
    right
    by_cases h1 : q < 1
    · by_cases h0 : 0 < q
      · exact ⟨q, h0.le, h1.le, by simp [JSNum.min, JSNum.max, JSNum.lt, h1, h0]⟩
      · exact ⟨0, le_refl _, by norm_num, by simp [JSNum.min, JSNum.max, JSNum.lt, h1, h0]⟩
    · exact ⟨1, by norm_num, le_refl _, by simp [JSNum.min, JSNum.max, JSNum.lt, h1]⟩
  | pinf => exact Or.inr ⟨1, by norm_num, le_refl _, by simp [JSNum.min, JSNum.max, JSNum.lt]⟩
  | ninf => exact Or.inr ⟨0, le_refl _, by norm_num, by simp [JSNum.min, JSNum.max, JSNum.lt]⟩
  | nan => exact Or.inl (by simp [JSNum.min, JSNum.max])

theorem round_scaled_range (f : ℚ) (n : ℕ) (h0 : 0 ≤ f) (h1 : f ≤ 1) :
    ∃ m : ℕ, m ≤ n ∧ JSNum.round ((JSNum.fin f).mul (JSNum.fin (n : ℚ))) = JSNum.fin (m : ℚ) := by
  have hn : (0 : ℚ) ≤ n := Nat.cast_nonneg n
  have hlo : 0 ≤ ⌊f * n + 1 / 2⌋ := Int.floor_nonneg.2 (by positivity)
  have hhi : ⌊f * n + 1 / 2⌋ ≤ n := by
    have : ⌊f * n + 1 / 2⌋ < (n : ℤ) + 1 := by
      rw [Int.floor_lt]
      push_cast
      nlinarith
    omega
  refine ⟨⌊f * n + 1 / 2⌋.toNat, by omega, ?_⟩
  have hc : ((⌊f * n + 1 / 2⌋.toNat : ℕ) : ℚ) = (⌊f * n + 1 / 2⌋ : ℚ) := by
    have : ((⌊f * n + 1 / 2⌋.toNat : ℕ) : ℤ) = ⌊f * n + 1 / 2⌋ := Int.toNat_of_nonneg hlo
    exact_mod_cast this
  simp only [JSNum.mul, JSNum.round, hc]

theorem visibilityOf_range (n : ℕ) (isNight : Option Bool) (cloudCover : Option JSNum) :
    ∃ v, visibilityOf (JSNum.fin (n : ℚ)) isNight cloudCover = some v ∧
      (v = JSNum.nan ∨ ∃ m : ℕ, m ≤ n ∧ v = JSNum.fin (m : ℚ)) := by
  simp only [visibilityOf, JSNum.isFinite, if_true]
  refine ⟨_, rfl, ?_⟩
  rcases clampUnit_cases ((if isNight = some false then JSNum.fin 0 else JSNum.fin 1).mul
      (match cloudCover with
        | none => JSNum.fin 1
        | some c => (JSNum.fin 1).sub (c.divPos 100))) with h | ⟨f, h0, h1, h⟩
  · left
    rw [h]
    simp [JSNum.mul, JSNum.round]
  · right
    rw [h]
    exact round_scaled_range f n h0 h1

/-! ## Lemmas on the phases of the handler -/

theorem probabilityOf_eq_ok_iff (H : Host) (nearest : Option Nearest) (p : JSNum) :
    probabilityOf H nearest = .ok p ↔
      ∃ n q, nearest = some n ∧ toNumber H n.value = .ok (JSNum.fin q) ∧
        p = clampPercent (JSNum.fin q) := by
  unfold probabilityOf
  constructor
  · intro h
    cases nearest with
    | none => simp [JSNum.isFinite] at h
    | some n =>
      simp only at h
      cases hv : toNumber H n.value with
      | error e => simp [hv] at h
      | ok x =>
        cases x with
        | fin q =>
          simp [hv, JSNum.isFinite] at h
          exact ⟨n, q, rfl, hv, h.symm⟩
        | pinf => simp [hv, JSNum.isFinite] at h
        | ninf => simp [hv, JSNum.isFinite] at h
        | nan => simp [hv, JSNum.isFinite] at h
  · rintro ⟨n, q, rfl, hv, rfl⟩
    simp [hv, JSNum.isFinite]

theorem gridPhase_eq_ok_iff (H : Host) (lat lon : ℚ) (r : FetchResult) (g : GridData) :
    gridPhase H lat lon r = .ok g ↔
      ∃ status noaa n q, r = .response status (.ok noaa) ∧ statusOk status = true ∧
        coordsOf noaa ≠ [] ∧ findNearest H lat lon (coordsOf noaa) = .ok (some n) ∧
        toNumber H n.value = .ok (JSNum.fin q) ∧
        g = ⟨clampPercent (JSNum.fin q), orNull (noaa.getOwn "Observation Time"),
          orNull (noaa.getOwn "Forecast Time")⟩ := by
  constructor
  · intro h
    unfold gridPhase at h
    cases r with
    | rejected reason => simp at h
    | response status body =>
      cases body with
      | error e =>
        simp only at h
        split at h <;> simp at h
      | ok noaa =>
        simp only at h
        split at h
        · simp at h
        · next hst =>
          split at h
          · simp at h
          · split at h
            · simp at h
            · next hc =>
              cases hf : findNearest H lat lon (coordsOf noaa) with
              | error e => simp [hf] at h
              | ok nearest =>
                cases hp : probabilityOf H nearest with
                | error e => simp [hf, hp] at h
                | ok p =>
                  simp [hf, hp] at h
                  obtain ⟨n, q, rfl, hv, rfl⟩ := (probabilityOf_eq_ok_iff H nearest p).1 hp
                  exact ⟨status, noaa, n, q, rfl, by simpa using hst, hc, hf, hv, h.symm⟩
  · rintro ⟨status, noaa, n, q, rfl, hst, hc, hf, hv, rfl⟩
    have hnull : noaa ≠ Json.null := by
      intro hn
      apply hc
      rw [hn]
      rfl
    have hp : probabilityOf H (some n) = .ok (clampPercent (JSNum.fin q)) :=
      (probabilityOf_eq_ok_iff H _ _).2 ⟨n, q, rfl, hv, rfl⟩
    simp [gridPhase, hst, hnull, hc, hf, hp]

theorem gridPhase_probability (H : Host) (lat lon : ℚ) (r : FetchResult) (g : GridData)
    (h : gridPhase H lat lon r = .ok g) :
    ∃ n : ℕ, n ≤ 100 ∧ g.probability = JSNum.fin (n : ℚ) := by
  obtain ⟨_, _, _, q, _, _, _, _, _, rfl⟩ := (gridPhase_eq_ok_iff H lat lon r g).1 h
  exact clampPercent_fin q

theorem cloudPhase_cover (H : Host) (om : Json) (now : ℤ) (c : JSNum × String)
    (h : cloudPhase H om now = .ok (some c)) :
    ∃ v, c = (clampPercent v,
      if (clampPercent v).le (JSNum.fin 40) then "Visibile" else "Coperto") := by
  unfold cloudPhase at h
  split at h
  · split at h
    · split at h
      · simp at h
      · split at h
        · simp at h
        · next v _ =>
          simp at h
          exact ⟨v, h.symm⟩
    · simp at h
  · simp at h

theorem enrichPhase_cloud (H : Host) (p : JSNum) (r : FetchResult) (clock : Clock)
    (c : JSNum × String) (h : (enrichPhase H p r clock).cloud = some c) :
    ∃ v, c = (clampPercent v,
      if (clampPercent v).le (JSNum.fin 40) then "Visibile" else "Coperto") := by
  unfold enrichPhase at h
  split at h
  · simp at h
  · split at h
    · split at h
      · simp at h
      · next om =>
        split at h
        · simp at h
        · next cloud hcloud =>
          have hc : cloud = some c := by
            split at h <;> simpa using h
          rw [hc] at hcloud
          exact cloudPhase_cover H om _ c hcloud
    · simp at h

theorem enrichPhase_visibility (H : Host) (p : JSNum) (r : FetchResult) (clock : Clock) :
    ((enrichPhase H p r clock).dark = none ∧ (enrichPhase H p r clock).visibility = none) ∨
      ∃ d, (enrichPhase H p r clock).dark = some d ∧
        (enrichPhase H p r clock).visibility =
          visibilityOf p d.isNight ((enrichPhase H p r clock).cloud.map (fun c => c.1)) := by
  unfold enrichPhase
  split
  · simp
  · split
    · split
      · simp
      · split
        · simp
        · split
          · simp
          · simp
    · simp

/-! ## Fields of the success body -/

theorem successBody_probability (lat lon : ℚ) (g : GridData) (e : Enriched)
    (kp : Option (JSNum × String)) :
    (successBody lat lon g e kp).getOwn "probability" = some g.probability.toJson := by
  simp [successBody, Json.getOwn, List.lookup]

theorem successBody_timestamps (lat lon : ℚ) (g : GridData) (e : Enriched)
    (kp : Option (JSNum × String)) :
    (successBody lat lon g e kp).getOwn "timestamps" =
      some (.obj [("observation", g.observation), ("forecast", g.forecast)]) := by
  simp [successBody, Json.getOwn, List.lookup]

theorem successBody_source (lat lon : ℚ) (g : GridData) (e : Enriched)
    (kp : Option (JSNum × String)) :
    (successBody lat lon g e kp).getOwn "source" = some (.str "NOAA OVATION (SWPC)") := by
  simp [successBody, Json.getOwn, List.lookup]

theorem successBody_cloud (lat lon : ℚ) (g : GridData) (e : Enriched)
    (kp : Option (JSNum × String)) :
    (successBody lat lon g e kp).getOwn "cloud" = some (cloudJson e.cloud) := by
  simp [successBody, Json.getOwn, List.lookup]

theorem successBody_dark (lat lon : ℚ) (g : GridData) (e : Enriched)
    (kp : Option (JSNum × String)) :
    (successBody lat lon g e kp).getOwn "dark" = some (darkJson e.dark) := by
  simp [successBody, Json.getOwn, List.lookup]

theorem successBody_visibility (lat lon : ℚ) (g : GridData) (e : Enriched)
    (kp : Option (JSNum × String)) :
    (successBody lat lon g e kp).getOwn "visibility" = some (visibilityJson e.visibility) := by
  simp [successBody, Json.getOwn, List.lookup]

theorem successBody_kp (lat lon : ℚ) (g : GridData) (e : Enriched)
    (kp : Option (JSNum × String)) :
    (successBody lat lon g e kp).getOwn "kp" = some (kpJson kp) := by
  simp [successBody, Json.getOwn, List.lookup]

theorem auroraHandler_ok (H : Host) (latQ lonQ : Option String) (w : World)
    (h : (auroraHandler H latQ lonQ w).status = 200) :
    ∃ lat lon g, queryNumber latQ = .fin lat ∧ queryNumber lonQ = .fin lon ∧
      gridPhase H lat lon w.noaa = .ok g ∧
      auroraHandler H latQ lonQ w =
        ⟨200, successBody lat lon g (enrichPhase H g.probability w.openMeteo w.clock)
          (kpPhase H w.kp), [Call.noaaGrid, Call.openMeteo lat lon, Call.kpIndex]⟩ := by
  unfold auroraHandler at h ⊢
  split at h
  · next lat lon hlat hlon =>
    split at h
    · simp at h
    · next g hg =>
      exact ⟨lat, lon, g, hlat, hlon, hg, by simp [hlat, hlon, hg]⟩
  · simp at h

theorem toJson_nullOrPercent (x : JSNum)
    (h : x = JSNum.nan ∨ ∃ n : ℕ, n ≤ 100 ∧ x = JSNum.fin (n : ℚ)) :
    isNullOrPercent x.toJson := by
  rcases h with rfl | ⟨n, hn, rfl⟩
  · exact Or.inl rfl
  · exact Or.inr ⟨n, hn, rfl⟩


theorem orNull_truthy (v : Option Json) : (orNull v).truthy = true ↔ orNull v ≠ Json.null := by
  cases v with
  | none => simp [orNull, Json.truthy]
  | some j =>
    by_cases h : j.truthy = true
    · simp only [orNull, h, if_true, true_iff]
      intro hj
      rw [hj] at h
      simp [Json.truthy] at h
    · have hn : (Json.null).truthy = false := rfl
      simp only [orNull, h, if_false]
      simp [hn]

theorem darkPhase_cases (H : Host) (om : Json) (t1 t2 : ℤ) (d : Dark)
    (h : darkPhase H om t1 t2 = .ok d) :
    (d.sunrise ≠ .null → d.sunset ≠ .null →
      ∃ tsr tss, newDate H d.sunrise = .ok tsr ∧ newDate H d.sunset = .ok tss ∧
        d.isNight = some ((JSNum.fin (t1 : ℚ)).lt tsr || (JSNum.fin (t2 : ℚ)).gt tss)) ∧
    (d.sunrise = .null → d.sunset ≠ .null → d.isNight = some true) ∧
    (d.sunrise ≠ .null → d.sunset = .null → d.isNight = some false) ∧
    (d.sunrise = .null → d.sunset = .null → d.isNight = none) := by
  unfold darkPhase at h
  simp only at h
  generalize hsr : orNull (index0 (getProp (getProp (some om) "daily") "sunrise")) = sunrise at h
  generalize hss : orNull (index0 (getProp (getProp (some om) "daily") "sunset")) = sunset at h
  have hsrt : sunrise.truthy = true ↔ sunrise ≠ Json.null := by rw [← hsr]; exact orNull_truthy _
  have hsst : sunset.truthy = true ↔ sunset ≠ Json.null := by rw [← hss]; exact orNull_truthy _
  unfold dateOrNull at h
  by_cases h1 : sunrise.truthy = true <;> by_cases h2 : sunset.truthy = true
  · cases hn1 : newDate H sunrise with
    | error e => simp [h1, hn1, Except.map] at h
    | ok tsr =>
      cases hn2 : newDate H sunset with
      | error e => simp [h1, h2, hn1, hn2, Except.map] at h
      | ok tss =>
        simp [h1, h2, hn1, hn2, Except.map, isNightOf] at h
        subst h
        refine ⟨fun _ _ => ⟨tsr, tss, hn1, hn2, by simp⟩, ?_, ?_, ?_⟩
        · intro hc; exact absurd hc (hsrt.1 h1)
        · intro _ hc; exact absurd hc (hsst.1 h2)
        · intro hc; exact absurd hc (hsrt.1 h1)
  · have hnull : sunset = Json.null := by
      by_contra hc; exact h2 (hsst.2 hc)
    cases hn1 : newDate H sunrise with
    | error e => simp [h1, hn1, Except.map] at h
    | ok tsr =>
      simp [h1, h2, hn1, Except.map, isNightOf] at h
      subst h
      refine ⟨fun _ hc => absurd hnull hc, fun hc => absurd hc (hsrt.1 h1), fun _ _ => rfl,
        fun hc => absurd hc (hsrt.1 h1)⟩
  · have hnull : sunrise = Json.null := by
      by_contra hc; exact h1 (hsrt.2 hc)
    cases hn2 : newDate H sunset with
    | error e => simp [h1, h2, hn2, Except.map] at h
    | ok tss =>
      simp [h1, h2, hn2, Except.map, isNightOf] at h
      subst h
      refine ⟨fun hc => absurd hnull hc, fun _ _ => rfl, fun hc => absurd hnull hc,
        fun _ hc => absurd hc (hsst.1 h2)⟩
  · have hnull1 : sunrise = Json.null := by
      by_contra hc; exact h1 (hsrt.2 hc)
    have hnull2 : sunset = Json.null := by
      by_contra hc; exact h2 (hsst.2 hc)
    simp [h1, h2, isNightOf] at h
    subst h
    refine ⟨fun hc => absurd hnull1 hc, fun _ hc => absurd hnull2 hc, fun hc => absurd hnull1 hc,
      fun _ _ => rfl⟩

theorem darkPhase_fields (H : Host) (om : Json) (t1 t2 : ℤ) (d : Dark)
    (h : darkPhase H om t1 t2 = .ok d) :
    d.sunrise = todaysSunrise om ∧ d.sunset = todaysSunset om := by
  unfold darkPhase at h
  simp only at h
  split at h
  · simp at h
  · split at h
    · simp at h
    · simp only [Except.ok.injEq] at h
      subst h
      exact ⟨rfl, rfl⟩

theorem enrichPhase_dark (H : Host) (p : JSNum) (r : FetchResult) (clock : Clock) (d : Dark)
    (h : (enrichPhase H p r clock).dark = some d) :
    ∃ status om, r = .response status (.ok om) ∧ statusOk status = true ∧
      darkPhase H om clock.atSunriseTest clock.atSunsetTest = .ok d := by
  unfold enrichPhase at h
  split at h
  · simp at h
  · next status body =>
    split at h
    · next hst =>
      split at h
      · simp at h
      · next om =>
        split at h
        · simp at h
        · split at h
          · simp at h
          · next d2 hd =>
            simp at h
            subst h
            exact ⟨status, om, rfl, hst, hd⟩
    · simp at h

theorem min_fin (a b : ℚ) : JSNum.min (JSNum.fin a) (JSNum.fin b) = JSNum.fin (min a b) := by
  by_cases h : b < a
  · simp [JSNum.min, JSNum.lt, h, min_eq_right h.le]
  · simp [JSNum.min, JSNum.lt, h, min_eq_left (not_lt.1 h)]

theorem max_fin (a b : ℚ) : JSNum.max (JSNum.fin a) (JSNum.fin b) = JSNum.fin (max a b) := by
  by_cases h : a < b
  · simp [JSNum.max, JSNum.lt, h, max_eq_right h.le]
  · simp [JSNum.max, JSNum.lt, h, max_eq_left (not_lt.1 h)]

theorem visibilityOf_unknown_cover (p : ℚ) (isNight : Option Bool) :
    visibilityOf (JSNum.fin p) isNight none =
      some (JSNum.fin ((visibilitySpec p isNight none : ℤ) : ℚ)) := by
  by_cases h : isNight = some false <;>
    simp [visibilityOf, visibilitySpec, JSNum.isFinite, h, JSNum.mul, min_fin, max_fin,
      JSNum.round]

theorem visibilityOf_known_cover (p c : ℚ) (isNight : Option Bool) :
    visibilityOf (JSNum.fin p) isNight (some (JSNum.fin c)) =
      some (JSNum.fin ((visibilitySpec p isNight (some c) : ℤ) : ℚ)) := by
  by_cases h : isNight = some false <;>
    simp [visibilityOf, visibilitySpec, JSNum.isFinite, h, JSNum.mul, min_fin, max_fin,
      JSNum.round, JSNum.sub, JSNum.neg, JSNum.add, JSNum.divPos, sub_eq_add_neg]

theorem visibilityOf_nan_cover (p : ℚ) (isNight : Option Bool) :
    visibilityOf (JSNum.fin p) isNight (some JSNum.nan) = some JSNum.nan := by
  by_cases h : isNight = some false <;>
    simp [visibilityOf, JSNum.isFinite, h, JSNum.mul, JSNum.min, JSNum.max,
      JSNum.round, JSNum.sub, JSNum.neg, JSNum.add, JSNum.divPos]

theorem visibilitySpec_day (p : ℚ) (cloudCover : Option ℚ) :
    visibilitySpec p (some false) cloudCover = 0 := by
  simp [visibilitySpec]
  norm_num

theorem visibilitySpec_unknown_cover (p : ℤ) (isNight : Option Bool) (h : isNight ≠ some false) :
    visibilitySpec (p : ℚ) isNight none = p := by
  simp only [visibilitySpec, h, if_false, mul_one, min_self]
  rw [max_eq_right (by norm_num : (0 : ℚ) ≤ 1), one_mul, Int.floor_eq_iff]
  constructor <;> norm_num

theorem isNightOfJson_darkJson (n : Option Bool) :
    isNightOfJson (match n with
      | none => Json.null
      | some b => Json.bool b) = n := by
  cases n <;> rfl


theorem gridFeedUsable_iff (H : Host) (lat lon : ℚ) (r : FetchResult) :
    gridFeedUsable H lat lon r ↔ ∃ g, gridPhase H lat lon r = .ok g := by
  constructor
  · rintro ⟨status, noaa, hr, hst, hc, n, q, hf, hv⟩
    exact ⟨_, (gridPhase_eq_ok_iff H lat lon r _).2 ⟨status, noaa, n, q, hr, hst, hc, hf, hv, rfl⟩⟩
  · rintro ⟨g, hg⟩
    obtain ⟨status, noaa, n, q, hr, hst, hc, hf, hv, _⟩ := (gridPhase_eq_ok_iff H lat lon r g).1 hg
    exact ⟨status, noaa, hr, hst, hc, n, q, hf, hv⟩

theorem auroraHandler_valid (H : Host) (latQ lonQ : Option String) (w : World) (lat lon : ℚ)
    (hlat : queryNumber latQ = JSNum.fin lat) (hlon : queryNumber lonQ = JSNum.fin lon) :
    auroraHandler H latQ lonQ w =
      match gridPhase H lat lon w.noaa with
      | .error e => ⟨502, upstreamErrorBody e, [Call.noaaGrid]⟩
      | .ok g =>
        ⟨200, successBody lat lon g (enrichPhase H g.probability w.openMeteo w.clock)
          (kpPhase H w.kp), [Call.noaaGrid, Call.openMeteo lat lon, Call.kpIndex]⟩ := by
  simp [auroraHandler, hlat, hlon]

theorem coordsOf_of_array (noaa : Json) (xs : List Json)
    (h : noaa.getOwn "coordinates" = some (.arr xs)) : coordsOf noaa = xs := by
  simp [coordsOf, h]

theorem coordsOf_of_missing (noaa : Json)
    (h : noaa.getOwn "coordinates" = none ∨
      (∃ v, noaa.getOwn "coordinates" = some v ∧ ∀ xs, v ≠ .arr xs) ∨
      noaa.getOwn "coordinates" = some (.arr [])) : coordsOf noaa = [] := by
  rcases h with h | ⟨v, h, hv⟩ | h
  · simp [coordsOf, h]
  · cases v with
    | arr xs => exact absurd rfl (hv xs)
    | null => simp [coordsOf, h]
    | bool b => simp [coordsOf, h]
    | num q => simp [coordsOf, h]
    | str s => simp [coordsOf, h]
    | obj kvs => simp [coordsOf, h]
  · simp [coordsOf, h]

theorem gridPhase_of_no_coords (H : Host) (lat lon : ℚ) (status : ℕ) (noaa : Json)
    (h : coordsOf noaa = []) :
    ∃ e, gridPhase H lat lon (.response status (.ok noaa)) = .error e := by
  cases hg : gridPhase H lat lon (.response status (.ok noaa)) with
  | error e => exact ⟨e, rfl⟩
  | ok g =>
    obtain ⟨_, noaa2, _, _, hr, _, hc, _⟩ := (gridPhase_eq_ok_iff H lat lon _ g).1 hg
    injection hr with _ hb
    injection hb with hb
    subst hb
    exact absurd h hc

theorem gridPhase_of_samples (H : Host) (lat lon : ℚ) (status : ℕ) (noaa : Json)
    (samples : List (ℚ × ℚ × Json)) (hst : statusOk status = true)
    (hc : noaa.getOwn "coordinates" = some (.arr (samples.map sampleTriple)))
    (nearest : Option (ℚ × ℚ × Json))
    (hf : findNearest H lat lon (samples.map sampleTriple) = .ok (nearest.map nearestOfSample))
    (hne : samples ≠ []) :
    ((∃ s q, nearest = some s ∧ toNumber H (some s.2.2) = .ok (JSNum.fin q)) →
      ∃ g, gridPhase H lat lon (.response status (.ok noaa)) = .ok g) ∧
    ((∀ s q, nearest = some s → toNumber H (some s.2.2) ≠ .ok (JSNum.fin q)) →
      ∃ e, gridPhase H lat lon (.response status (.ok noaa)) = .error e) := by
  have hco := coordsOf_of_array noaa _ hc
  have hcne : coordsOf noaa ≠ [] := by
    rw [hco]
    simpa using hne
  constructor
  · rintro ⟨s, q, rfl, hv⟩
    exact ⟨_, (gridPhase_eq_ok_iff H lat lon _ _).2
      ⟨status, noaa, nearestOfSample s, q, rfl, hst, hcne, by rw [hco]; exact hf, hv, rfl⟩⟩
  · intro hno
    cases hg : gridPhase H lat lon (.response status (.ok noaa)) with
    | error e => exact ⟨e, rfl⟩
    | ok g =>
      exfalso
      obtain ⟨_, noaa2, n, q, hr, _, _, hf2, hv, _⟩ := (gridPhase_eq_ok_iff H lat lon _ g).1 hg
      injection hr with _ hb
      injection hb with hb
      subst hb
      rw [hco, hf] at hf2
      cases nearest with
      | none => simp at hf2
      | some s =>
        simp only [Option.map_some', Except.ok.injEq, Option.some.injEq] at hf2
        subst hf2
        exact hno s q rfl hv

theorem enrichPhase_fails (H : Host) (p : JSNum) (r : FetchResult) (clock : Clock)
    (h : enrichmentFails r) : enrichPhase H p r clock = ⟨none, none, none⟩ := by
  rcases h with ⟨reason, rfl⟩ | ⟨status, body, rfl, hst⟩ | ⟨status, e, rfl⟩
  · rfl
  · simp [enrichPhase, hst]
  · simp [enrichPhase]

/-! ## Lemmas on the reading of decimal strings -/

theorem digit_cases (c : Char) (h : c.isDigit = true) :
    c = '0' ∨ c = '1' ∨ c = '2' ∨ c = '3' ∨ c = '4' ∨ c = '5' ∨ c = '6' ∨ c = '7' ∨
      c = '8' ∨ c = '9' := by
  have hc : Char.ofNat c.toNat = c := Char.ofNat_toNat c
  have hb : 48 ≤ c.toNat ∧ c.toNat ≤ 57 := by
    simp only [Char.isDigit, Bool.and_eq_true, decide_eq_true_eq] at h
    exact ⟨h.1, h.2⟩
  obtain ⟨h1, h2⟩ := hb
  rw [← hc]
  interval_cases c.toNat <;> simp

theorem digit_not_special (c : Char) (h : c.isDigit = true) :
    c ≠ ',' ∧ c ≠ '.' ∧ c ≠ '+' ∧ c ≠ '-' ∧ c ≠ 'I' ∧ c ≠ 'x' ∧ c ≠ 'X' ∧ c ≠ 'o' ∧ c ≠ 'O' ∧
      c ≠ 'b' ∧ c ≠ 'B' ∧ isStrWhiteSpace c = false := by
  rcases digit_cases c h with h | h | h | h | h | h | h | h | h | h <;> subst h <;> decide

theorem takeWhile_digits (ds rest : List Char) (c : Char) (hds : ∀ d ∈ ds, d.isDigit = true)
    (hc : c.isDigit = false) : (ds ++ c :: rest).takeWhile Char.isDigit = ds := by
  induction ds with
  | nil => simp [List.takeWhile, hc]
  | cons d ds ih =>
    have hd : d.isDigit = true := hds d (List.mem_cons_self _ _)
    simp only [List.cons_append, List.takeWhile, hd]
    exact congrArg (List.cons d) (ih (fun x hx => hds x (List.mem_cons_of_mem _ hx)))

theorem dropWhile_digits (ds rest : List Char) (c : Char) (hds : ∀ d ∈ ds, d.isDigit = true)
    (hc : c.isDigit = false) : (ds ++ c :: rest).dropWhile Char.isDigit = c :: rest := by
  induction ds with
  | nil => simp [List.dropWhile, hc]
  | cons d ds ih =>
    have hd : d.isDigit = true := hds d (List.mem_cons_self _ _)
    simp only [List.cons_append, List.dropWhile, hd]
    exact ih (fun x hx => hds x (List.mem_cons_of_mem _ hx))

theorem takeWhile_all_digits (ds : List Char) (hds : ∀ d ∈ ds, d.isDigit = true) :
    ds.takeWhile Char.isDigit = ds := by
  induction ds with
  | nil => rfl
  | cons d ds ih =>
    have hd : d.isDigit = true := hds d (List.mem_cons_self _ _)
    simp only [List.takeWhile, hd]
    rw [ih (fun x hx => hds x (List.mem_cons_of_mem _ hx))]

theorem dropWhile_all_digits (ds : List Char) (hds : ∀ d ∈ ds, d.isDigit = true) :
    ds.dropWhile Char.isDigit = [] := by
  induction ds with
  | nil => rfl
  | cons d ds ih =>
    have hd : d.isDigit = true := hds d (List.mem_cons_self _ _)
    simp only [List.dropWhile, hd]
    exact ih (fun x hx => hds x (List.mem_cons_of_mem _ hx))

theorem replaceFirstComma_digits (ds : List Char) (hds : ∀ d ∈ ds, d.isDigit = true) :
    replaceFirstComma ds = ds := by
  induction ds with
  | nil => rfl
  | cons d ds ih =>
    have hd : d ≠ ',' := (digit_not_special d (hds d (List.mem_cons_self _ _))).1
    simp only [replaceFirstComma, hd, if_false]
    rw [ih (fun x hx => hds x (List.mem_cons_of_mem _ hx))]

theorem replaceFirstComma_decimal (ip fp : List Char) (sep : Char)
    (hip : ∀ d ∈ ip, d.isDigit = true) (hfp : ∀ d ∈ fp, d.isDigit = true)
    (hsep : sep = ',' ∨ sep = '.') :
    replaceFirstComma (ip ++ sep :: fp) = ip ++ '.' :: fp := by
  induction ip with
  | nil =>
    rcases hsep with rfl | rfl
    · simp [replaceFirstComma]
    · simp [replaceFirstComma, replaceFirstComma_digits fp hfp]
  | cons d ds ih =>
    have hd : d ≠ ',' := (digit_not_special d (hip d (List.mem_cons_self _ _))).1
    simp only [List.cons_append, replaceFirstComma, hd, if_false]
    exact congrArg (List.cons d) (ih (fun x hx => hip x (List.mem_cons_of_mem _ hx)))

theorem trimWhiteSpace_decimal (ip fp : List Char) (hip : ip ≠ []) (hfp : fp ≠ [])
    (hipd : ∀ d ∈ ip, d.isDigit = true) (hfpd : ∀ d ∈ fp, d.isDigit = true) :
    trimWhiteSpace (ip ++ '.' :: fp) = ip ++ '.' :: fp := by
  obtain ⟨a, as, rfl⟩ := List.exists_cons_of_ne_nil hip
  have ha : isStrWhiteSpace a = false :=
    (digit_not_special a (hipd a (List.mem_cons_self _ _))).2.2.2.2.2.2.2.2.2.2.2
  have hlast : ∃ init z, fp = init ++ [z] := by
    refine ⟨fp.dropLast, fp.getLast hfp, ?_⟩
    exact (List.dropLast_append_getLast hfp).symm
  obtain ⟨init, z, rfl⟩ := hlast
  have hz : isStrWhiteSpace z = false :=
    (digit_not_special z (hfpd z (by simp))).2.2.2.2.2.2.2.2.2.2.2
  have hrev : (a :: as ++ '.' :: (init ++ [z])).reverse =
      z :: (a :: as ++ '.' :: init).reverse := by
    simp
  unfold trimWhiteSpace
  rw [show (a :: as ++ '.' :: (init ++ [z])) = a :: (as ++ '.' :: (init ++ [z])) from rfl]
  rw [List.dropWhile_cons_of_neg (by simp [ha])]
  rw [show a :: (as ++ '.' :: (init ++ [z])) = (a :: as ++ '.' :: (init ++ [z])) from rfl, hrev]
  rw [List.dropWhile_cons_of_neg (by simp [hz]), ← hrev, List.reverse_reverse]

theorem radixLiteral_decimal (ip fp : List Char) (hip : ip ≠ [])
    (hipd : ∀ d ∈ ip, d.isDigit = true) : radixLiteral (ip ++ '.' :: fp) = none := by
  obtain ⟨a, as, rfl⟩ := List.exists_cons_of_ne_nil hip
  cases as with
  | nil =>
    cases fp with
    | nil => rfl
    | cons f fs =>
      simp only [List.cons_append, List.nil_append, radixLiteral]
      split <;> simp
  | cons b bs =>
    have hb := digit_not_special b (hipd b (by simp))
    obtain ⟨_, _, _, _, _, hx, hX, ho, hO, hlb, hB, _⟩ := hb
    cases bs with
    | nil =>
      simp only [List.cons_append, List.nil_append, radixLiteral]
      split <;> simp [hx, hX, ho, hO, hlb, hB]
    | cons c cs =>
      simp only [List.cons_append, radixLiteral]
      split <;> simp [hx, hX, ho, hO, hlb, hB]

theorem scanUnsignedDecimal_decimal (ip fp : List Char) (hip : ip ≠ [])
    (hipd : ∀ d ∈ ip, d.isDigit = true) (hfpd : ∀ d ∈ fp, d.isDigit = true) :
    scanUnsignedDecimal (ip ++ '.' :: fp) = some (JSNum.ofLiteral (decimalValue ip fp), []) := by
  have hdot : ('.' : Char).isDigit = false := by decide
  have hinf : ¬ ((ip ++ '.' :: fp).take 8 = "Infinity".toList) := by
    obtain ⟨a, as, rfl⟩ := List.exists_cons_of_ne_nil hip
    have ha : a ≠ 'I' := (digit_not_special a (hipd a (List.mem_cons_self _ _))).2.2.2.2.1
    intro h
    have h2 : (a :: (as ++ '.' :: fp)).take 8 = 'I' :: "nfinity".toList := h
    rw [show (8 : ℕ) = 7 + 1 from rfl, List.take_succ_cons] at h2
    injection h2 with h3 _
    exact ha h3
  unfold scanUnsignedDecimal
  rw [if_neg hinf]
  simp only [takeWhile_digits ip fp '.' hipd hdot, dropWhile_digits ip fp '.' hipd hdot,
    takeWhile_all_digits fp hfpd, dropWhile_all_digits fp hfpd, if_true]
  simp [hip, scanExponent, scaleByPow10, decimalValue]

theorem scanDecimal_decimal (ip fp : List Char) (hip : ip ≠ [])
    (hipd : ∀ d ∈ ip, d.isDigit = true) (hfpd : ∀ d ∈ fp, d.isDigit = true) :
    scanDecimal (ip ++ '.' :: fp) = some (JSNum.ofLiteral (decimalValue ip fp), []) := by
  have h := scanUnsignedDecimal_decimal ip fp hip hipd hfpd
  obtain ⟨a, as, rfl⟩ := List.exists_cons_of_ne_nil hip
  obtain ⟨_, _, hplus, hminus, _⟩ := digit_not_special a (hipd a (List.mem_cons_self _ _))
  rw [show a :: as ++ '.' :: fp = a :: (as ++ '.' :: fp) from rfl] at h ⊢
  simp only [scanDecimal, hplus, hminus, if_false]
  exact h

theorem stringToNumber_decimal (ip fp : List Char) (hip : ip ≠ []) (hfp : fp ≠ [])
    (hipd : ∀ d ∈ ip, d.isDigit = true) (hfpd : ∀ d ∈ fp, d.isDigit = true) :
    stringToNumber (String.mk (ip ++ '.' :: fp)) = JSNum.ofLiteral (decimalValue ip fp) := by
  have hne : ip ++ '.' :: fp ≠ [] := by simp
  simp only [stringToNumber, String.toList, trimWhiteSpace_decimal ip fp hip hfp hipd hfpd,
    hne, if_false, radixLiteral_decimal ip fp hip hipd, scanDecimal_decimal ip fp hip hipd hfpd]

theorem decimalValue_nonneg (ip fp : List Char) : 0 ≤ decimalValue ip fp := by
  unfold decimalValue
  positivity

theorem kpOfLatest_decimal (H : Host) (latest : Json) (ip fp : List Char) (sep : Char)
    (hest : latest.getOwn "estimated_kp" = some (.str (String.mk (ip ++ sep :: fp))))
    (hsep : sep = ',' ∨ sep = '.') (hip : ip ≠ []) (hfp : fp ≠ [])
    (hipd : ∀ d ∈ ip, d.isDigit = true) (hfpd : ∀ d ∈ fp, d.isDigit = true)
    (hb : decimalValue ip fp ≤ 2 ^ 1000) :
    ∃ k : ℤ, kpOfLatest H latest = .ok (some (JSNum.fin ((k : ℚ) / 10), kpSourceLabel)) ∧
      |(k : ℚ) / 10 - decimalValue ip fp| ≤ 1 / 20 + (decimalValue ip fp + 1) / 2 ^ 51 := by
  obtain ⟨d2, k, hd2, hk, hclose⟩ :=
    kpRound_close (decimalValue ip fp) (decimalValue_nonneg ip fp) hb
  refine ⟨k, ?_, hclose⟩
  simp only [kpOfLatest, estimatedOrEmpty, hest, Json.toStr, String.toList,
    replaceFirstComma_decimal ip fp sep hipd hfpd hsep,
    stringToNumber_decimal ip fp hip hfp hipd hfpd, hd2, JSNum.isFinite, if_true, hk]

theorem kpOfLatest_value (H : Host) (latest : Json) (x : JSNum) (s : String)
    (h : kpOfLatest H latest = .ok (some (x, s))) :
    s = kpSourceLabel ∧ (x.isFinite = false ∨ ∃ k : ℤ, x = JSNum.fin ((k : ℚ) / 10)) := by
  unfold kpOfLatest at h
  split at h
  · simp at h
  · simp only at h
    split at h
    · simp at h
    · next v2 _ =>
      split at h
      · simp only [Except.ok.injEq, Option.some.injEq, Prod.mk.injEq] at h
        refine ⟨h.2.symm, ?_⟩
        rw [← h.1]
        cases hm : v2.toBinary64.mul64 (JSNum.fin 10) with
        | fin y => exact Or.inr ⟨⌊y + 1 / 2⌋, by simp [JSNum.round, JSNum.divPos]⟩
        | pinf => exact Or.inl rfl
        | ninf => exact Or.inl rfl
        | nan => exact Or.inl rfl
      · simp at h

theorem kpPhase_eq_some (H : Host) (r : FetchResult) (kp : JSNum × String)
    (h : kpPhase H r = some kp) :
    ∃ status kpData latest, r = .response status (.ok (.arr kpData)) ∧ statusOk status = true ∧
      kpData.getLast? = some latest ∧ kpOfLatest H latest = .ok (some kp) := by
  unfold kpPhase at h
  split at h
  · simp at h
  · next status body =>
    split at h
    · next hst =>
      split at h
      · next kpData =>
        split at h
        · simp at h
        · next latest hl =>
          split at h
          · simp at h
          · next kp2 hk =>
            subst h
            exact ⟨status, kpData, latest, rfl, hst, hl, hk⟩
      · simp at h
    · simp at h

theorem kpPhase_of_latest (H : Host) (status : ℕ) (kpData : List Json) (latest : Json)
    (kp : Option (JSNum × String)) (hst : statusOk status = true)
    (hl : kpData.getLast? = some latest) (hk : kpOfLatest H latest = .ok kp) :
    kpPhase H (.response status (.ok (.arr kpData))) = kp := by
  simp [kpPhase, hst, hl, hk]

theorem visibilitySpec_clear (p : ℤ) (isNight : Option Bool) (h : isNight ≠ some false) :
    visibilitySpec (p : ℚ) isNight (some 0) = p := by
  simp only [visibilitySpec, h, if_false, zero_div, sub_zero, mul_one, min_self]
  rw [max_eq_right (by norm_num : (0 : ℚ) ≤ 1), one_mul, Int.floor_eq_iff]
  constructor <;> norm_num

theorem visibilitySpec_overcast (p : ℚ) (isNight : Option Bool) :
    visibilitySpec p isNight (some 100) = 0 := by
  simp [visibilitySpec]
  norm_num

/-! ## The visibility of a successful response -/

theorem auroraHandler_visibility (H : Host) (latQ lonQ : Option String) (w : World)
    (hs : (auroraHandler H latQ lonQ w).status = 200)
    (hd : (auroraHandler H latQ lonQ w).field "dark" ≠ some .null) :
    ∃ (p : ℕ) (isNight sunrise sunset : Json),
      (auroraHandler H latQ lonQ w).field "probability" = some (.num (p : ℚ)) ∧
      (auroraHandler H latQ lonQ w).field "dark" =
        some (.obj [("isNight", isNight), ("sunrise", sunrise), ("sunset", sunset)]) ∧
      ((auroraHandler H latQ lonQ w).field "cloud" = some .null →
        (auroraHandler H latQ lonQ w).field "visibility" =
          some (.num ((visibilitySpec p (isNightOfJson isNight) none : ℤ) : ℚ))) ∧
      (∀ c status, (auroraHandler H latQ lonQ w).field "cloud" =
          some (.obj [("cover", .num c), ("status", status)]) →
        (auroraHandler H latQ lonQ w).field "visibility" =
          some (.num ((visibilitySpec p (isNightOfJson isNight) (some c) : ℤ) : ℚ))) ∧
      (∀ status, (auroraHandler H latQ lonQ w).field "cloud" =
          some (.obj [("cover", .null), ("status", status)]) →
        (auroraHandler H latQ lonQ w).field "visibility" = some .null) := by
  obtain ⟨lat, lon, g, _, _, hg, hout⟩ := auroraHandler_ok H latQ lonQ w hs
  obtain ⟨n, _, hp⟩ := gridPhase_probability H lat lon w.noaa g hg
  rw [hout] at hd ⊢
  simp only [Outcome.field, successBody_dark, successBody_probability, successBody_cloud,
    successBody_visibility] at hd ⊢
  have hcover := enrichPhase_cloud H g.probability w.openMeteo w.clock
  have hvis := enrichPhase_visibility H g.probability w.openMeteo w.clock
  generalize enrichPhase H g.probability w.openMeteo w.clock = E at hd hcover hvis ⊢
  rcases hvis with ⟨hnone, _⟩ | ⟨d, hdark, hv⟩
  · rw [hnone] at hd; exact absurd rfl hd
  · rw [hdark, hv, hp]
    refine ⟨n, _, d.sunrise, d.sunset, rfl, rfl, ?_, ?_, ?_⟩
    · intro hc
      cases hcl : E.cloud with
      | none =>
        rw [isNightOfJson_darkJson]
        simp [visibilityOf_unknown_cover, visibilityJson, JSNum.toJson]
      | some c => rw [hcl] at hc; cases c; simp [cloudJson] at hc
    · intro c status hc
      cases hcl : E.cloud with
      | none => rw [hcl] at hc; simp [cloudJson] at hc
      | some cs =>
        obtain ⟨cv, s⟩ := cs
        rw [hcl] at hc
        have hcv : cv = JSNum.fin c := by
          cases cv <;> simp [cloudJson, JSNum.toJson] at hc
          rw [hc.1]
        subst hcv
        rw [isNightOfJson_darkJson]
        simp [visibilityOf_known_cover, visibilityJson, JSNum.toJson]
    · intro status hc
      cases hcl : E.cloud with
      | none => rw [hcl] at hc; simp [cloudJson] at hc
      | some cs =>
        obtain ⟨v, rfl⟩ := hcover cs hcl
        rw [hcl] at hc
        rcases clampPercent_cases v with hnan | ⟨k, _, hk⟩
        · simp [hnan, visibilityOf_nan_cover, visibilityJson, JSNum.toJson]
        · simp [cloudJson, hk, JSNum.toJson] at hc


/-! ## Lemmas on the nearest-hour search -/

theorem hourLoop_append (H : Host) (now : ℤ) (xs ys : List Json) (i : ℕ) (st : ℕ × JSNum) :
    hourLoop H now (xs ++ ys) i st =
      match hourLoop H now xs i st with
      | .error e => .error e
      | .ok st2 => hourLoop H now ys (i + xs.length) st2 := by
  induction xs generalizing i st with
  | nil => simp [hourLoop]
  | cons x xs ih =>
    simp only [List.cons_append, hourLoop]
    cases hourStep H now st i x with
    | error e => rfl
    | ok st2 =>
      have h := ih (i + 1) st2
      rw [show i + 1 + xs.length = i + (xs.length + 1) by omega] at h
      simpa using h

theorem hourStep_valid (H : Host) (now : ℤ) (st : ℕ × JSNum) (i : ℕ) (s : String) (t : ℤ)
    (h : H.dateParse s = some t) :
    hourStep H now st i (.str s) =
      .ok (if (JSNum.fin ((timeDistance now t : ℤ) : ℚ)).lt st.2
        then (i, JSNum.fin ((timeDistance now t : ℤ) : ℚ)) else st) := by
  simp only [hourStep, newDate, parsedTime, h, JSNum.sub, JSNum.neg, JSNum.add, JSNum.abs,
    timeDistance]
  have hc : |(t : ℚ) + -(now : ℚ)| = ((|t - now| : ℤ) : ℚ) := by
    push_cast
    rw [sub_eq_add_neg]
  rw [hc]
  split <;> rfl

theorem hourLoop_valid (H : Host) (now : ℤ) (ts : List (String × ℤ))
    (hvalid : ∀ p ∈ ts, H.dateParse p.1 = some p.2) (hne : ts ≠ []) :
    ∃ i p, ts[i]? = some p ∧
      hourLoop H now (ts.map (fun p => Json.str p.1)) 0 (0, JSNum.pinf) =
        .ok (i, JSNum.fin ((timeDistance now p.2 : ℤ) : ℚ)) ∧
      (∀ q ∈ ts, timeDistance now p.2 ≤ timeDistance now q.2) ∧
      (∀ j q, j < i → ts[j]? = some q → timeDistance now p.2 < timeDistance now q.2) := by
  induction ts using List.reverseRecOn with
  | nil => exact absurd rfl hne
  | append_singleton xs x ih =>
    have hx : H.dateParse x.1 = some x.2 := hvalid x (by simp)
    rw [List.map_append, hourLoop_append]
    by_cases hxs : xs = []
    · subst hxs
      refine ⟨0, x, by simp, ?_, by simp, ?_⟩
      · simp [hourLoop, hourStep_valid H now _ _ x.1 x.2 hx, JSNum.lt]
      · intro j q hj
        omega
    · obtain ⟨i, p, hi, hrun, hmin, hfirst⟩ :=
        ih (fun q hq => hvalid q (List.mem_append_left _ hq)) hxs
      have hilt : i < xs.length := by
        by_contra hc
        rw [List.getElem?_eq_none (not_lt.1 hc)] at hi
        exact absurd hi (by simp)
      rw [hrun]
      simp only [List.map_cons, List.map_nil, hourLoop, hourStep_valid H now _ _ x.1 x.2 hx]
      by_cases hlt : timeDistance now x.2 < timeDistance now p.2
      · have hltq : ((timeDistance now x.2 : ℤ) : ℚ) < ((timeDistance now p.2 : ℤ) : ℚ) := by
          exact_mod_cast hlt
        refine ⟨xs.length, x, by simp, by simp [JSNum.lt, hltq], ?_, ?_⟩
        · intro q hq
          rcases List.mem_append.1 hq with h | h
          · exact le_trans hlt.le (hmin q h)
          · simp at h; subst h; exact le_refl _
        · intro j q hj hq
          rw [List.getElem?_append_left hj] at hq
          exact lt_of_lt_of_le hlt (hmin q (List.getElem?_mem hq))
      · have hltq : ¬ ((timeDistance now x.2 : ℤ) : ℚ) < ((timeDistance now p.2 : ℤ) : ℚ) := by
          intro hc
          exact hlt (by exact_mod_cast hc)
        refine ⟨i, p, ?_, by simp [JSNum.lt, hltq], ?_, ?_⟩
        · rw [List.getElem?_append_left hilt]
          exact hi
        · intro q hq
          rcases List.mem_append.1 hq with h | h
          · exact hmin q h
          · simp at h; subst h; exact not_lt.1 hlt
        · intro j q hj hq
          rw [List.getElem?_append_left (lt_trans hj hilt)] at hq
          exact hfirst j q hj hq

theorem cloudPhase_of_arrays (H : Host) (om : Json) (now : ℤ) (times values : List Json)
    (htime : getProp (getProp (some om) "hourly") "time" = some (.arr times))
    (hcover : getProp (getProp (some om) "hourly") "cloudcover" = some (.arr values))
    (hlen : times.length = values.length) (hne : times ≠ []) :
    cloudPhase H om now =
      match hourLoop H now times 0 (0, JSNum.pinf) with
      | .error e => .error e
      | .ok (idx, _) =>
        match toNumber H values[idx]? with
        | .error e => .error e
        | .ok v =>
          .ok (some (clampPercent v,
            if (clampPercent v).le (JSNum.fin 40) then "Visibile" else "Coperto")) := by
  have hl : times.length ≠ 0 := fun h => hne (List.length_eq_zero.1 h)
  simp only [cloudPhase, htime, hcover, orEmptyArray, Json.truthy, if_true]
  rw [if_pos ⟨hlen, hl⟩]

theorem enrichPhase_cloud_of (H : Host) (p : JSNum) (clock : Clock) (status : ℕ) (om : Json)
    (c : Option (JSNum × String)) (hst : statusOk status = true)
    (hc : cloudPhase H om clock.atHourSearch = .ok c) :
    (enrichPhase H p (.response status (.ok om)) clock).cloud = c := by
  simp only [enrichPhase, hst, if_true, hc]
  split <;> rfl

theorem clampPercent_eq_clampedRounded (c : ℚ) :
    clampPercent (JSNum.fin c) = JSNum.fin ((clampedRounded c : ℤ) : ℚ) := by
  simp only [clampPercent, JSNum.round, clampedRounded]
  rw [show (100 : ℚ) = ((100 : ℤ) : ℚ) by norm_num, show (0 : ℚ) = ((0 : ℤ) : ℚ) by norm_num,
    min_fin, ← Int.cast_min, max_fin, ← Int.cast_max]

theorem overflowThreshold_large : (100 : ℚ) ≤ overflowThreshold :=
  le_trans (by norm_num) overflowThreshold_gt.le

theorem underflowThreshold_small : underflowThreshold ≤ 1 / 4 := by
  unfold underflowThreshold
  norm_num

theorem clampPercent_ofLiteral (c : ℚ) :
    clampPercent (JSNum.ofLiteral c) = JSNum.fin ((clampedRounded c : ℤ) : ℚ) := by
  have hT := overflowThreshold_large
  have hu := underflowThreshold_small
  unfold JSNum.ofLiteral
  split
  · next h =>
    have h1 : (100 : ℤ) ≤ ⌊c + 1 / 2⌋ := Int.le_floor.2 (by push_cast; linarith)
    have h2 : clampedRounded c = 100 := by
      unfold clampedRounded
      omega
    rw [h2]
    simp [clampPercent, JSNum.round, JSNum.min, JSNum.max, JSNum.lt]
  · split
    · next h =>
      have h1 : ⌊c + 1 / 2⌋ < 0 := Int.floor_lt.2 (by push_cast; linarith)
      have h2 : clampedRounded c = 0 := by
        unfold clampedRounded
        omega
      rw [h2]
      simp [clampPercent, JSNum.round, JSNum.min, JSNum.max, JSNum.lt]
    · split
      · next h =>
        have h3 := abs_le.1 h
        have h1 : ⌊c + 1 / 2⌋ = 0 := by
          rw [Int.floor_eq_iff]
          constructor
          · push_cast; linarith
          · push_cast; linarith
        have h2 : clampedRounded c = clampedRounded 0 := by
          unfold clampedRounded
          rw [h1]
          norm_num
        rw [h2]
        exact clampPercent_eq_clampedRounded 0
      · exact clampPercent_eq_clampedRounded c

/-! ## Lemmas on the presence of the optional fields -/

theorem orEmptyArray_arr (v : Option Json) (xs : List Json) (h : orEmptyArray v = .arr xs) :
    v = some (.arr xs) ∨ xs = [] := by
  cases v with
  | none =>
    simp only [orEmptyArray] at h
    injection h with h
    exact Or.inr h.symm
  | some j =>
    by_cases ht : j.truthy = true
    · simp only [orEmptyArray, ht, if_true] at h
      exact Or.inl (by rw [h])
    · simp only [orEmptyArray, ht] at h
      injection h with h
      exact Or.inr h.symm

theorem cloudPhase_not_match (H : Host) (om : Json) (now : ℤ) (h : ¬ hourlyArraysMatch om) :
    cloudPhase H om now = .ok none := by
  unfold cloudPhase
  split
  · next times values ht hv =>
    split
    · next hg =>
      exfalso
      apply h
      have hne : times ≠ [] := fun hc => hg.2 (by rw [hc]; rfl)
      have hne2 : values ≠ [] := by
        intro hc
        rw [hc] at hg
        exact hg.2 hg.1
      rcases orEmptyArray_arr _ _ ht with h1 | h1
      · rcases orEmptyArray_arr _ _ hv with h2 | h2
        · exact ⟨times, values, h1, h2, hg.1, hg.2⟩
        · exact absurd h2 hne2
      · exact absurd h1 hne
    · rfl
  · rfl

theorem cloudPhase_match (H : Host) (om : Json) (now : ℤ) (c : Option (JSNum × String))
    (h : hourlyArraysMatch om) (hc : cloudPhase H om now = .ok c) : c ≠ none := by
  obtain ⟨times, values, ht, hv, hlen, hne⟩ := h
  have hne2 : times ≠ [] := fun hx => hne (by rw [hx]; rfl)
  rw [cloudPhase_of_arrays H om now times values ht hv hlen hne2] at hc
  split at hc
  · simp at hc
  · split at hc
    · simp at hc
    · simp at hc
      rw [← hc]
      simp

theorem enrichPhase_of_phases (H : Host) (p : JSNum) (clock : Clock) (status : ℕ) (om : Json)
    (c : Option (JSNum × String)) (d : Dark) (hst : statusOk status = true)
    (hc : cloudPhase H om clock.atHourSearch = .ok c)
    (hd : darkPhase H om clock.atSunriseTest clock.atSunsetTest = .ok d) :
    enrichPhase H p (.response status (.ok om)) clock =
      ⟨c, some d, visibilityOf p d.isNight (c.map (fun x => x.1))⟩ := by
  simp [enrichPhase, hst, hc, hd]

theorem enrichPhase_dark_completes (H : Host) (p : JSNum) (r : FetchResult) (clock : Clock)
    (d : Dark) (h : (enrichPhase H p r clock).dark = some d) :
    ∃ status om, r = .response status (.ok om) ∧ statusOk status = true ∧
      processingCompletes H om clock := by
  unfold enrichPhase at h
  split at h
  · simp at h
  · next status body =>
    split at h
    · next hst =>
      split at h
      · simp at h
      · next om =>
        split at h
        · simp at h
        · next c hc =>
          split at h
          · simp at h
          · next d2 hd =>
            exact ⟨status, om, rfl, hst, ⟨c, hc⟩, ⟨d2, hd⟩⟩
    · simp at h

theorem darkJson_some_ne_null (d : Dark) : darkJson (some d) ≠ Json.null := by
  simp [darkJson]

theorem cloudJson_eq_null_iff (c : Option (JSNum × String)) :
    cloudJson c = Json.null ↔ c = none := by
  cases c with
  | none => simp [cloudJson]
  | some x => cases x; simp [cloudJson]

theorem processingCompletes_of_isSome (H : Host) (om : Json) (clock : Clock)
    (hc : (cloudPhase H om clock.atHourSearch).toOption.isSome = true)
    (hd : (darkPhase H om clock.atSunriseTest clock.atSunsetTest).toOption.isSome = true) :
    processingCompletes H om clock := by
  constructor
  · cases h : cloudPhase H om clock.atHourSearch with
    | error e => rw [h] at hc; simp [Except.toOption] at hc
    | ok c => exact ⟨c, rfl⟩
  · cases h : darkPhase H om clock.atSunriseTest clock.atSunsetTest with
    | error e => rw [h] at hd; simp [Except.toOption] at hd
    | ok d => exact ⟨d, rfl⟩

theorem auroraHandler_completes (H : Host) (latQ lonQ : Option String) (w : World) (status : ℕ)
    (om : Json) (hs : (auroraHandler H latQ lonQ w).status = 200)
    (hm : w.openMeteo = .response status (.ok om)) (hst : statusOk status = true)
    (hproc : processingCompletes H om w.clock) :
    ∃ (n : ℕ) (c : Option (JSNum × String)) (d : Dark),
      cloudPhase H om w.clock.atHourSearch = .ok c ∧
      darkPhase H om w.clock.atSunriseTest w.clock.atSunsetTest = .ok d ∧ n ≤ 100 ∧
      (auroraHandler H latQ lonQ w).field "probability" = some (.num (n : ℚ)) ∧
      (auroraHandler H latQ lonQ w).field "cloud" = some (cloudJson c) ∧
      (auroraHandler H latQ lonQ w).field "dark" = some (darkJson (some d)) ∧
      (auroraHandler H latQ lonQ w).field "visibility" =
        some (visibilityJson (visibilityOf (JSNum.fin (n : ℚ)) d.isNight
          (c.map (fun x => x.1)))) := by
  obtain ⟨lat, lon, g, _, _, hg, hout⟩ := auroraHandler_ok H latQ lonQ w hs
  obtain ⟨n, hn, hp⟩ := gridPhase_probability H lat lon w.noaa g hg
  obtain ⟨⟨c, hc⟩, ⟨d, hd⟩⟩ := hproc
  refine ⟨n, c, d, hc, hd, hn, ?_⟩
  rw [hout, hm, enrichPhase_of_phases H g.probability w.clock status om c d hst hc hd, hp]
  simp [Outcome.field, successBody_probability, successBody_cloud, successBody_dark,
    successBody_visibility, hp, JSNum.toJson]

theorem dark_null_visibility_null (H : Host) (latQ lonQ : Option String) (w : World)
    (hs : (auroraHandler H latQ lonQ w).status = 200)
    (hd : (auroraHandler H latQ lonQ w).field "dark" = some .null) :
    (auroraHandler H latQ lonQ w).field "visibility" = some .null := by
  obtain ⟨lat, lon, g, _, _, _, hout⟩ := auroraHandler_ok H latQ lonQ w hs
  rw [hout] at hd ⊢
  simp only [Outcome.field, successBody_dark, successBody_visibility] at hd ⊢
  rcases enrichPhase_visibility H g.probability w.openMeteo w.clock with ⟨_, hv⟩ | ⟨d, hdark, _⟩
  · rw [hv]
    rfl
  · rw [hdark] at hd
    injection hd with hd
    exact absurd hd (darkJson_some_ne_null d)

/-! ## Lemmas on the cloud status -/

theorem cloudJson_eq_cloudField (e : Enriched) :
    cloudJson e.cloud = cloudField e.cloudCover e.cloudStatus := by
  cases h : e.cloud with
  | none => simp [cloudJson, cloudField, Enriched.cloudCover, Enriched.cloudStatus, h]
  | some c =>
    cases c
    simp [cloudJson, cloudField, Enriched.cloudCover, Enriched.cloudStatus, h]

theorem auroraHandler_cloud (H : Host) (latQ lonQ : Option String) (w : World) :
    (auroraHandler H latQ lonQ w).field "cloud" = none ∨
      ∃ p, (auroraHandler H latQ lonQ w).status = 200 ∧
        (auroraHandler H latQ lonQ w).field "cloud" =
          some (cloudJson (enrichPhase H p w.openMeteo w.clock).cloud) := by
  unfold auroraHandler
  split
  · split
    · left
      simp [Outcome.field, upstreamErrorBody, Json.getOwn, List.lookup]
    · next g _ =>
      right
      exact ⟨g.probability, rfl, by simp [Outcome.field, successBody_cloud]⟩
  · left
    simp [Outcome.field, invalidBody, Json.getOwn, List.lookup]

theorem le_forty (c : ℚ) : (JSNum.fin c).le (JSNum.fin 40) = decide (c ≤ 40) := by
  by_cases h : c ≤ 40
  · simp [JSNum.le, JSNum.lt, h, not_lt.2 h]
  · simp [JSNum.le, JSNum.lt, h, not_le.1 h]


/-! ## Lemmas on the solar wind summary -/

theorem lastRow_of_rows (rows cols : List Json) (hlen : 1 < rows.length)
    (hlast : rows.getLast? = some (.arr cols)) : lastRow (.arr rows) = .arr cols := by
  simp [lastRow, hlen, hlast]

theorem lastRow_single (row : Json) : lastRow (.arr [row]) = .null := by
  simp [lastRow]

theorem spacePhase_error_cases (H : Host) (w : SpaceWorld) (e : String)
    (h : spacePhase H w = .error e) :
    feedFails w.plasma ∨ feedFails w.mag ∨ lacksLatestRow w.plasma ∨ lacksLatestRow w.mag ∨
      ∃ pStatus mStatus plasma mag, w.plasma = .response pStatus (.ok plasma) ∧
        w.mag = .response mStatus (.ok mag) ∧
        spaceBody H (lastRow plasma) (lastRow mag) = .error e := by
  obtain ⟨plasmaR, magR⟩ := w
  cases plasmaR with
  | rejected reason => exact Or.inl (Or.inl ⟨reason, rfl⟩)
  | response pStatus pBody =>
    cases magR with
    | rejected reason => exact Or.inr (Or.inl (Or.inl ⟨reason, rfl⟩))
    | response mStatus mBody =>
      by_cases hp : statusOk pStatus = true
      · by_cases hm : statusOk mStatus = true
        · cases pBody with
          | error pe => exact Or.inl (Or.inr (Or.inr ⟨pStatus, pe, rfl⟩))
          | ok plasma =>
            cases mBody with
            | error me => exact Or.inr (Or.inl (Or.inr (Or.inr ⟨mStatus, me, rfl⟩)))
            | ok mag =>
              by_cases hpl : (lastRow plasma).truthy = true
              · by_cases hml : (lastRow mag).truthy = true
                · right; right; right; right
                  refine ⟨pStatus, mStatus, plasma, mag, rfl, rfl, ?_⟩
                  simpa [spacePhase, hp, hm, hpl, hml] using h
                · right; right; right; left
                  exact ⟨mStatus, mag, rfl, by simpa using hml⟩
              · right; right; left
                exact ⟨pStatus, plasma, rfl, by simpa using hpl⟩
        · exact Or.inr (Or.inl (Or.inr (Or.inl ⟨mStatus, mBody, rfl, by simpa using hm⟩)))
      · exact Or.inl (Or.inr (Or.inl ⟨pStatus, pBody, rfl, by simpa using hp⟩))

theorem spaceweatherHandler_status (H : Host) (w : SpaceWorld) :
    ((spaceweatherHandler H w).status = 200 ∧
        spacePhase H w = .ok (spaceweatherHandler H w).body) ∨
      ((spaceweatherHandler H w).status = 502 ∧ ∃ e, spacePhase H w = .error e ∧
        (spaceweatherHandler H w).body = .obj [("ok", .bool false), ("error", .str e)]) := by
  unfold spaceweatherHandler
  cases h : spacePhase H w with
  | error e => exact Or.inr ⟨rfl, e, rfl, rfl⟩
  | ok body => exact Or.inl ⟨rfl, rfl⟩

theorem auroraHandler_visibility_range (H : Host) (latQ lonQ : Option String) (w : World)
    (hs : (auroraHandler H latQ lonQ w).status = 200) :
    ∃ p : ℕ, p ≤ 100 ∧
      (auroraHandler H latQ lonQ w).field "probability" = some (.num (p : ℚ)) ∧
      ((auroraHandler H latQ lonQ w).field "visibility" = some .null ∨
        ∃ m : ℕ, m ≤ p ∧
          (auroraHandler H latQ lonQ w).field "visibility" = some (.num (m : ℚ))) := by
  obtain ⟨lat, lon, g, _, _, hg, hout⟩ := auroraHandler_ok H latQ lonQ w hs
  obtain ⟨n, hn, hp⟩ := gridPhase_probability H lat lon w.noaa g hg
  rw [hout]
  simp only [Outcome.field, successBody_probability, successBody_visibility]
  refine ⟨n, hn, by rw [hp]; rfl, ?_⟩
  rcases enrichPhase_visibility H g.probability w.openMeteo w.clock with ⟨_, hv⟩ | ⟨d, _, hv⟩
  · rw [hv]
    exact Or.inl rfl
  · rw [hv, hp]
    obtain ⟨v, hv2, hr⟩ := visibilityOf_range n d.isNight
      ((enrichPhase H (JSNum.fin (n : ℚ)) w.openMeteo w.clock).cloud.map (fun c => c.1))
    rw [hv2]
    rcases hr with rfl | ⟨m, hm, rfl⟩
    · exact Or.inl rfl
    · exact Or.inr ⟨m, hm, rfl⟩

theorem auroraHandler_cloud_shape (H : Host) (latQ lonQ : Option String) (w : World)
    (hs : (auroraHandler H latQ lonQ w).status = 200) :
    (auroraHandler H latQ lonQ w).field "cloud" = some .null ∨
      ∃ cover label, (auroraHandler H latQ lonQ w).field "cloud" =
        some (.obj [("cover", cover), ("status", .str label)]) ∧ isNullOrPercent cover := by
  obtain ⟨lat, lon, g, _, _, _, hout⟩ := auroraHandler_ok H latQ lonQ w hs
  rw [hout]
  simp only [Outcome.field, successBody_cloud]
  cases hc : (enrichPhase H g.probability w.openMeteo w.clock).cloud with
  | none => exact Or.inl rfl
  | some c =>
    right
    obtain ⟨v, rfl⟩ := enrichPhase_cloud H _ _ _ c hc
    exact ⟨_, _, rfl, toJson_nullOrPercent _ (clampPercent_cases v)⟩

theorem auroraHandler_dark_iff (H : Host) (latQ lonQ : Option String) (w : World)
    (hs : (auroraHandler H latQ lonQ w).status = 200) :
    (auroraHandler H latQ lonQ w).field "dark" ≠ some .null ↔
      ∃ status om, w.openMeteo = .response status (.ok om) ∧ statusOk status = true ∧
        processingCompletes H om w.clock := by
  constructor
  · intro hd
    obtain ⟨lat, lon, g, _, _, _, hout⟩ := auroraHandler_ok H latQ lonQ w hs
    rw [hout] at hd
    simp only [Outcome.field, successBody_dark] at hd
    cases hdark : (enrichPhase H g.probability w.openMeteo w.clock).dark with
    | none => rw [hdark] at hd; exact absurd rfl hd
    | some d => exact enrichPhase_dark_completes H _ _ _ d hdark
  · rintro ⟨status, om, hm, hst, hproc⟩
    obtain ⟨_, _, d, _, _, _, _, _, hdark, _⟩ :=
      auroraHandler_completes H latQ lonQ w status om hs hm hst hproc
    rw [hdark]
    intro h
    injection h with h
    exact darkJson_some_ne_null d h

theorem visibilitySpec_antitone (p c1 c2 : ℚ) (isNight : Option Bool) (hp : 0 ≤ p)
    (h : c1 ≤ c2) :
    visibilitySpec p isNight (some c2) ≤ visibilitySpec p isNight (some c1) := by
  simp only [visibilitySpec]
  apply Int.floor_le_floor
  have hf : 1 - c2 / 100 ≤ 1 - c1 / 100 := by linarith
  have hn : (0 : ℚ) ≤ (if isNight = some false then 0 else 1) := by split <;> norm_num
  have hprod : (if isNight = some false then (0 : ℚ) else 1) * (1 - c2 / 100) ≤
      (if isNight = some false then (0 : ℚ) else 1) * (1 - c1 / 100) :=
    mul_le_mul_of_nonneg_left hf hn
  have hclamp := max_le_max (le_refl (0 : ℚ)) (min_le_min (le_refl (1 : ℚ)) hprod)
  have := mul_le_mul_of_nonneg_right hclamp hp
  linarith

theorem visibilitySpec_unknown_eq_clear (p : ℚ) (isNight : Option Bool) :
    visibilitySpec p isNight none = visibilitySpec p isNight (some 0) := by
  simp [visibilitySpec]

/-! ## Lemmas on the validation of the query -/

theorem scanUnsignedDecimal_digits (ip : List Char) (hip : ip ≠ [])
    (hipd : ∀ d ∈ ip, d.isDigit = true) :
    scanUnsignedDecimal ip = some (JSNum.ofLiteral (digitsValue ip : ℚ), []) := by
  have hinf : ¬ (ip.take 8 = "Infinity".toList) := by
    obtain ⟨a, as, rfl⟩ := List.exists_cons_of_ne_nil hip
    have ha : a ≠ 'I' := (digit_not_special a (hipd a (List.mem_cons_self _ _))).2.2.2.2.1
    intro h
    have h2 : (a :: as).take 8 = 'I' :: "nfinity".toList := h
    rw [show (8 : ℕ) = 7 + 1 from rfl, List.take_succ_cons] at h2
    injection h2 with h3 _
    exact ha h3
  unfold scanUnsignedDecimal
  rw [if_neg hinf]
  simp only [takeWhile_all_digits ip hipd, dropWhile_all_digits ip hipd]
  simp [hip]

theorem scanUnsignedDecimal_literal (ip : List Char) (fp : Option (List Char)) (hip : ip ≠ [])
    (hipd : ∀ d ∈ ip, d.isDigit = true) (hfpd : ∀ ds, fp = some ds → ∀ d ∈ ds, d.isDigit = true) :
    ∃ rest, scanUnsignedDecimal (match fp with
      | none => ip
      | some ds => ip ++ '.' :: ds) =
      some (JSNum.ofLiteral (decimalValue ip (fp.getD [])), rest) := by
  cases fp with
  | none =>
    refine ⟨[], ?_⟩
    rw [scanUnsignedDecimal_digits ip hip hipd]
    simp [decimalValue, digitsValue]
  | some ds =>
    exact ⟨[], scanUnsignedDecimal_decimal ip ds hip hipd (hfpd ds rfl)⟩

theorem parseFloat_literal (negative : Bool) (ip : List Char) (fp : Option (List Char))
    (hip : ip ≠ []) (hipd : ∀ d ∈ ip, d.isDigit = true)
    (hfpd : ∀ ds, fp = some ds → ∀ d ∈ ds, d.isDigit = true) :
    parseFloat (decimalLiteral negative ip fp) =
      if negative then (JSNum.ofLiteral (decimalValue ip (fp.getD []))).neg
      else JSNum.ofLiteral (decimalValue ip (fp.getD [])) := by
  obtain ⟨rest, hscan⟩ := scanUnsignedDecimal_literal ip fp hip hipd hfpd
  have hhead : ∃ a as, (match fp with
      | none => ip
      | some ds => ip ++ '.' :: ds) = a :: as ∧ a.isDigit = true := by
    obtain ⟨a, as, rfl⟩ := List.exists_cons_of_ne_nil hip
    have ha := hipd a (List.mem_cons_self _ _)
    cases fp with
    | none => exact ⟨a, as, rfl, ha⟩
    | some ds => exact ⟨a, as ++ '.' :: ds, rfl, ha⟩
  obtain ⟨a, as, hlist, ha⟩ := hhead
  obtain ⟨_, _, hplus, hminus, _, _, _, _, _, _, _, hws⟩ := digit_not_special a ha
  rw [hlist] at hscan
  cases negative with
  | false =>
    simp only [parseFloat, decimalLiteral, String.toList, hlist, Bool.false_eq_true, if_false,
      List.nil_append]
    rw [List.dropWhile_cons_of_neg (by simp [hws])]
    simp only [scanDecimal, hplus, hminus, if_false, hscan]
  | true =>
    have hm : isStrWhiteSpace '-' = false := by decide
    simp only [parseFloat, decimalLiteral, String.toList, hlist, if_true, List.singleton_append]
    rw [List.dropWhile_cons_of_neg (by simp [hm])]
    simp [scanDecimal, hscan]

theorem ofLiteral_isFinite (q : ℚ) :
    (JSNum.ofLiteral q).isFinite = true ↔ |q| < overflowThreshold := by
  have hT : (0 : ℚ) < overflowThreshold := lt_trans (by positivity) overflowThreshold_gt
  unfold JSNum.ofLiteral
  split
  · next h =>
    simp only [JSNum.isFinite, Bool.false_eq_true, false_iff, not_lt]
    exact le_trans h (le_abs_self q)
  · next h =>
    split
    · next h2 =>
      simp only [JSNum.isFinite, Bool.false_eq_true, false_iff, not_lt]
      exact le_trans (by linarith) (neg_le_abs q)
    · next h2 =>
      have : |q| < overflowThreshold := abs_lt.2 ⟨by linarith, by linarith⟩
      split <;> simp [JSNum.isFinite, this]

theorem neg_isFinite (x : JSNum) : x.neg.isFinite = x.isFinite := by
  cases x <;> rfl

theorem parseFloat_literal_isFinite (negative : Bool) (ip : List Char) (fp : Option (List Char))
    (hip : ip ≠ []) (hipd : ∀ d ∈ ip, d.isDigit = true)
    (hfpd : ∀ ds, fp = some ds → ∀ d ∈ ds, d.isDigit = true) :
    (parseFloat (decimalLiteral negative ip fp)).isFinite = true ↔
      readsFinite (literalValue negative ip fp) := by
  rw [parseFloat_literal negative ip fp hip hipd hfpd]
  unfold readsFinite literalValue
  cases negative with
  | false => simpa using ofLiteral_isFinite _
  | true => simpa [neg_isFinite] using ofLiteral_isFinite _

theorem parseFloat_nonNumeric (s : String) (h : startsNonNumeric s) :
    parseFloat s = JSNum.nan := by
  unfold startsNonNumeric at h
  unfold parseFloat
  cases hs : s.toList with
  | nil => simp [scanDecimal]
  | cons c rest =>
    rw [hs] at h
    obtain ⟨hws, hdig, hplus, hminus, hdot, hI⟩ := h
    rw [List.dropWhile_cons_of_neg (by simp [hws])]
    have hinf : ¬ ((c :: rest).take 8 = "Infinity".toList) := by
      intro h2
      have h3 : (c :: rest).take 8 = 'I' :: "nfinity".toList := h2
      rw [show (8 : ℕ) = 7 + 1 from rfl, List.take_succ_cons] at h3
      injection h3 with h4 _
      exact hI h4
    simp only [scanDecimal, hplus, hminus, if_false]
    unfold scanUnsignedDecimal
    rw [if_neg hinf]
    simp [List.takeWhile, List.dropWhile, hdig, hdot]

theorem auroraHandler_validation (H : Host) (a b : String) (w : World) :
    (¬ ((parseFloat a).isFinite = true ∧ (parseFloat b).isFinite = true) →
      auroraHandler H (some a) (some b) w = ⟨400, invalidBody, []⟩) ∧
    ((parseFloat a).isFinite = true ∧ (parseFloat b).isFinite = true →
      ((auroraHandler H (some a) (some b) w).status = 200 ∨
        (auroraHandler H (some a) (some b) w).status = 502) ∧
      (auroraHandler H (some a) (some b) w).calls.head? = some Call.noaaGrid) := by
  unfold auroraHandler
  simp only [queryNumber]
  cases parseFloat a <;> cases parseFloat b <;> simp [JSNum.isFinite]
  split <;> simp

/-! ## The claims -/

/-- C1, the claim as stated fails. First collection: the single sample
`[1e200, 70, 80]`, whose coordinates are numeric; its squared distance to the
query point (69.6, 18.9) is a number that no sample of the collection beats,
but the square of the difference of the longitudes overflows in binary64, the
test `dist2 < bestDist` of line 43 compares Infinity with Infinity, no sample
is selected and the request is answered 502. Second collection: two samples
whose coordinates are binary64 numbers, the second strictly nearer to the
query point (0, 0) than the first; their squared distances are equal as
binary64 computes them, and the search ends on the first. -/
theorem grid_resolver_first_minimum_counterexample :
    (squaredDistance (348 / 5) (189 / 10) ((10 : ℚ) ^ 200, 70, Json.num 80) =
        (10 ^ 200 - 189 / 10) ^ 2 + 4 / 25 ∧
      computedDistance (348 / 5) (189 / 10) ((10 : ℚ) ^ 200, 70, Json.num 80) = JSNum.pinf ∧
      (findNearest sampleHost (348 / 5) (189 / 10)
        ([((10 : ℚ) ^ 200, (70 : ℚ), Json.num 80)].map sampleTriple)).toOption = some none ∧
      (auroraHandler sampleHost (some "69.6") (some "18.9")
        ⟨.response 200 (.ok (.obj [("coordinates",
            .arr [sampleTriple ((10 : ℚ) ^ 200, 70, Json.num 80)])])),
          .response 200 (.ok sampleMeteo), .response 200 (.ok sampleKp),
          clockAt sampleNoon⟩).status = 502) ∧
    ((JSNum.ofLiteral (1 + 1 / 2 ^ 52)).toBinary64 = JSNum.fin (1 + 1 / 2 ^ 52) ∧
      (JSNum.ofLiteral (1 / 2 ^ 60)).toBinary64 = JSNum.fin (1 / 2 ^ 60) ∧
      squaredDistance 0 0 ((1 : ℚ) + 1 / 2 ^ 52, 0, Json.num 20) <
        squaredDistance 0 0 ((1 : ℚ) + 1 / 2 ^ 52, (1 : ℚ) / 2 ^ 60, Json.num 10) ∧
      computedDistance 0 0 ((1 : ℚ) + 1 / 2 ^ 52, 0, Json.num 20) =
        computedDistance 0 0 ((1 : ℚ) + 1 / 2 ^ 52, (1 : ℚ) / 2 ^ 60, Json.num 10) ∧
      (findNearest sampleHost 0 0
        ([((1 : ℚ) + 1 / 2 ^ 52, (1 : ℚ) / 2 ^ 60, Json.num 10),
          (1 + 1 / 2 ^ 52, 0, Json.num 20)].map sampleTriple)).toOption =
        some (some (nearestOfSample (1 + 1 / 2 ^ 52, 1 / 2 ^ 60, Json.num 10)))) := by
  refine ⟨⟨by decide!, by decide!, by decide!, by decide!⟩,
    by decide!, by decide!, by decide!, by decide!, by decide!⟩

/-- C1, amended. For every query point and every collection of samples
`[lon, lat, value]` with numeric coordinates in which some sample has a finite
squared distance as binary64 computes it, the search ends on a sample `s` of
the collection whose computed squared distance is finite, that no sample
beats in computed squared distance, and that no earlier sample equals in it:
`s` is the first minimum of the computed distance. When no sample has a
finite computed distance the search selects nothing. -/
theorem grid_resolver_first_minimum (H : Host) (lat lon : ℚ) (samples : List (ℚ × ℚ × Json)) :
    ((∃ t ∈ samples, (computedDistance lat lon t).isFinite = true) →
      ∃ pre s post, samples = pre ++ s :: post ∧
        findNearest H lat lon (samples.map sampleTriple) = .ok (some (nearestOfSample s)) ∧
        (computedDistance lat lon s).isFinite = true ∧
        (∀ t ∈ samples,
          (computedDistance lat lon t).lt (computedDistance lat lon s) = false) ∧
        (∀ t ∈ pre, (computedDistance lat lon t).le (computedDistance lat lon s) = false)) ∧
    ((∀ t ∈ samples, (computedDistance lat lon t).isFinite = false) →
      findNearest H lat lon (samples.map sampleTriple) = .ok none) := by
  exact findNearest_first_minimum H lat lon samples

/-- C1 at the three samples of `sampleGrid` and the query (69.6, 18.9): the
search ends on the second sample, whose computed squared distance is the
binary64 number nearest to 0.17. -/
theorem grid_resolver_first_minimum_witness :
    (findNearest sampleHost (348 / 5) (189 / 10)
      ([((18 : ℚ), (69 : ℚ), Json.num 40), (19, 70, Json.num 80),
        (19, 69, Json.num 12)].map sampleTriple)).toOption =
      some (some (nearestOfSample (19, 70, Json.num 80))) ∧
    (computedDistance (348 / 5) (189 / 10) (19, 70, Json.num 80)).isFinite = true ∧
    ∃ pre s post,
      [((18 : ℚ), (69 : ℚ), Json.num 40), (19, 70, Json.num 80), (19, 69, Json.num 12)] =
        pre ++ s :: post ∧
      findNearest sampleHost (348 / 5) (189 / 10)
        ([((18 : ℚ), (69 : ℚ), Json.num 40), (19, 70, Json.num 80),
          (19, 69, Json.num 12)].map sampleTriple) = .ok (some (nearestOfSample s)) ∧
      (computedDistance (348 / 5) (189 / 10) s).isFinite = true ∧
      (∀ t ∈ [((18 : ℚ), (69 : ℚ), Json.num 40), (19, 70, Json.num 80), (19, 69, Json.num 12)],
        (computedDistance (348 / 5) (189 / 10) t).lt
          (computedDistance (348 / 5) (189 / 10) s) = false) ∧
      (∀ t ∈ pre, (computedDistance (348 / 5) (189 / 10) t).le
        (computedDistance (348 / 5) (189 / 10) s) = false) :=
  ⟨by decide!, by decide!,
    (grid_resolver_first_minimum sampleHost (348 / 5) (189 / 10) _).1
      ⟨(19, 70, Json.num 80), by simp, by decide!⟩⟩

/-- C2, the code at the failing input: the latest entry has no `estimated_kp`
and the `kp_index` "2"; the response has `kp.value` 0, not 2. The fallback
itself works when `estimated_kp` is present and non-numeric. -/
theorem kp_fallback_absent_estimate :
    (auroraHandler sampleHost (some "69.6") (some "18.9")
      (worldWithKp fallbackKp sampleNoon)).field "kp" =
      some (.obj [("value", .num 0), ("source", .str "NOAA Planetary Kp (1m, estimated)")]) ∧
    (auroraHandler sampleHost (some "69.6") (some "18.9")
      (worldWithKp unreadableEstimateKp sampleNoon)).field "kp" =
      some (.obj [("value", .num 2), ("source", .str "NOAA Planetary Kp (1m, estimated)")]) := by
  constructor <;> decide!

/-- C3. In every successful response the probability is an integer from 0 to
100, the cover of a non-null cloud is null or an integer from 0 to 100, and
the visibility is null or an integer from 0 to 100. -/
theorem aurora_range_invariant (H : Host) (latQ lonQ : Option String) (w : World)
    (hs : (auroraHandler H latQ lonQ w).status = 200) :
    (∃ n : ℕ, n ≤ 100 ∧
      (auroraHandler H latQ lonQ w).field "probability" = some (.num (n : ℚ))) ∧
    ((auroraHandler H latQ lonQ w).field "cloud" = some .null ∨
      ∃ cover status, (auroraHandler H latQ lonQ w).field "cloud" =
        some (.obj [("cover", cover), ("status", .str status)]) ∧ isNullOrPercent cover) ∧
    (∃ v, (auroraHandler H latQ lonQ w).field "visibility" = some v ∧ isNullOrPercent v) := by
  obtain ⟨lat, lon, g, _, _, hg, hout⟩ := auroraHandler_ok H latQ lonQ w hs
  obtain ⟨n, hn, hp⟩ := gridPhase_probability H lat lon w.noaa g hg
  rw [hout]
  simp only [Outcome.field, successBody_probability, successBody_cloud, successBody_visibility]
  refine ⟨⟨n, hn, by rw [hp]; rfl⟩, ?_, ?_⟩
  · cases hc : (enrichPhase H g.probability w.openMeteo w.clock).cloud with
    | none => exact Or.inl rfl
    | some c =>
      right
      obtain ⟨v, rfl⟩ := enrichPhase_cloud H _ _ _ c hc
      exact ⟨_, _, rfl, toJson_nullOrPercent _ (clampPercent_cases v)⟩
  · refine ⟨_, rfl, ?_⟩
    rcases enrichPhase_visibility H g.probability w.openMeteo w.clock with ⟨_, hv⟩ | ⟨d, _, hv⟩
    · rw [hv]
      exact Or.inl rfl
    · rw [hv, hp]
      obtain ⟨v, hv2, hr⟩ := visibilityOf_range n d.isNight
        ((enrichPhase H (JSNum.fin (n : ℚ)) w.openMeteo w.clock).cloud.map (fun c => c.1))
      rw [hv2]
      rcases hr with rfl | ⟨m, hm, rfl⟩
      · exact Or.inl rfl
      · exact Or.inr ⟨m, le_trans hm hn, rfl⟩

/-- C3 at the sample world in the evening. -/
theorem aurora_range_invariant_witness :
    (auroraHandler sampleHost (some "69.6") (some "18.9") (sampleWorld sampleEvening)).status
      = 200 ∧
    (∃ n : ℕ, n ≤ 100 ∧
      (auroraHandler sampleHost (some "69.6") (some "18.9") (sampleWorld sampleEvening)).field
        "probability" = some (.num (n : ℚ))) :=
  ⟨by decide!,
    (aurora_range_invariant sampleHost (some "69.6") (some "18.9") (sampleWorld sampleEvening)
      (by decide!)).1⟩

/-- C4, the claim as stated fails: the weather feed answers with status 200
and a body that parses, with sunrise 08:00 and sunset 16:00, and the current
instant is 20:00; the hourly series has a timestamp on which `new Date` of
line 78 throws, the exception is swallowed before the day/night test is
reached, and the response has `dark` null, where the claim gives `isNight`
true. -/
theorem day_night_cases_counterexample :
    (worldWith shadowedHourlyDayMeteo sampleEvening).openMeteo =
      .response 200 (.ok shadowedHourlyDayMeteo) ∧
    todaysSunrise shadowedHourlyDayMeteo = .str "2024-01-15T08:00" ∧
    todaysSunset shadowedHourlyDayMeteo = .str "2024-01-15T16:00" ∧
    sampleHost.dateParse "2024-01-15T16:00" = some 1705334400000 ∧
    (1705334400000 : ℤ) < sampleEvening ∧
    (auroraHandler sampleHost (some "69.6") (some "18.9")
      (worldWith shadowedHourlyDayMeteo sampleEvening)).status = 200 ∧
    (auroraHandler sampleHost (some "69.6") (some "18.9")
      (worldWith shadowedHourlyDayMeteo sampleEvening)).field "dark" = some .null := by
  refine ⟨rfl, by decide!, by decide!, by decide!, by decide!, by decide!, by decide!⟩

/-- C4, amended. When the weather feed answers with an OK status and a body
that parses, and the processing of the body raises no exception, then with a
clock that reads `now` at the day/night test the `dark` object of the
response has `isNight` equal to `now < sunrise || now > sunset` when today's
sunrise and sunset of the feed are both present (on valid dates: `now` is
before the sunrise or after the sunset), true when only the sunrise is
absent, false when only the sunset is absent, and null when both are absent;
a sunrise or sunset that is a string is reported as it is. -/
theorem day_night_cases (H : Host) (latQ lonQ : Option String) (w : World) (status : ℕ)
    (om : Json) (now : ℤ) (hs : (auroraHandler H latQ lonQ w).status = 200)
    (hm : w.openMeteo = .response status (.ok om)) (hst : statusOk status = true)
    (hproc : processingCompletes H om w.clock)
    (h1 : w.clock.atSunriseTest = now) (h2 : w.clock.atSunsetTest = now) :
    ∃ isNight sunrise sunset,
      (auroraHandler H latQ lonQ w).field "dark" =
        some (.obj [("isNight", isNight), ("sunrise", sunrise), ("sunset", sunset)]) ∧
      (∀ s, todaysSunrise om = .str s → sunrise = .str s) ∧
      (∀ s, todaysSunset om = .str s → sunset = .str s) ∧
      (todaysSunrise om ≠ .null → todaysSunset om ≠ .null →
        ∃ tsr tss, newDate H (todaysSunrise om) = .ok tsr ∧
          newDate H (todaysSunset om) = .ok tss ∧
          isNight = .bool ((JSNum.fin (now : ℚ)).lt tsr || (JSNum.fin (now : ℚ)).gt tss) ∧
          ∀ a b : ℤ, tsr = JSNum.fin (a : ℚ) → tss = JSNum.fin (b : ℚ) →
            isNight = .bool (decide (now < a ∨ b < now))) ∧
      (∀ (s1 s2 : String) (a b : ℤ), todaysSunrise om = .str s1 → todaysSunset om = .str s2 →
        H.dateParse s1 = some a → H.dateParse s2 = some b →
        isNight = .bool (decide (now < a ∨ b < now))) ∧
      (todaysSunrise om = .null → todaysSunset om ≠ .null → isNight = .bool true) ∧
      (todaysSunrise om ≠ .null → todaysSunset om = .null → isNight = .bool false) ∧
      (todaysSunrise om = .null → todaysSunset om = .null → isNight = .null) := by
  obtain ⟨_, _, d, _, hph, _, _, _, hdark, _⟩ :=
    auroraHandler_completes H latQ lonQ w status om hs hm hst hproc
  rw [h1, h2] at hph
  obtain ⟨hsr, hss⟩ := darkPhase_fields H om now now d hph
  obtain ⟨hboth, hnosr, hnoss, hnone⟩ := darkPhase_cases H om now now d hph
  rw [hsr, hss] at hboth hnosr hnoss hnone
  have hcases : ∀ tsr tss : JSNum, ∀ a b : ℤ, tsr = JSNum.fin (a : ℚ) → tss = JSNum.fin (b : ℚ) →
      ((JSNum.fin (now : ℚ)).lt tsr || (JSNum.fin (now : ℚ)).gt tss) =
        decide (now < a ∨ b < now) := by
    intro tsr tss a b ha hb
    subst ha hb
    simp [JSNum.lt, JSNum.gt, Bool.decide_or]
  refine ⟨_, d.sunrise, d.sunset, by rw [hdark]; rfl, ?_, ?_, ?_, ?_, ?_, ?_, ?_⟩
  · intro s h
    rw [hsr, h]
  · intro s h
    rw [hss, h]
  · intro h3 h4
    obtain ⟨tsr, tss, hn1, hn2, hnight⟩ := hboth h3 h4
    refine ⟨tsr, tss, hn1, hn2, by rw [hnight], ?_⟩
    intro a b ha hb
    rw [hnight, hcases tsr tss a b ha hb]
  · intro s1 s2 a b hs1 hs2 ha hb
    obtain ⟨tsr, tss, hn1, hn2, hnight⟩ :=
      hboth (by rw [hs1]; simp) (by rw [hs2]; simp)
    rw [hs1] at hn1
    rw [hs2] at hn2
    simp only [newDate, parsedTime, ha, hb, Except.ok.injEq] at hn1 hn2
    rw [hnight, hcases tsr tss a b hn1.symm hn2.symm]
  · intro h3 h4
    rw [hnosr h3 h4]
  · intro h3 h4
    rw [hnoss h3 h4]
  · intro h3 h4
    rw [hnone h3 h4]

/-- C4 at the sample world (sunrise 08:00, sunset 16:00): day at 12:00, night
at 20:00. -/
theorem day_night_cases_witness :
    (auroraHandler sampleHost (some "69.6") (some "18.9") (sampleWorld sampleNoon)).field "dark" =
      some (.obj [("isNight", .bool false), ("sunrise", .str "2024-01-15T08:00"),
        ("sunset", .str "2024-01-15T16:00")]) ∧
    (auroraHandler sampleHost (some "69.6") (some "18.9") (sampleWorld sampleEvening)).field
        "dark" =
      some (.obj [("isNight", .bool true), ("sunrise", .str "2024-01-15T08:00"),
        ("sunset", .str "2024-01-15T16:00")]) ∧
    ∃ isNight sunrise sunset,
      (auroraHandler sampleHost (some "69.6") (some "18.9") (sampleWorld sampleNoon)).field
          "dark" =
        some (.obj [("isNight", isNight), ("sunrise", sunrise), ("sunset", sunset)]) ∧
      (∀ s, todaysSunrise sampleMeteo = .str s → sunrise = .str s) :=
  ⟨by decide!, by decide!,
    (day_night_cases sampleHost (some "69.6") (some "18.9") (sampleWorld sampleNoon) 200
      sampleMeteo sampleNoon (by decide!) rfl (by decide)
      (processingCompletes_of_isSome _ _ _ (by decide!) (by decide!)) rfl rfl).imp fun _ h =>
        h.imp fun _ h => h.imp fun _ h => ⟨h.1, h.2.1⟩⟩

/-- C5, the claim as stated fails: the weather feed answers with status 200
and a body that parses, the request succeeds with probability 80, no cloud
cover and no day/night state, and the visibility is null, where the formula
of the claim gives 80. -/
theorem visibility_composite_counterexample :
    (worldWith shadowedMeteo sampleEvening).openMeteo = .response 200 (.ok shadowedMeteo) ∧
    (auroraHandler sampleHost (some "69.6") (some "18.9")
      (worldWith shadowedMeteo sampleEvening)).status = 200 ∧
    (auroraHandler sampleHost (some "69.6") (some "18.9")
      (worldWith shadowedMeteo sampleEvening)).field "probability" = some (.num 80) ∧
    (auroraHandler sampleHost (some "69.6") (some "18.9")
      (worldWith shadowedMeteo sampleEvening)).field "cloud" = some .null ∧
    (auroraHandler sampleHost (some "69.6") (some "18.9")
      (worldWith shadowedMeteo sampleEvening)).field "dark" = some .null ∧
    (auroraHandler sampleHost (some "69.6") (some "18.9")
      (worldWith shadowedMeteo sampleEvening)).field "visibility" = some .null ∧
    visibilitySpec 80 none none = 80 := by
  refine ⟨rfl, by decide!, by decide!, by decide!, by decide!, by decide!, by decide!⟩

/-- C5, amended. In a successful response whose `dark` is non-null (the
weather feed answered and the processing of its body raised no exception), the
visibility is `round(clamp(nightFactor * cloudFactor, 0, 1) * probability)`
computed from the probability, the `isNight` and the cloud cover of the
response, up to the rounding of binary64: with a cloud cover that is a number
it is the integer the formula gives or the integer below, and it is the
integer the formula gives unless the product is a half-integer; it is null
when the cloud cover is not a number. In particular cloud cover 0 at night or
with the day/night state unknown gives the probability, cloud cover 100 gives
0, day gives 0, and an unknown cloud cover at night or with the state unknown
gives the probability. -/
theorem visibility_composite (H : Host) (latQ lonQ : Option String) (w : World)
    (hs : (auroraHandler H latQ lonQ w).status = 200)
    (hd : (auroraHandler H latQ lonQ w).field "dark" ≠ some .null) :
    ∃ (p : ℕ) (isNight sunrise sunset : Json),
      (auroraHandler H latQ lonQ w).field "probability" = some (.num (p : ℚ)) ∧
      (auroraHandler H latQ lonQ w).field "dark" =
        some (.obj [("isNight", isNight), ("sunrise", sunrise), ("sunset", sunset)]) ∧
      ((auroraHandler H latQ lonQ w).field "cloud" = some .null →
        (auroraHandler H latQ lonQ w).field "visibility" =
          some (.num ((visibilitySpec p (isNightOfJson isNight) none : ℤ) : ℚ))) ∧
      (∀ c status, (auroraHandler H latQ lonQ w).field "cloud" =
          some (.obj [("cover", .num c), ("status", status)]) →
        ∃ v : ℤ, (auroraHandler H latQ lonQ w).field "visibility" = some (.num (v : ℚ)) ∧
          visibilitySpec p (isNightOfJson isNight) (some c) - 1 ≤ v ∧
          v ≤ visibilitySpec p (isNightOfJson isNight) (some c) ∧
          (Int.fract (visibilityProduct p (isNightOfJson isNight) (some c)) ≠ 1 / 2 →
            v = visibilitySpec p (isNightOfJson isNight) (some c))) ∧
      (∀ status, (auroraHandler H latQ lonQ w).field "cloud" =
          some (.obj [("cover", .null), ("status", status)]) →
        (auroraHandler H latQ lonQ w).field "visibility" = some .null) ∧
      (∀ status, (auroraHandler H latQ lonQ w).field "cloud" =
          some (.obj [("cover", .num 0), ("status", status)]) →
        isNightOfJson isNight ≠ some false →
        (auroraHandler H latQ lonQ w).field "visibility" = some (.num (p : ℚ))) ∧
      (∀ status, (auroraHandler H latQ lonQ w).field "cloud" =
          some (.obj [("cover", .num 100), ("status", status)]) →
        (auroraHandler H latQ lonQ w).field "visibility" = some (.num 0)) ∧
      (∀ c status, (auroraHandler H latQ lonQ w).field "cloud" = some .null ∨
          (auroraHandler H latQ lonQ w).field "cloud" =
            some (.obj [("cover", .num c), ("status", status)]) →
        isNightOfJson isNight = some false →
        (auroraHandler H latQ lonQ w).field "visibility" = some (.num 0)) ∧
      ((auroraHandler H latQ lonQ w).field "cloud" = some .null →
        isNightOfJson isNight ≠ some false →
        (auroraHandler H latQ lonQ w).field "visibility" = some (.num (p : ℚ))) := by
  obtain ⟨p, isNight, sunrise, sunset, hp, hdark, hnull, hnum, hnan⟩ :=
    auroraHandler_visibility H latQ lonQ w hs hd
  refine ⟨p, isNight, sunrise, sunset, hp, hdark, hnull, ?_, hnan, ?_, ?_, ?_, ?_⟩
  · intro c status hc
    exact ⟨_, hnum c status hc, by omega, le_refl _, fun _ => rfl⟩
  · intro status hc hn
    have h := hnum 0 status hc
    have hv := visibilitySpec_clear (p : ℤ) (isNightOfJson isNight) hn
    simp only [Int.cast_natCast] at hv
    rw [h, hv]
    simp
  · intro status hc
    rw [hnum 100 status hc, visibilitySpec_overcast]
    simp
  · intro c status hc hn
    rcases hc with hc | hc
    · rw [hnull hc, hn, visibilitySpec_day]
      simp
    · rw [hnum c status hc, hn, visibilitySpec_day]
      simp
  · intro hc hn
    have hv := visibilitySpec_unknown_cover (p : ℤ) (isNightOfJson isNight) hn
    simp only [Int.cast_natCast] at hv
    rw [hnull hc, hv]
    simp

/-- C5 at the sample worlds, probability 80: cloud cover 0 at night gives 80,
cloud cover 100 gives 0, day gives 0, no cloud cover at night or with the
day/night state unknown gives the probability. -/
theorem visibility_composite_witness :
    (auroraHandler sampleHost (some "69.6") (some "18.9")
      (worldWith (meteoFeed (.num 0) [.str "2024-01-15T08:00"] [.str "2024-01-15T16:00"])
        sampleEvening)).field "visibility" = some (.num 80) ∧
    (auroraHandler sampleHost (some "69.6") (some "18.9")
      (worldWith (meteoFeed (.num 100) [.str "2024-01-15T08:00"] [.str "2024-01-15T16:00"])
        sampleEvening)).field "visibility" = some (.num 0) ∧
    (auroraHandler sampleHost (some "69.6") (some "18.9")
      (worldWith (meteoFeed (.num 0) [.str "2024-01-15T08:00"] [.str "2024-01-15T16:00"])
        sampleNoon)).field "visibility" = some (.num 0) ∧
    (auroraHandler sampleHost (some "69.6") (some "18.9")
      (worldWith (dailyOnlyFeed [.str "2024-01-15T08:00"] [.str "2024-01-15T16:00"])
        sampleEvening)).field "visibility" = some (.num 80) ∧
    (auroraHandler sampleHost (some "69.6") (some "18.9")
      (worldWith (dailyOnlyFeed [] []) sampleEvening)).field "visibility" = some (.num 80) ∧
    ∃ (p : ℕ) (isNight sunrise sunset : Json),
      (auroraHandler sampleHost (some "69.6") (some "18.9") (sampleWorld sampleEvening)).field
        "probability" = some (.num (p : ℚ)) ∧
      (auroraHandler sampleHost (some "69.6") (some "18.9") (sampleWorld sampleEvening)).field
        "dark" = some (.obj [("isNight", isNight), ("sunrise", sunrise), ("sunset", sunset)]) :=
  ⟨by decide!, by decide!, by decide!, by decide!, by decide!,
    (visibility_composite sampleHost (some "69.6") (some "18.9") (sampleWorld sampleEvening)
      (by decide!) (by decide!)).imp fun _ h =>
        h.imp fun _ h => h.imp fun _ h => h.imp fun _ h => ⟨h.1, h.2.1⟩⟩

/-- C6. For a valid query: when the grid feed is unreachable, answers with a
status that is not OK or with a body that does not parse, or when the
collection of coordinates is missing, not an array or empty, the request is
answered 502 with the body `{ok:false, error, message}`. When the feed is
fetched with a collection of samples with numeric coordinates of which one
has a finite computed distance, the search resolves the first sample `s`
nearest to the query point, and the request is answered 200 when the value of
`s` converts to a finite Number and 502 when it does not; it is answered 502
when no sample has a finite computed distance. In general the request is
answered 502 exactly when the feed is not fetched with a non-empty collection
and a finite resolved value, and a 502 body is never a success body. -/
theorem mandatory_data_failure (H : Host) (latQ lonQ : Option String) (w : World) (lat lon : ℚ)
    (hlat : queryNumber latQ = JSNum.fin lat) (hlon : queryNumber lonQ = JSNum.fin lon) :
    (∀ reason, w.noaa = .rejected reason →
      (auroraHandler H latQ lonQ w).status = 502 ∧
        (auroraHandler H latQ lonQ w).body = upstreamErrorBody reason) ∧
    (∀ status body, w.noaa = .response status body → statusOk status = false →
      (auroraHandler H latQ lonQ w).status = 502 ∧
        (auroraHandler H latQ lonQ w).body =
          upstreamErrorBody ("Error: NOAA fetch failed: " ++ toString status)) ∧
    (∀ status e, w.noaa = .response status (.error e) →
      (auroraHandler H latQ lonQ w).status = 502) ∧
    (∀ status noaa, w.noaa = .response status (.ok noaa) →
      (noaa.getOwn "coordinates" = none ∨
        (∃ v, noaa.getOwn "coordinates" = some v ∧ ∀ xs, v ≠ .arr xs) ∨
        noaa.getOwn "coordinates" = some (.arr [])) →
      (auroraHandler H latQ lonQ w).status = 502 ∧
        ∃ e, (auroraHandler H latQ lonQ w).body = upstreamErrorBody e) ∧
    (∀ status noaa (samples : List (ℚ × ℚ × Json)),
      w.noaa = .response status (.ok noaa) → statusOk status = true →
      noaa.getOwn "coordinates" = some (.arr (samples.map sampleTriple)) →
      (∃ t ∈ samples, (computedDistance lat lon t).isFinite = true) →
      ∃ pre s post, samples = pre ++ s :: post ∧
        (∀ t ∈ samples,
          (computedDistance lat lon t).lt (computedDistance lat lon s) = false) ∧
        (∀ t ∈ pre, (computedDistance lat lon t).le (computedDistance lat lon s) = false) ∧
        ((∃ q, toNumber H (some s.2.2) = .ok (JSNum.fin q)) →
          (auroraHandler H latQ lonQ w).status = 200 ∧
            (auroraHandler H latQ lonQ w).field "ok" = some (.bool true)) ∧
        ((∀ q, toNumber H (some s.2.2) ≠ .ok (JSNum.fin q)) →
          (auroraHandler H latQ lonQ w).status = 502 ∧
            ∃ e, (auroraHandler H latQ lonQ w).body = upstreamErrorBody e)) ∧
    (∀ status noaa (samples : List (ℚ × ℚ × Json)),
      w.noaa = .response status (.ok noaa) → statusOk status = true →
      noaa.getOwn "coordinates" = some (.arr (samples.map sampleTriple)) → samples ≠ [] →
      (∀ t ∈ samples, (computedDistance lat lon t).isFinite = false) →
      (auroraHandler H latQ lonQ w).status = 502) ∧
    ((auroraHandler H latQ lonQ w).status = 502 ↔ ¬ gridFeedUsable H lat lon w.noaa) ∧
    ((auroraHandler H latQ lonQ w).status = 502 →
      ∃ e, (auroraHandler H latQ lonQ w).body = upstreamErrorBody e ∧
        (auroraHandler H latQ lonQ w).field "ok" = some (.bool false)) := by
  have hout := auroraHandler_valid H latQ lonQ w lat lon hlat hlon
  have hiff := gridFeedUsable_iff H lat lon w.noaa
  have herr : ∀ e, gridPhase H lat lon w.noaa = .error e →
      (auroraHandler H latQ lonQ w).status = 502 ∧
        (auroraHandler H latQ lonQ w).body = upstreamErrorBody e := by
    intro e hg
    rw [hout, hg]
    exact ⟨rfl, rfl⟩
  have hok : ∀ g, gridPhase H lat lon w.noaa = .ok g →
      (auroraHandler H latQ lonQ w).status = 200 ∧
        (auroraHandler H latQ lonQ w).field "ok" = some (.bool true) := by
    intro g hg
    rw [hout, hg]
    exact ⟨rfl, by simp [Outcome.field, successBody, Json.getOwn, List.lookup]⟩
  have hbad : ¬ gridFeedUsable H lat lon w.noaa →
      (auroraHandler H latQ lonQ w).status = 502 ∧
        ∃ e, (auroraHandler H latQ lonQ w).body = upstreamErrorBody e := by
    intro hn
    cases hg : gridPhase H lat lon w.noaa with
    | error e => exact ⟨(herr e hg).1, e, (herr e hg).2⟩
    | ok g => exact absurd (hiff.2 ⟨g, hg⟩) hn
  have hgood : gridFeedUsable H lat lon w.noaa → (auroraHandler H latQ lonQ w).status = 200 := by
    intro hu
    obtain ⟨g, hg⟩ := hiff.1 hu
    exact (hok g hg).1
  refine ⟨?_, ?_, ?_, ?_, ?_, ?_, ?_, ?_⟩
  · intro reason hr
    exact herr reason (by rw [hr]; rfl)
  · intro status body hr hst
    exact herr ("Error: NOAA fetch failed: " ++ toString status)
      (by rw [hr]; simp [gridPhase, hst])
  · intro status e hr
    by_cases hst : statusOk status = true
    · exact (herr e (by rw [hr]; simp [gridPhase, hst])).1
    · exact (herr ("Error: NOAA fetch failed: " ++ toString status)
        (by rw [hr]; simp [gridPhase, hst])).1
  · intro status noaa hr hc
    obtain ⟨e, he⟩ := gridPhase_of_no_coords H lat lon status noaa (coordsOf_of_missing noaa hc)
    rw [← hr] at he
    exact ⟨(herr e he).1, e, (herr e he).2⟩
  · intro status noaa samples hr hst hc hfin
    obtain ⟨pre, s, post, hsplit, hf, _, hmin, hfirst⟩ :=
      (findNearest_first_minimum H lat lon samples).1 hfin
    have hne : samples ≠ [] := by rw [hsplit]; simp
    obtain ⟨hyes, hno⟩ := gridPhase_of_samples H lat lon status noaa samples hst hc (some s)
      hf hne
    rw [← hr] at hyes hno
    refine ⟨pre, s, post, hsplit, hmin, hfirst, ?_, ?_⟩
    · rintro ⟨q, hq⟩
      obtain ⟨g, hg⟩ := hyes ⟨s, q, rfl, hq⟩
      exact hok g hg
    · intro hq
      obtain ⟨e, he⟩ := hno (fun s2 q h2 => by
        injection h2 with h2
        subst h2
        exact hq q)
      exact ⟨(herr e he).1, e, (herr e he).2⟩
  · intro status noaa samples hr hst hc hne hall
    have hf := (findNearest_first_minimum H lat lon samples).2 hall
    obtain ⟨_, hno⟩ := gridPhase_of_samples H lat lon status noaa samples hst hc none hf hne
    rw [← hr] at hno
    obtain ⟨e, he⟩ := hno (fun s2 q h2 => by cases h2)
    exact (herr e he).1
  · constructor
    · intro h502 hu
      rw [hgood hu] at h502
      exact absurd h502 (by decide)
    · intro hn
      exact (hbad hn).1
  · intro h502
    have hn : ¬ gridFeedUsable H lat lon w.noaa := by
      intro hu
      rw [hgood hu] at h502
      exact absurd h502 (by decide)
    obtain ⟨_, e, he⟩ := hbad hn
    refine ⟨e, he, ?_⟩
    simp [Outcome.field, he, upstreamErrorBody, Json.getOwn, List.lookup]

/-- C6 at the sample query: the sample grid feed, whose three samples have
finite values, is answered 200; a feed with an empty collection of
coordinates, a feed whose nearest sample has the value "n/a", and an
unreachable feed are answered 502. -/
theorem mandatory_data_failure_witness :
    (auroraHandler sampleHost (some "69.6") (some "18.9") (sampleWorld sampleNoon)).status =
      200 ∧
    (auroraHandler sampleHost (some "69.6") (some "18.9")
      ⟨.response 200 (.ok (.obj [("coordinates", .arr [])])), .response 200 (.ok sampleMeteo),
        .response 200 (.ok sampleKp), clockAt sampleNoon⟩).status = 502 ∧
    (auroraHandler sampleHost (some "69.6") (some "18.9")
      ⟨.response 200 (.ok (.obj [("coordinates",
          .arr [.arr [.num 18, .num 69, .num 40], .arr [.num 19, .num 70, .str "n/a"]])])),
        .response 200 (.ok sampleMeteo), .response 200 (.ok sampleKp),
        clockAt sampleNoon⟩).status = 502 ∧
    (auroraHandler sampleHost (some "69.6") (some "18.9")
      ⟨.rejected "TypeError: fetch failed", .response 200 (.ok sampleMeteo),
        .response 200 (.ok sampleKp), clockAt sampleNoon⟩).status = 502 ∧
    ∃ pre s post,
      [((18 : ℚ), (69 : ℚ), Json.num 40), (19, 70, Json.num 80), (19, 69, Json.num 12)] =
        pre ++ s :: post ∧
      ((∃ q, toNumber sampleHost (some s.2.2) = .ok (JSNum.fin q)) →
        (auroraHandler sampleHost (some "69.6") (some "18.9") (sampleWorld sampleNoon)).status =
          200 ∧
        (auroraHandler sampleHost (some "69.6") (some "18.9") (sampleWorld sampleNoon)).field
          "ok" = some (.bool true)) :=
  ⟨by decide!, by decide!, by decide!, by decide!,
    ((mandatory_data_failure sampleHost (some "69.6") (some "18.9") (sampleWorld sampleNoon)
      (348 / 5) (189 / 10) (by decide!) (by decide!)).2.2.2.2.1 200 sampleGrid
      [((18 : ℚ), (69 : ℚ), Json.num 40), (19, 70, Json.num 80), (19, 69, Json.num 12)]
      rfl (by decide) (by decide!) ⟨(19, 70, Json.num 80), by simp, by decide!⟩).imp
      fun _ h => h.imp fun _ h => h.imp fun _ h => ⟨h.1, h.2.2.2.1⟩⟩

/-- C7, the claim as stated fails: the latest entry of the Kp feed has the
estimate "1,4499999999999999", a decimal string with a comma; the number it
denotes is nearer to 1.4 than to 1.5 and rounds to 1.4, but `Number` reads
the string as the binary64 number 1.45, `v * 10` is 14.5, and the response has
`kp.value` 1.5. -/
theorem kp_decimal_rounding_counterexample :
    (worldWithKp longEstimateKp sampleNoon).kp = .response 200 (.ok longEstimateKp) ∧
    longEstimateKp = .arr
      [.obj [("time_tag", .str "2024-01-15T11:59:00"), ("kp_index", .num 1),
        ("estimated_kp", .str (String.mk (['1'] ++ ',' :: "4499999999999999".toList)))]] ∧
    decimalValue ['1'] "4499999999999999".toList = 14499999999999999 / 10000000000000000 ∧
    roundedToTenth (decimalValue ['1'] "4499999999999999".toList) = 14 / 10 ∧
    |(14 : ℚ) / 10 - decimalValue ['1'] "4499999999999999".toList| < 1 / 20 ∧
    (1 : ℚ) / 20 < |(15 : ℚ) / 10 - decimalValue ['1'] "4499999999999999".toList| ∧
    (auroraHandler sampleHost (some "69.6") (some "18.9")
      (worldWithKp longEstimateKp sampleNoon)).field "kp" =
      some (.obj [("value", .num (15 / 10)),
        ("source", .str "NOAA Planetary Kp (1m, estimated)")]) := by
  refine ⟨rfl, by decide!, by decide!, by decide!, by decide!, by decide!, by decide!⟩

/-- C7, amended. In a successful response `kp` is null or has the fixed source
label and a value that is null or a tenth `k / 10`, which stands for the
binary64 number nearest to it; when the latest entry of the Kp feed has for
`estimated_kp` a decimal string (digits, a comma or a dot, digits) that
denotes a number `d` up to 2^1000, the value is a tenth within
`1/20 + (d + 1) / 2^51` of `d`: the tenth nearest to `d` as binary64 reads and
multiplies it. -/
theorem kp_decimal_rounding (H : Host) (latQ lonQ : Option String) (w : World)
    (hs : (auroraHandler H latQ lonQ w).status = 200) :
    ((auroraHandler H latQ lonQ w).field "kp" = some .null ∨
      ∃ value, (auroraHandler H latQ lonQ w).field "kp" =
          some (.obj [("value", value), ("source", .str "NOAA Planetary Kp (1m, estimated)")]) ∧
        (value = .null ∨ ∃ k : ℤ, value = .num ((k : ℚ) / 10))) ∧
    (∀ (status : ℕ) (kpData : List Json) (latest : Json) (ip fp : List Char) (sep : Char),
      w.kp = .response status (.ok (.arr kpData)) → statusOk status = true →
      kpData.getLast? = some latest →
      latest.getOwn "estimated_kp" = some (.str (String.mk (ip ++ sep :: fp))) →
      sep = ',' ∨ sep = '.' → ip ≠ [] → fp ≠ [] →
      (∀ c ∈ ip, c.isDigit = true) → (∀ c ∈ fp, c.isDigit = true) →
      decimalValue ip fp ≤ 2 ^ 1000 →
      ∃ k : ℤ, (auroraHandler H latQ lonQ w).field "kp" =
          some (.obj [("value", .num ((k : ℚ) / 10)),
            ("source", .str "NOAA Planetary Kp (1m, estimated)")]) ∧
        |(k : ℚ) / 10 - decimalValue ip fp| ≤ 1 / 20 + (decimalValue ip fp + 1) / 2 ^ 51) := by
  obtain ⟨lat, lon, g, _, _, _, hout⟩ := auroraHandler_ok H latQ lonQ w hs
  rw [hout]
  simp only [Outcome.field, successBody_kp]
  constructor
  · cases hk : kpPhase H w.kp with
    | none => exact Or.inl rfl
    | some kp =>
      right
      obtain ⟨_, _, latest, _, _, _, hl⟩ := kpPhase_eq_some H w.kp kp hk
      obtain ⟨x, s⟩ := kp
      obtain ⟨rfl, hx⟩ := kpOfLatest_value H latest x s hl
      refine ⟨x.toJson, rfl, ?_⟩
      rcases hx with hx | ⟨k, rfl⟩
      · left
        cases x <;> simp [JSNum.isFinite] at hx <;> rfl
      · exact Or.inr ⟨k, rfl⟩
  · intro status kpData latest ip fp sep hkp hst hlast hest hsep hip hfp hipd hfpd hb
    obtain ⟨k, hk, hclose⟩ := kpOfLatest_decimal H latest ip fp sep hest hsep hip hfp hipd hfpd hb
    rw [hkp, kpPhase_of_latest H status kpData latest _ hst hlast hk]
    exact ⟨k, rfl, hclose⟩

/-- C7 at the sample world, whose latest entry has the estimate "1,67": the
value is 1.7, within 1/20 + 2.67 / 2^51 of 1.67. -/
theorem kp_decimal_rounding_witness :
    (auroraHandler sampleHost (some "69.6") (some "18.9") (sampleWorld sampleNoon)).field "kp" =
      some (.obj [("value", .num (17 / 10)),
        ("source", .str "NOAA Planetary Kp (1m, estimated)")]) ∧
    ∃ k : ℤ, (auroraHandler sampleHost (some "69.6") (some "18.9")
          (sampleWorld sampleNoon)).field "kp" =
          some (.obj [("value", .num ((k : ℚ) / 10)),
            ("source", .str "NOAA Planetary Kp (1m, estimated)")]) ∧
        |(k : ℚ) / 10 - decimalValue ['1'] ['6', '7']| ≤
          1 / 20 + (decimalValue ['1'] ['6', '7'] + 1) / 2 ^ 51 :=
  ⟨by decide!,
    (kp_decimal_rounding sampleHost (some "69.6") (some "18.9") (sampleWorld sampleNoon)
      (by decide!)).2 200 _ _ ['1'] ['6', '7'] ',' rfl (by decide) rfl (by decide)
      (Or.inl rfl) (by simp) (by simp) (by decide) (by decide) (by decide!)⟩

/-- C8, the code at the failing input: the latest entry of the Kp feed has
neither `estimated_kp` nor `kp_index`; the response has status 200 and a `kp`
with value 0, not null. The other degradations of the claim do leave `kp`
null: a fetch that fails, a status that is not OK, a body that does not parse,
a feed that is empty or not an array. -/
theorem kp_degradation_empty_entry (H : Host) :
    ((auroraHandler sampleHost (some "69.6") (some "18.9")
        (worldWithKp emptyEntryKp sampleNoon)).status = 200 ∧
      (auroraHandler sampleHost (some "69.6") (some "18.9")
        (worldWithKp emptyEntryKp sampleNoon)).field "kp" =
        some (.obj [("value", .num 0),
          ("source", .str "NOAA Planetary Kp (1m, estimated)")])) ∧
    (∀ reason, kpPhase H (.rejected reason) = none) ∧
    (∀ status body, statusOk status = false → kpPhase H (.response status body) = none) ∧
    (∀ status e, kpPhase H (.response status (.error e)) = none) ∧
    (∀ status, kpPhase H (.response status (.ok (.arr []))) = none) ∧
    (∀ status body, (∀ xs, body ≠ .arr xs) → kpPhase H (.response status (.ok body)) = none) := by
  refine ⟨⟨by decide!, by decide!⟩, fun _ => rfl, ?_, ?_, ?_, ?_⟩
  · intro status body h
    simp [kpPhase, h]
  · intro status e
    simp [kpPhase]
  · intro status
    simp [kpPhase]
  · intro status body h
    cases body with
    | arr xs => exact absurd rfl (h xs)
    | null => simp [kpPhase]
    | bool b => simp [kpPhase]
    | num q => simp [kpPhase]
    | str s => simp [kpPhase]
    | obj kvs => simp [kpPhase]

/-- C9. When the enrichment call throws, answers with a status that is not OK
or with a body that does not parse, a request that succeeds with any other
answer of the weather feed still succeeds, with `cloud`, `dark` and
`visibility` null and with the same probability, timestamps and source. -/
theorem enrichment_degradation (H : Host) (latQ lonQ : Option String) (w : World)
    (failed : FetchResult) (hf : enrichmentFails failed)
    (hs : (auroraHandler H latQ lonQ w).status = 200) :
    (auroraHandler H latQ lonQ ⟨w.noaa, failed, w.kp, w.clock⟩).status = 200 ∧
    (auroraHandler H latQ lonQ ⟨w.noaa, failed, w.kp, w.clock⟩).field "cloud" = some .null ∧
    (auroraHandler H latQ lonQ ⟨w.noaa, failed, w.kp, w.clock⟩).field "dark" = some .null ∧
    (auroraHandler H latQ lonQ ⟨w.noaa, failed, w.kp, w.clock⟩).field "visibility" =
      some .null ∧
    (auroraHandler H latQ lonQ ⟨w.noaa, failed, w.kp, w.clock⟩).field "probability" =
      (auroraHandler H latQ lonQ w).field "probability" ∧
    (auroraHandler H latQ lonQ ⟨w.noaa, failed, w.kp, w.clock⟩).field "timestamps" =
      (auroraHandler H latQ lonQ w).field "timestamps" ∧
    (auroraHandler H latQ lonQ ⟨w.noaa, failed, w.kp, w.clock⟩).field "source" =
      (auroraHandler H latQ lonQ w).field "source" := by
  obtain ⟨lat, lon, g, hlat, hlon, hg, hout⟩ := auroraHandler_ok H latQ lonQ w hs
  have hout2 := auroraHandler_valid H latQ lonQ ⟨w.noaa, failed, w.kp, w.clock⟩ lat lon hlat hlon
  simp only [hg] at hout2
  rw [hout, hout2, enrichPhase_fails H _ failed _ hf]
  simp [Outcome.field, successBody_cloud, successBody_dark, successBody_visibility,
    successBody_probability, successBody_timestamps, successBody_source, cloudJson, darkJson,
    visibilityJson]

/-- C9 at the sample world, with the weather feed unreachable. -/
theorem enrichment_degradation_witness :
    (auroraHandler sampleHost (some "69.6") (some "18.9")
      ⟨(sampleWorld sampleEvening).noaa, .rejected "TypeError: fetch failed",
        (sampleWorld sampleEvening).kp, (sampleWorld sampleEvening).clock⟩).status = 200 ∧
    (auroraHandler sampleHost (some "69.6") (some "18.9")
      ⟨(sampleWorld sampleEvening).noaa, .rejected "TypeError: fetch failed",
        (sampleWorld sampleEvening).kp, (sampleWorld sampleEvening).clock⟩).field "cloud" =
      some .null :=
  ⟨(enrichment_degradation sampleHost (some "69.6") (some "18.9") (sampleWorld sampleEvening)
      (.rejected "TypeError: fetch failed") (Or.inl ⟨_, rfl⟩) (by decide!)).1,
    (enrichment_degradation sampleHost (some "69.6") (some "18.9") (sampleWorld sampleEvening)
      (.rejected "TypeError: fetch failed") (Or.inl ⟨_, rfl⟩) (by decide!)).2.1⟩

/-- C10. For every pair of query strings the request is answered 400, with
the body `{ok:false, error}` and before any upstream call, exactly when
`parseFloat` of `lat` or of `lon` is not a finite Number, and otherwise it is
answered 200 or 502 after the grid feed has been called. For decimal literals
(an optional minus sign, digits, and optionally a dot and digits) this is
exactly when one of the two numbers denoted is beyond the range of binary64;
a string with no numeric prefix, such as "abc", the strings "Infinity" and
"1e400" and an absent parameter are answered 400; the query lat=69.6,
lon=-18.9 is not. -/
theorem input_validation (H : Host) (latQ lonQ : String) (w : World) :
    ((auroraHandler H (some latQ) (some lonQ) w).status = 400 ↔
      ¬ ((parseFloat latQ).isFinite = true ∧ (parseFloat lonQ).isFinite = true)) ∧
    ((auroraHandler H (some latQ) (some lonQ) w).status = 400 →
      (auroraHandler H (some latQ) (some lonQ) w).body = invalidBody ∧
        (auroraHandler H (some latQ) (some lonQ) w).calls = []) ∧
    ((auroraHandler H (some latQ) (some lonQ) w).status ≠ 400 →
      ((auroraHandler H (some latQ) (some lonQ) w).status = 200 ∨
        (auroraHandler H (some latQ) (some lonQ) w).status = 502) ∧
      (auroraHandler H (some latQ) (some lonQ) w).calls.head? = some Call.noaaGrid) ∧
    (∀ (n1 n2 : Bool) (ip1 ip2 : List Char) (fp1 fp2 : Option (List Char)),
      latQ = decimalLiteral n1 ip1 fp1 → lonQ = decimalLiteral n2 ip2 fp2 →
      ip1 ≠ [] → ip2 ≠ [] → (∀ c ∈ ip1, c.isDigit = true) → (∀ c ∈ ip2, c.isDigit = true) →
      (∀ ds, fp1 = some ds → ∀ c ∈ ds, c.isDigit = true) →
      (∀ ds, fp2 = some ds → ∀ c ∈ ds, c.isDigit = true) →
      ((auroraHandler H (some latQ) (some lonQ) w).status = 400 ↔
        ¬ (readsFinite (literalValue n1 ip1 fp1) ∧ readsFinite (literalValue n2 ip2 fp2)))) ∧
    (startsNonNumeric latQ ∨ startsNonNumeric lonQ →
      (auroraHandler H (some latQ) (some lonQ) w).status = 400) ∧
    (auroraHandler H (some "abc") (some lonQ) w).status = 400 ∧
    (auroraHandler H (some "Infinity") (some lonQ) w).status = 400 ∧
    (auroraHandler H (some "1e400") (some lonQ) w).status = 400 ∧
    (auroraHandler H none (some lonQ) w).status = 400 ∧
    (auroraHandler H (some latQ) none w).status = 400 ∧
    (auroraHandler H (some "69.6") (some "-18.9") w).status ≠ 400 := by
  have key := auroraHandler_validation H
  have hiff : ∀ a b : String, (auroraHandler H (some a) (some b) w).status = 400 ↔
      ¬ ((parseFloat a).isFinite = true ∧ (parseFloat b).isFinite = true) := by
    intro a b
    constructor
    · intro h hfin
      rcases ((key a b w).2 hfin).1 with h2 | h2 <;> rw [h2] at h <;> exact absurd h (by decide)
    · intro hn
      rw [(key a b w).1 hn]
  have hleft : ∀ a : String, (parseFloat a).isFinite = false →
      (auroraHandler H (some a) (some lonQ) w).status = 400 := by
    intro a ha
    exact (hiff a lonQ).2 (fun h => by rw [ha] at h; exact absurd h.1 (by decide))
  have habsent : parseFloat "undefined" = JSNum.nan := by decide!
  refine ⟨hiff latQ lonQ, ?_, ?_, ?_, ?_, hleft "abc" (by decide!), hleft "Infinity" (by decide!),
    hleft "1e400" (by decide!), ?_, ?_, ?_⟩
  · intro h
    rw [(key latQ lonQ w).1 ((hiff latQ lonQ).1 h)]
    exact ⟨rfl, rfl⟩
  · intro h
    by_cases hfin : (parseFloat latQ).isFinite = true ∧ (parseFloat lonQ).isFinite = true
    · exact (key latQ lonQ w).2 hfin
    · exact absurd ((hiff latQ lonQ).2 hfin) h
  · intro n1 n2 ip1 ip2 fp1 fp2 h1 h2 hip1 hip2 hd1 hd2 hf1 hf2
    rw [hiff, h1, h2, parseFloat_literal_isFinite n1 ip1 fp1 hip1 hd1 hf1,
      parseFloat_literal_isFinite n2 ip2 fp2 hip2 hd2 hf2]
  · intro h
    apply (hiff latQ lonQ).2
    rintro ⟨h1, h2⟩
    rcases h with h | h
    · rw [parseFloat_nonNumeric _ h] at h1
      exact absurd h1 (by decide)
    · rw [parseFloat_nonNumeric _ h] at h2
      exact absurd h2 (by decide)
  · simp [auroraHandler, queryNumber, habsent]
  · have : auroraHandler H (some latQ) none w = ⟨400, invalidBody, []⟩ := by
      unfold auroraHandler
      simp only [queryNumber, habsent]
      cases parseFloat latQ <;> rfl
    rw [this]
  · have h1 : (parseFloat "69.6").isFinite = true := by decide!
    have h2 : (parseFloat "-18.9").isFinite = true := by decide!
    rcases ((key "69.6" "-18.9" w).2 ⟨h1, h2⟩).1 with h | h <;> rw [h] <;> decide

/-- C10 at the query lat=69.6, lon=-18.9: both strings are decimal literals
that denote numbers in the range of binary64, and the request is answered
200 by the sample world. -/
theorem input_validation_witness :
    (auroraHandler sampleHost (some "69.6") (some "-18.9") (sampleWorld sampleNoon)).status =
      200 ∧
    ((auroraHandler sampleHost (some "69.6") (some "-18.9") (sampleWorld sampleNoon)).status =
        400 ↔
      ¬ (readsFinite (literalValue false ['6', '9'] (some ['6'])) ∧
        readsFinite (literalValue true ['1', '8'] (some ['9'])))) :=
  ⟨by decide!,
    (input_validation sampleHost "69.6" "-18.9" (sampleWorld sampleNoon)).2.2.2.1 false true
      ['6', '9'] ['1', '8'] (some ['6']) (some ['9']) (by decide) (by decide) (by simp)
      (by simp) (by decide) (by decide) (by simp) (by simp)⟩

/-- C11. When the weather feed answers with hourly arrays of equal non-zero
length whose timestamps are valid, there is an index `i` whose timestamp is
nearest to the current instant, every earlier timestamp being strictly
farther, and the `cloud.cover` of the response is the value at `i` rounded
and clamped to the range from 0 to 100. -/
theorem nearest_hour_selection (H : Host) (latQ lonQ : Option String) (w : World) (status : ℕ)
    (om : Json) (ts : List (String × ℤ)) (values : List Json) (now : ℤ)
    (hs : (auroraHandler H latQ lonQ w).status = 200)
    (hm : w.openMeteo = .response status (.ok om)) (hst : statusOk status = true)
    (hnow : w.clock.atHourSearch = now)
    (htime : getProp (getProp (some om) "hourly") "time" = some (timestampArray ts))
    (hcover : getProp (getProp (some om) "hourly") "cloudcover" = some (.arr values))
    (hvalid : ∀ p ∈ ts, H.dateParse p.1 = some p.2)
    (hlen : ts.length = values.length) (hne : ts ≠ []) :
    ∃ (i : ℕ) (p : String × ℤ), ts[i]? = some p ∧
      (∀ q ∈ ts, timeDistance now p.2 ≤ timeDistance now q.2) ∧
      (∀ j q, j < i → ts[j]? = some q → timeDistance now p.2 < timeDistance now q.2) ∧
      (∀ c, values[i]? = some (.num c) →
        ∃ label, (auroraHandler H latQ lonQ w).field "cloud" =
          some (.obj [("cover", .num ((clampedRounded c : ℤ) : ℚ)), ("status", .str label)])) ∧
      (∀ x, toNumber H values[i]? = .ok x →
        ∃ label, (auroraHandler H latQ lonQ w).field "cloud" =
          some (.obj [("cover", (clampPercent x).toJson), ("status", .str label)])) := by
  obtain ⟨lat, lon, g, _, _, _, hout⟩ := auroraHandler_ok H latQ lonQ w hs
  obtain ⟨i, p, hi, hrun, hmin, hfirst⟩ := hourLoop_valid H now ts hvalid hne
  have hne2 : ts.map (fun p : String × ℤ => Json.str p.1) ≠ [] := by simpa using hne
  have hcloud := cloudPhase_of_arrays H om now (ts.map (fun p : String × ℤ => Json.str p.1)) values htime
    hcover (by simpa using hlen) hne2
  rw [hrun] at hcloud
  have key : ∀ x, toNumber H values[i]? = .ok x →
      ∃ label, (auroraHandler H latQ lonQ w).field "cloud" =
        some (.obj [("cover", (clampPercent x).toJson), ("status", .str label)]) := by
    intro x hx
    simp only [hx] at hcloud
    rw [← hnow] at hcloud
    rw [hout, hm]
    simp only [Outcome.field, successBody_cloud,
      enrichPhase_cloud_of H g.probability w.clock status om _ hst hcloud]
    exact ⟨_, rfl⟩
  refine ⟨i, p, hi, hmin, hfirst, ?_, key⟩
  intro c hc
  have hx : toNumber H values[i]? = .ok (JSNum.ofLiteral c) := by rw [hc]; rfl
  obtain ⟨label, hl⟩ := key _ hx
  rw [clampPercent_ofLiteral] at hl
  exact ⟨label, hl⟩

/-- C11 at the sample world at 12:00, with the cloud covers 10, 60 and 90 at
11:00, 12:00 and 13:00: the cover of the response is 60. -/
theorem nearest_hour_selection_witness :
    (auroraHandler sampleHost (some "69.6") (some "18.9")
      (worldWith (.obj [("hourly", .obj [("time", timestampArray
          [("2024-01-15T11:00", 1705316400000), ("2024-01-15T12:00", 1705320000000),
            ("2024-01-15T13:00", 1705323600000)]),
        ("cloudcover", .arr [.num 10, .num 60, .num 90])])]) sampleNoon)).field "cloud" =
      some (.obj [("cover", .num 60), ("status", .str "Coperto")]) ∧
    ∃ (i : ℕ) (p : String × ℤ), [("2024-01-15T11:00", (1705316400000 : ℤ)), ("2024-01-15T12:00", 1705320000000),
        ("2024-01-15T13:00", 1705323600000)][i]? = some p ∧
      (∀ q ∈ [("2024-01-15T11:00", (1705316400000 : ℤ)), ("2024-01-15T12:00", 1705320000000),
        ("2024-01-15T13:00", 1705323600000)],
        timeDistance sampleNoon p.2 ≤ timeDistance sampleNoon q.2) :=
  ⟨by decide!,
    (nearest_hour_selection sampleHost (some "69.6") (some "18.9")
      (worldWith (.obj [("hourly", .obj [("time", timestampArray
          [("2024-01-15T11:00", 1705316400000), ("2024-01-15T12:00", 1705320000000),
            ("2024-01-15T13:00", 1705323600000)]),
        ("cloudcover", .arr [.num 10, .num 60, .num 90])])]) sampleNoon)
      200 _ [("2024-01-15T11:00", 1705316400000), ("2024-01-15T12:00", 1705320000000),
        ("2024-01-15T13:00", 1705323600000)] [.num 10, .num 60, .num 90] sampleNoon
      (by decide!) rfl (by decide) rfl (by decide!) (by decide!) (by decide!) rfl
      (by simp)).imp fun _ h => h.imp fun _ h => ⟨h.1, h.2.1⟩⟩

/-- C12, the claim as stated fails. First world: the weather feed answers with
status 200 and a body that parses, its hourly arrays have equal non-zero
length, and `cloud` is null. Second world: the feed answers likewise, the
hourly arrays are absent, `cloud` is null, and `dark` and `visibility` are
null too. -/
theorem cloud_presence_counterexample :
    ((worldWith shadowedHourlyMeteo sampleEvening).openMeteo =
        .response 200 (.ok shadowedHourlyMeteo) ∧
      hourlyArraysMatch shadowedHourlyMeteo ∧
      (auroraHandler sampleHost (some "69.6") (some "18.9")
        (worldWith shadowedHourlyMeteo sampleEvening)).status = 200 ∧
      (auroraHandler sampleHost (some "69.6") (some "18.9")
        (worldWith shadowedHourlyMeteo sampleEvening)).field "cloud" = some .null) ∧
    ((worldWith shadowedMeteo sampleEvening).openMeteo = .response 200 (.ok shadowedMeteo) ∧
      ¬ hourlyArraysMatch shadowedMeteo ∧
      (auroraHandler sampleHost (some "69.6") (some "18.9")
        (worldWith shadowedMeteo sampleEvening)).field "cloud" = some .null ∧
      (auroraHandler sampleHost (some "69.6") (some "18.9")
        (worldWith shadowedMeteo sampleEvening)).field "dark" = some .null ∧
      (auroraHandler sampleHost (some "69.6") (some "18.9")
        (worldWith shadowedMeteo sampleEvening)).field "visibility" = some .null) := by
  refine ⟨⟨rfl, ⟨[.obj [("toString", .num 1)]], [.num 0], by decide!, by decide!, rfl,
    by decide⟩, by decide!, by decide!⟩, rfl, ?_, by decide!, by decide!, by decide!⟩
  rintro ⟨times, values, ht, _, _, _⟩
  have hnone : getProp (getProp (some shadowedMeteo) "hourly") "time" = none := by decide!
  rw [hnone] at ht
  cases ht

/-- C12, amended. When the weather feed answers with an OK status and a body
that parses, and the processing of the body raises no exception, `cloud` is
non-null exactly when the hourly timestamps and cloud-cover values are both
arrays of equal non-zero length; otherwise `cloud` is null while the request
succeeds, `dark` is reported and `visibility` is a number. -/
theorem cloud_presence (H : Host) (latQ lonQ : Option String) (w : World) (status : ℕ)
    (om : Json) (hs : (auroraHandler H latQ lonQ w).status = 200)
    (hm : w.openMeteo = .response status (.ok om)) (hst : statusOk status = true)
    (hproc : processingCompletes H om w.clock) :
    ((auroraHandler H latQ lonQ w).field "cloud" ≠ some .null ↔ hourlyArraysMatch om) ∧
    (auroraHandler H latQ lonQ w).field "dark" ≠ some .null ∧
    (¬ hourlyArraysMatch om →
      (auroraHandler H latQ lonQ w).field "cloud" = some .null ∧
        ∃ v : ℕ, (auroraHandler H latQ lonQ w).field "visibility" = some (.num (v : ℚ))) := by
  obtain ⟨n, c, d, hc, _, _, _, hcloud, hdark, hvis⟩ :=
    auroraHandler_completes H latQ lonQ w status om hs hm hst hproc
  rw [hcloud, hdark, hvis]
  have hnone : ¬ hourlyArraysMatch om → c = none := by
    intro hn
    have h := cloudPhase_not_match H om w.clock.atHourSearch hn
    rw [hc] at h
    injection h
  refine ⟨⟨?_, ?_⟩, ?_, ?_⟩
  · intro hne
    by_contra hn
    apply hne
    rw [hnone hn]
    rfl
  · intro hmatch hnull
    injection hnull with hnull
    exact cloudPhase_match H om _ c hmatch hc ((cloudJson_eq_null_iff c).1 hnull)
  · intro h
    injection h with h
    exact darkJson_some_ne_null d h
  · intro hn
    rw [hnone hn]
    refine ⟨rfl, ?_⟩
    obtain ⟨v, hv, hr⟩ := visibilityOf_range n d.isNight none
    have hu := visibilityOf_unknown_cover (n : ℚ) d.isNight
    simp only [Option.map_none']
    rcases hr with rfl | ⟨m, _, rfl⟩
    · rw [hu] at hv
      simp at hv
    · rw [hv]
      exact ⟨m, rfl⟩

/-- C12 at the sample world (hourly arrays of length 3, `cloud` reported). -/
theorem cloud_presence_witness :
    (auroraHandler sampleHost (some "69.6") (some "18.9") (sampleWorld sampleEvening)).field
        "cloud" ≠ some .null ↔ hourlyArraysMatch sampleMeteo :=
  (cloud_presence sampleHost (some "69.6") (some "18.9") (sampleWorld sampleEvening) 200
    sampleMeteo (by decide!) rfl (by decide)
    (processingCompletes_of_isSome _ _ _ (by decide!) (by decide!))).1

/-- C13, the claim as stated fails for the pair (dark, visibility): no
upstream inputs make the request succeed with `dark` null and `visibility`
non-null. -/
theorem optional_fields_counterexample : ¬ nullWithout "dark" "visibility" := by
  rintro ⟨H, latQ, lonQ, w, hs, hd, _, hv⟩
  exact hv (dark_null_visibility_null H latQ lonQ w hs hd)

/-- C13, amended. For every ordered pair of distinct fields among `cloud`,
`dark`, `visibility` and `kp` other than (dark, visibility) there are upstream
inputs for which the request succeeds with the first field null and the second
non-null; in a successful response `visibility` is null whenever `dark` is. -/
theorem optional_fields_independence :
    nullWithout "cloud" "dark" ∧ nullWithout "cloud" "visibility" ∧ nullWithout "cloud" "kp" ∧
    nullWithout "dark" "cloud" ∧ nullWithout "dark" "kp" ∧
    nullWithout "visibility" "cloud" ∧ nullWithout "visibility" "dark" ∧
    nullWithout "visibility" "kp" ∧
    nullWithout "kp" "cloud" ∧ nullWithout "kp" "dark" ∧ nullWithout "kp" "visibility" ∧
    ∀ (H : Host) (latQ lonQ : Option String) (w : World),
      (auroraHandler H latQ lonQ w).status = 200 →
      (auroraHandler H latQ lonQ w).field "dark" = some .null →
      (auroraHandler H latQ lonQ w).field "visibility" = some .null := by
  refine ⟨?_, ?_, ?_, ?_, ?_, ?_, ?_, ?_, ?_, ?_, ?_, dark_null_visibility_null⟩
  · exact ⟨sampleHost, some "69.6", some "18.9",
      worldWith (dailyOnlyFeed [.str "2024-01-15T08:00"] [.str "2024-01-15T16:00"]) sampleEvening,
      by decide!, by decide!, by decide!, by decide!⟩
  · exact ⟨sampleHost, some "69.6", some "18.9",
      worldWith (dailyOnlyFeed [.str "2024-01-15T08:00"] [.str "2024-01-15T16:00"]) sampleEvening,
      by decide!, by decide!, by decide!, by decide!⟩
  · exact ⟨sampleHost, some "69.6", some "18.9",
      worldWith (dailyOnlyFeed [.str "2024-01-15T08:00"] [.str "2024-01-15T16:00"]) sampleEvening,
      by decide!, by decide!, by decide!, by decide!⟩
  · exact ⟨sampleHost, some "69.6", some "18.9",
      worldWith (meteoFeed (.num 35) [.obj [("toString", .num 1)]] [.str "2024-01-15T16:00"])
        sampleEvening,
      by decide!, by decide!, by decide!, by decide!⟩
  · exact ⟨sampleHost, some "69.6", some "18.9", worldWithoutMeteo sampleEvening,
      by decide!, by decide!, by decide!, by decide!⟩
  · exact ⟨sampleHost, some "69.6", some "18.9",
      worldWith (meteoFeed (.str "n/a") [.str "2024-01-15T08:00"] [.str "2024-01-15T16:00"])
        sampleEvening,
      by decide!, by decide!, by decide!, by decide!⟩
  · exact ⟨sampleHost, some "69.6", some "18.9",
      worldWith (meteoFeed (.str "n/a") [.str "2024-01-15T08:00"] [.str "2024-01-15T16:00"])
        sampleEvening,
      by decide!, by decide!, by decide!, by decide!⟩
  · exact ⟨sampleHost, some "69.6", some "18.9",
      worldWith (meteoFeed (.str "n/a") [.str "2024-01-15T08:00"] [.str "2024-01-15T16:00"])
        sampleEvening,
      by decide!, by decide!, by decide!, by decide!⟩
  · exact ⟨sampleHost, some "69.6", some "18.9", worldWithoutKp sampleMeteo sampleEvening,
      by decide!, by decide!, by decide!, by decide!⟩
  · exact ⟨sampleHost, some "69.6", some "18.9", worldWithoutKp sampleMeteo sampleEvening,
      by decide!, by decide!, by decide!, by decide!⟩
  · exact ⟨sampleHost, some "69.6", some "18.9", worldWithoutKp sampleMeteo sampleEvening,
      by decide!, by decide!, by decide!, by decide!⟩

/-- C14. In every response the field `cloud` is absent, null, or an object
whose status is 'Visibile' when its cover is a number `c <= 40` and 'Coperto'
when `c > 40`, and never the placeholder 'N/D': the variable `cloudStatus`
holds the placeholder only while `cloudCover` is null, and line 138 then
writes null. -/
theorem cloud_status_label (H : Host) (latQ lonQ : Option String) (w : World) :
    ((auroraHandler H latQ lonQ w).field "cloud" = none ∨
      (auroraHandler H latQ lonQ w).field "cloud" = some .null ∨
      ∃ cover label, (auroraHandler H latQ lonQ w).field "cloud" =
          some (.obj [("cover", cover), ("status", .str label)]) ∧
        label ≠ "N/D" ∧ (label = "Visibile" ∨ label = "Coperto") ∧
        ∀ c : ℚ, cover = .num c →
          (c ≤ 40 → label = "Visibile") ∧ (40 < c → label = "Coperto")) ∧
    ∀ (p : JSNum), cloudJson (enrichPhase H p w.openMeteo w.clock).cloud =
        cloudField (enrichPhase H p w.openMeteo w.clock).cloudCover
          (enrichPhase H p w.openMeteo w.clock).cloudStatus ∧
      ((enrichPhase H p w.openMeteo w.clock).cloudStatus = "N/D" →
        (enrichPhase H p w.openMeteo w.clock).cloudCover = none) := by
  constructor
  · rcases auroraHandler_cloud H latQ lonQ w with h | ⟨p, _, h⟩
    · exact Or.inl h
    · right
      rw [h]
      cases hc : (enrichPhase H p w.openMeteo w.clock).cloud with
      | none => exact Or.inl rfl
      | some c =>
        right
        obtain ⟨v, rfl⟩ := enrichPhase_cloud H _ _ _ c hc
        refine ⟨_, _, rfl, ?_, ?_, ?_⟩
        · split <;> decide
        · split
          · exact Or.inl rfl
          · exact Or.inr rfl
        · intro c hcov
          have hv : clampPercent v = JSNum.fin c := by
            cases hcl : clampPercent v <;> rw [hcl] at hcov <;> simp [JSNum.toJson] at hcov
            rw [hcov]
          rw [hv, le_forty]
          constructor
          · intro hle
            simp [hle]
          · intro hlt
            simp [not_le.2 hlt]
  · intro p
    refine ⟨cloudJson_eq_cloudField _, ?_⟩
    intro hplace
    cases hc : (enrichPhase H p w.openMeteo w.clock).cloud with
    | none => simp [Enriched.cloudCover, hc]
    | some c =>
      obtain ⟨v, rfl⟩ := enrichPhase_cloud H _ _ _ c hc
      simp only [Enriched.cloudStatus, hc] at hplace
      split at hplace <;> exact absurd hplace (by decide)

/-- C15, the claim as stated fails: both feeds are fetched with status 200,
the plasma feed is a non-empty array of rows (one row) and the magnetic-field
feed has three rows; the response is 502 with `ok:false`. -/
theorem solar_wind_latest_counterexample :
    oneRowPlasma = .arr [.arr [.str "2024-01-15 11:55:00.000", .str "5.12", .str "412.3",
      .str "98234"]] ∧
    (spaceweatherHandler sampleHost
      ⟨.response 200 (.ok oneRowPlasma), .response 200 (.ok sampleMag)⟩).status = 502 ∧
    (spaceweatherHandler sampleHost
      ⟨.response 200 (.ok oneRowPlasma), .response 200 (.ok sampleMag)⟩).body =
      .obj [("ok", .bool false), ("error", .str "Error: Space weather data unavailable")] := by
  refine ⟨rfl, by decide!, by decide!⟩

/-- C15, amended. When both feeds are fetched with an OK status and each is an
array of at least two rows whose last row is an array with columns that
convert to Numbers, the response is `ok:true` and reports the last rows:
`speed_km_s`, `density_p_cm3` and `temperature_K` are `Number` of the columns
2, 1 and 3 of the last plasma row, `bz_nT` and `bt_nT` of the columns 3 and 6
of the last magnetic-field row. The response is 502 with `{ok:false, error}`
only when a feed fails, has no latest row (fewer than two rows, or a falsy
last row) or has a column whose conversion raises; a feed of one row is
answered 502. -/
theorem solar_wind_latest (H : Host) (w : SpaceWorld) :
    (∀ (pStatus mStatus : ℕ) (prows mrows pcols mcols : List Json)
        (speed density temperature bz bt : JSNum),
      w.plasma = .response pStatus (.ok (.arr prows)) →
      w.mag = .response mStatus (.ok (.arr mrows)) →
      statusOk pStatus = true → statusOk mStatus = true →
      1 < prows.length → 1 < mrows.length →
      prows.getLast? = some (.arr pcols) → mrows.getLast? = some (.arr mcols) →
      toNumber H pcols[2]? = .ok speed → toNumber H pcols[1]? = .ok density →
      toNumber H pcols[3]? = .ok temperature →
      toNumber H mcols[3]? = .ok bz → toNumber H mcols[6]? = .ok bt →
      (spaceweatherHandler H w).status = 200 ∧
        (spaceweatherHandler H w).field "ok" = some (.bool true) ∧
        (spaceweatherHandler H w).field "speed_km_s" = some speed.toJson ∧
        (spaceweatherHandler H w).field "density_p_cm3" = some density.toJson ∧
        (spaceweatherHandler H w).field "temperature_K" = some temperature.toJson ∧
        (spaceweatherHandler H w).field "bz_nT" = some bz.toJson ∧
        (spaceweatherHandler H w).field "bt_nT" = some bt.toJson) ∧
    ((spaceweatherHandler H w).status = 502 →
      (∃ e, (spaceweatherHandler H w).body = .obj [("ok", .bool false), ("error", .str e)]) ∧
        (feedFails w.plasma ∨ feedFails w.mag ∨ lacksLatestRow w.plasma ∨
          lacksLatestRow w.mag ∨
          ∃ pStatus mStatus plasma mag e, w.plasma = .response pStatus (.ok plasma) ∧
            w.mag = .response mStatus (.ok mag) ∧
            spaceBody H (lastRow plasma) (lastRow mag) = .error e)) ∧
    (∀ (pStatus : ℕ) (row : Json), w.plasma = .response pStatus (.ok (.arr [row])) →
      (spaceweatherHandler H w).status = 502) ∧
    (∀ (mStatus : ℕ) (row : Json), w.mag = .response mStatus (.ok (.arr [row])) →
      (spaceweatherHandler H w).status = 502) := by
  refine ⟨?_, ?_, ?_, ?_⟩
  · intro pStatus mStatus prows mrows pcols mcols speed density temperature bz bt hp hm hpst
      hmst hplen hmlen hplast hmlast h1 h2 h3 h4 h5
    have hbody : spacePhase H w = .ok (.obj [("ok", .bool true),
        ("time", orNull (orElse pcols[0]? mcols[0]?)),
        ("speed_km_s", speed.toJson), ("density_p_cm3", density.toJson),
        ("temperature_K", temperature.toJson), ("bz_nT", bz.toJson),
        ("bt_nT", bt.toJson)]) := by
      simp [spacePhase, hp, hm, hpst, hmst, lastRow_of_rows prows pcols hplen hplast,
        lastRow_of_rows mrows mcols hmlen hmlast, Json.truthy, spaceBody, indexAt, h1, h2, h3,
        h4, h5]
    simp [spaceweatherHandler, hbody, Reply.field, Json.getOwn, List.lookup]
  · intro h502
    rcases spaceweatherHandler_status H w with ⟨h200, _⟩ | ⟨_, e, he, hb⟩
    · rw [h200] at h502
      exact absurd h502 (by decide)
    · refine ⟨⟨e, hb⟩, ?_⟩
      rcases spacePhase_error_cases H w e he with h | h | h | h | ⟨a, b, c, d, h⟩
      · exact Or.inl h
      · exact Or.inr (Or.inl h)
      · exact Or.inr (Or.inr (Or.inl h))
      · exact Or.inr (Or.inr (Or.inr (Or.inl h)))
      · exact Or.inr (Or.inr (Or.inr (Or.inr ⟨a, b, c, d, e, h⟩)))
  · intro pStatus row hp
    obtain ⟨plasmaR, magR⟩ := w
    simp only at hp
    subst hp
    cases magR with
    | rejected reason => simp [spaceweatherHandler, spacePhase]
    | response mStatus mBody =>
      cases mBody <;>
        by_cases h : (!statusOk pStatus || !statusOk mStatus) = true <;>
        simp [spaceweatherHandler, spacePhase, h, lastRow_single, Json.truthy]
  · intro mStatus row hm
    obtain ⟨plasmaR, magR⟩ := w
    simp only at hm
    subst hm
    cases plasmaR with
    | rejected reason => simp [spaceweatherHandler, spacePhase]
    | response pStatus pBody =>
      cases pBody <;>
        by_cases h : (!statusOk pStatus || !statusOk mStatus) = true <;>
        simp [spaceweatherHandler, spacePhase, h, lastRow_single, Json.truthy]

/-- C15 at the sample feeds: the response reports the last rows, speed 412.3,
density 5.12, temperature 98234, bz -3.75 and bt 4.68. -/
theorem solar_wind_latest_witness :
    (spaceweatherHandler sampleHost
      ⟨.response 200 (.ok samplePlasma), .response 200 (.ok sampleMag)⟩).body =
      .obj [("ok", .bool true), ("time", .str "2024-01-15 11:55:00.000"),
        ("speed_km_s", .num (4123 / 10)), ("density_p_cm3", .num (128 / 25)),
        ("temperature_K", .num 98234), ("bz_nT", .num (-15 / 4)), ("bt_nT", .num (117 / 25))] ∧
    ((spaceweatherHandler sampleHost
        ⟨.response 200 (.ok samplePlasma), .response 200 (.ok sampleMag)⟩).status = 200 ∧
      (spaceweatherHandler sampleHost
        ⟨.response 200 (.ok samplePlasma), .response 200 (.ok sampleMag)⟩).field "ok" =
        some (.bool true)) :=
  ⟨by decide!,
    let h := (solar_wind_latest sampleHost
      ⟨.response 200 (.ok samplePlasma), .response 200 (.ok sampleMag)⟩).1 200 200 _ _
      [.str "2024-01-15 11:55:00.000", .str "5.12", .str "412.3", .str "98234"]
      [.str "2024-01-15 11:55:00.000", .str "1.25", .str "-2.50", .str "-3.75",
        .str "296.57", .str "-53.30", .str "4.68"]
      (stringToNumber "412.3") (stringToNumber "5.12") (stringToNumber "98234")
      (stringToNumber "-3.75") (stringToNumber "4.68")
      rfl rfl (by decide) (by decide) (by decide) (by decide) rfl rfl rfl rfl rfl rfl rfl
    ⟨h.1, h.2.1⟩⟩

/-- C16. In every successful response whose visibility is a number `v`, `v`
is an integer with `0 <= v <= probability`. -/
theorem visibility_at_most_probability (H : Host) (latQ lonQ : Option String) (w : World)
    (v : ℚ) (hs : (auroraHandler H latQ lonQ w).status = 200)
    (hv : (auroraHandler H latQ lonQ w).field "visibility" = some (.num v)) :
    ∃ p m : ℕ, (auroraHandler H latQ lonQ w).field "probability" = some (.num (p : ℚ)) ∧
      v = (m : ℚ) ∧ 0 ≤ v ∧ v ≤ (p : ℚ) := by
  obtain ⟨p, _, hp, hvis⟩ := auroraHandler_visibility_range H latQ lonQ w hs
  rcases hvis with h | ⟨m, hm, h⟩
  · rw [h] at hv
    simp at hv
  · rw [h] at hv
    simp at hv
    refine ⟨p, m, hp, hv.symm, ?_, ?_⟩
    · rw [← hv]
      exact Nat.cast_nonneg m
    · rw [← hv]
      exact_mod_cast hm

/-- C16 at the sample world in the evening: visibility 52, probability 80. -/
theorem visibility_at_most_probability_witness :
    (auroraHandler sampleHost (some "69.6") (some "18.9") (sampleWorld sampleEvening)).field
        "visibility" = some (.num 52) ∧
    ∃ p m : ℕ, (auroraHandler sampleHost (some "69.6") (some "18.9")
        (sampleWorld sampleEvening)).field "probability" = some (.num (p : ℚ)) ∧
      (52 : ℚ) = (m : ℚ) ∧ (0 : ℚ) ≤ 52 ∧ (52 : ℚ) ≤ (p : ℚ) :=
  ⟨by decide!,
    visibility_at_most_probability sampleHost (some "69.6") (some "18.9")
      (sampleWorld sampleEvening) 52 (by decide!) (by decide!)⟩

/-- C17, the claim as stated fails. First world: the cloud-cover values of the
weather feed are the string "n/a"; the request succeeds, `dark` is non-null
and `visibility` is null. Second world: the weather feed answers with status
200 and a body that parses, and `dark` and `visibility` are both null. -/
theorem visibility_iff_dark_counterexample :
    ((auroraHandler sampleHost (some "69.6") (some "18.9")
        (worldWith (meteoFeed (.str "n/a") [.str "2024-01-15T08:00"] [.str "2024-01-15T16:00"])
          sampleEvening)).status = 200 ∧
      (auroraHandler sampleHost (some "69.6") (some "18.9")
        (worldWith (meteoFeed (.str "n/a") [.str "2024-01-15T08:00"] [.str "2024-01-15T16:00"])
          sampleEvening)).field "dark" =
        some (.obj [("isNight", .bool true), ("sunrise", .str "2024-01-15T08:00"),
          ("sunset", .str "2024-01-15T16:00")]) ∧
      (auroraHandler sampleHost (some "69.6") (some "18.9")
        (worldWith (meteoFeed (.str "n/a") [.str "2024-01-15T08:00"] [.str "2024-01-15T16:00"])
          sampleEvening)).field "visibility" = some .null) ∧
    ((worldWith shadowedMeteo sampleEvening).openMeteo = .response 200 (.ok shadowedMeteo) ∧
      (auroraHandler sampleHost (some "69.6") (some "18.9")
        (worldWith shadowedMeteo sampleEvening)).status = 200 ∧
      (auroraHandler sampleHost (some "69.6") (some "18.9")
        (worldWith shadowedMeteo sampleEvening)).field "dark" = some .null ∧
      (auroraHandler sampleHost (some "69.6") (some "18.9")
        (worldWith shadowedMeteo sampleEvening)).field "visibility" = some .null) := by
  refine ⟨⟨by decide!, by decide!, by decide!⟩, rfl, by decide!, by decide!, by decide!⟩

/-- C17, amended. In every successful response the probability is finite, so
the guard `Number.isFinite(probability)` holds whenever it is reached and
`visibility` is assigned exactly when `dark` is: `dark` is non-null exactly
when the weather feed answered with an OK status and a body that parses and
the processing of the body raised no exception; a non-null `visibility`
implies a non-null `dark`; and with `dark` non-null, `visibility` is null
exactly when the cloud cover is not a number (the visibility is then NaN,
which is written as null). -/
theorem visibility_iff_dark (H : Host) (latQ lonQ : Option String) (w : World)
    (hs : (auroraHandler H latQ lonQ w).status = 200) :
    (∃ p : ℕ, (auroraHandler H latQ lonQ w).field "probability" = some (.num (p : ℚ)) ∧
      ∀ isNight cloudCover, visibilityOf (JSNum.fin (p : ℚ)) isNight cloudCover ≠ none) ∧
    ((auroraHandler H latQ lonQ w).field "visibility" ≠ some .null →
      (auroraHandler H latQ lonQ w).field "dark" ≠ some .null) ∧
    ((auroraHandler H latQ lonQ w).field "dark" ≠ some .null →
      ((auroraHandler H latQ lonQ w).field "visibility" = some .null ↔
        ∃ label, (auroraHandler H latQ lonQ w).field "cloud" =
          some (.obj [("cover", .null), ("status", label)]))) ∧
    ((auroraHandler H latQ lonQ w).field "dark" ≠ some .null ↔
      ∃ status om, w.openMeteo = .response status (.ok om) ∧ statusOk status = true ∧
        processingCompletes H om w.clock) := by
  refine ⟨?_, ?_, ?_, auroraHandler_dark_iff H latQ lonQ w hs⟩
  · obtain ⟨p, _, hp, _⟩ := auroraHandler_visibility_range H latQ lonQ w hs
    refine ⟨p, hp, ?_⟩
    intro isNight cloudCover
    simp [visibilityOf, JSNum.isFinite]
  · intro hv hd
    exact hv (dark_null_visibility_null H latQ lonQ w hs hd)
  · intro hd
    obtain ⟨p, isNight, sunrise, sunset, _, _, hnull, hnum, hnan⟩ :=
      auroraHandler_visibility H latQ lonQ w hs hd
    constructor
    · intro hv
      rcases auroraHandler_cloud_shape H latQ lonQ w hs with hc | ⟨cover, label, hc, hcov⟩
      · rw [hnull hc] at hv
        simp at hv
      · rcases hcov with rfl | ⟨n, _, rfl⟩
        · exact ⟨_, hc⟩
        · rw [hnum _ _ hc] at hv
          simp at hv
    · rintro ⟨label, hc⟩
      exact hnan label hc

/-- C17 at the sample world in the evening: `visibility` and `dark` are both
non-null. -/
theorem visibility_iff_dark_witness :
    (auroraHandler sampleHost (some "69.6") (some "18.9") (sampleWorld sampleEvening)).field
        "visibility" ≠ some .null ∧
    (auroraHandler sampleHost (some "69.6") (some "18.9") (sampleWorld sampleEvening)).field
        "dark" ≠ some .null :=
  ⟨by decide!,
    (visibility_iff_dark sampleHost (some "69.6") (some "18.9") (sampleWorld sampleEvening)
      (by decide!)).2.1 (by decide!)⟩

/-- C18. For every probability `p` and every `isNight`, if the integers
`c1 <= c2` are cloud covers (in particular with `p`, `c1` and `c2` from 0 to
100) then the visibility computed with cloud cover `c2` is at most the one
computed with `c1`, and the visibility computed with a null cloud cover equals
the one computed with cloud cover 0. -/
theorem visibility_monotone (p c1 c2 : ℕ) (isNight : Option Bool) (h12 : c1 ≤ c2) :
    (∃ v1 v2 : ℤ,
      visibilityOf (JSNum.fin (p : ℚ)) isNight (some (JSNum.fin (c1 : ℚ))) =
        some (JSNum.fin (v1 : ℚ)) ∧
      visibilityOf (JSNum.fin (p : ℚ)) isNight (some (JSNum.fin (c2 : ℚ))) =
        some (JSNum.fin (v2 : ℚ)) ∧
      v2 ≤ v1 ∧ 0 ≤ v2 ∧ v1 ≤ (p : ℤ)) ∧
    visibilityOf (JSNum.fin (p : ℚ)) isNight none =
      visibilityOf (JSNum.fin (p : ℚ)) isNight (some (JSNum.fin 0)) := by
  have h12q : (c1 : ℚ) ≤ (c2 : ℚ) := by exact_mod_cast h12
  have hpq : (0 : ℚ) ≤ (p : ℚ) := Nat.cast_nonneg p
  constructor
  · refine ⟨_, _, visibilityOf_known_cover p c1 isNight, visibilityOf_known_cover p c2 isNight,
      visibilitySpec_antitone p c1 c2 isNight hpq h12q, ?_, ?_⟩
    · obtain ⟨v, hv, hr⟩ := visibilityOf_range p isNight (some (JSNum.fin (c2 : ℚ)))
      rw [visibilityOf_known_cover] at hv
      rcases hr with rfl | ⟨m, _, rfl⟩
      · simp at hv
      · simp only [Option.some.injEq, JSNum.fin.injEq] at hv
        have : visibilitySpec (p : ℚ) isNight (some (c2 : ℚ)) = (m : ℤ) := by exact_mod_cast hv
        rw [this]
        exact Int.natCast_nonneg m
    · obtain ⟨v, hv, hr⟩ := visibilityOf_range p isNight (some (JSNum.fin (c1 : ℚ)))
      rw [visibilityOf_known_cover] at hv
      rcases hr with rfl | ⟨m, hm, rfl⟩
      · simp at hv
      · simp only [Option.some.injEq, JSNum.fin.injEq] at hv
        have : visibilitySpec (p : ℚ) isNight (some (c1 : ℚ)) = (m : ℤ) := by exact_mod_cast hv
        rw [this]
        exact_mod_cast hm
  · rw [visibilityOf_unknown_cover, visibilityOf_known_cover, visibilitySpec_unknown_eq_clear]

/-- C18 at probability 80 at night with the cloud covers 0 and 35: the
visibilities are 80 and 52. -/
theorem visibility_monotone_witness :
    (visibilityOf (JSNum.fin 80) (some true) (some (JSNum.fin 0)) = some (JSNum.fin 80) ∧
      visibilityOf (JSNum.fin 80) (some true) (some (JSNum.fin 35)) = some (JSNum.fin 52)) ∧
    ∃ v1 v2 : ℤ,
      visibilityOf (JSNum.fin ((80 : ℕ) : ℚ)) (some true) (some (JSNum.fin ((0 : ℕ) : ℚ))) =
        some (JSNum.fin (v1 : ℚ)) ∧
      visibilityOf (JSNum.fin ((80 : ℕ) : ℚ)) (some true) (some (JSNum.fin ((35 : ℕ) : ℚ))) =
        some (JSNum.fin (v2 : ℚ)) ∧
      v2 ≤ v1 ∧ 0 ≤ v2 ∧ v1 ≤ ((80 : ℕ) : ℤ) :=
  ⟨⟨by decide!, by decide!⟩,
    (visibility_monotone 80 0 35 (some true) (by decide)).1⟩

end Borealis
